import Mathlib

set_option maxHeartbeats 10000000
set_option maxRecDepth 8000

/-!
# Verification of the AST folder (`src/src/libsyntax/fold.rs`)

This file shallowly embeds the `Folder` of `src/src/libsyntax/fold.rs`:
the generic AST-to-AST structural transform with one override point per
node kind, two universal rewrite hooks (`new_id`, `new_span`), a
multiplicity-returning fold for items / statements / impl items / trait
items, token and macro-invocation folding, the interpolated-fragment
adapter, and the whole-crate assembler.

The node-kind catalog (`ast.rs`, `parse/token.rs`, `util/small_vector.rs`)
is external to the repository; its shape is reconstructed here exactly as
the fold destructures and rebuilds it.  Leaf payloads that the fold never
inspects (ABIs, mutability, literals, ...) are modelled as `Nat`/`String`.
Rust's fatal `panic!`/`assert!` are modelled by `Except String`; ownership
wrappers (`P`, `Rc`, `Box`) are dropped since Lean values are immutable.
-/

namespace Ast

/-! ## Leaf payload types (external data model, never folded) -/

abbrev Ident := String
abbrev Name := String
abbrev InternedString := String
abbrev NodeId := Nat
abbrev Span := Nat
abbrev AttrId := Nat
abbrev SyntaxContext := Nat
abbrev ExpnId := Nat
abbrev Abi := Nat
abbrev Unsafety := Nat
abbrev Constness := Nat
abbrev Mutability := Nat
abbrev Defaultness := Nat
abbrev AttrStyle := Nat
abbrev BindingMode := Nat
abbrev RangeLimits := Nat
abbrev CaptureBy := Nat
abbrev BlockCheckMode := Nat
abbrev BinOp := Nat
abbrev UnOp := Nat
abbrev Lit := Nat
abbrev StrStyle := Nat
abbrev AsmDialect := Nat
abbrev DelimToken := Nat
abbrev KleeneOp := Nat
abbrev IdentStyle := Nat
abbrev MacStmtStyle := Nat
abbrev TraitBoundModifier := Nat
abbrev ImplPolarity := Nat

inductive Visibility where
  | Public
  | Inherited

/-- `codemap::Spanned`: a node together with its source span. -/
structure Spanned (α : Type) where
  node : α
  span : Span

/-- `codemap::respan`. -/
def respan (sp : Span) (x : α) : Spanned α := ⟨x, sp⟩

/-- `ast::MetaItemKind` (the source constructor `List` is rendered
`MetaList` to avoid clashing with Lean's `List`). -/
inductive MetaItemKind where
  | Word (name : InternedString)
  | MetaList (name : InternedString) (items : List (Spanned MetaItemKind))
  | NameValue (name : InternedString) (value : Lit)

abbrev MetaItem := Spanned MetaItemKind

/-- `ast::Attribute_`. -/
structure Attribute_ where
  id : AttrId
  style : AttrStyle
  value : MetaItem
  is_sugared_doc : Bool

abbrev Attribute := Spanned Attribute_

/-- `attr::ThinAttributes` (an optional boxed attribute vector). -/
abbrev ThinAttributes := Option (List Attribute)

/-- `ast::Lifetime`. -/
structure Lifetime where
  id : NodeId
  name : Name
  span : Span

/-- `ast::LifetimeDef`. -/
structure LifetimeDef where
  lifetime : Lifetime
  bounds : List Lifetime

/-- `ast::WhereRegionPredicate`. -/
structure WhereRegionPredicate where
  lifetime : Lifetime
  bounds : List Lifetime
  span : Span

/-- `ast::PathListItemKind` (source constructors `Ident` / `Mod`,
rendered `IdentItem` / `ModItem` to avoid clashes). -/
inductive PathListItemKind where
  | IdentItem (id : NodeId) (name : Ident) (rename : Option Ident)
  | ModItem (id : NodeId) (rename : Option Ident)

abbrev PathListItem := Spanned PathListItemKind

/-- `ast::StructFieldKind` (external): a named field carries the
declaration-side field name. -/
inductive StructFieldKind where
  | NamedField (name : Ident) (vis : Visibility)
  | UnnamedField (vis : Visibility)

/-! ## The mutually recursive node-kind catalog

Exactly the shapes destructured and rebuilt by `fold.rs`.  Constructors
whose source name collides with a Lean keyword or an ambient type are
renamed with a suffix (`TypeE`/`TypeT`/`TypeI` for `Type`,
`PolyTraitRefTy` for `TyKind::PolyTraitRef`, `InlineAsmE` for
`ExprKind::InlineAsm`). -/

/-- Index tags: one per node kind of the mutually recursive catalog. -/
inductive NK where
  | path
  | pathSegment
  | pathParameters
  | angleBracketedParameterData
  | parenthesizedParameterData
  | typeBinding
  | ty
  | tyKind
  | mutTy
  | bareFnTy
  | qSelf
  | tyParamBound
  | polyTraitRef
  | traitRef
  | expr
  | exprKind
  | inlineAsm
  | asmInput
  | inlineAsmOutput
  | field
  | arm
  | pat
  | patKind
  | fieldPat
  | spannedFieldPat
  | block
  | stmt
  | stmtKind
  | decl
  | declKind
  | local
  | mac_
  | mac
  | tokenTree
  | delimited
  | sequenceRepetition
  | token
  | nonterminal
  | item
  | itemKind
  | viewPath
  | viewPath_
  | enumDef
  | variant
  | variant_
  | variantData
  | structField
  | structField_
  | generics
  | tyParam
  | whereClause
  | wherePredicate
  | whereBoundPredicate
  | whereEqPredicate
  | fnDecl
  | arg
  | functionRetTy
  | traitItem
  | traitItemKind
  | methodSig
  | explicitSelf
  | selfKind
  | implItem
  | implItemKind
  | foreignItem
  | foreignItemKind
  | mod
  | foreignMod

/-- The node-kind catalog as a single indexed family: `Nd NK.x` is the
type that the source calls `x`.  Constructor `X_C` is constructor `C` of
source type `X`; field names and order match the source exactly. -/
inductive Nd : NK → Type where
  | Path_mk (global : Bool) (segments : List (Nd .pathSegment)) (span : Span) : Nd .path
  | PathSegment_mk (identifier : Ident) (parameters : (Nd .pathParameters)) : Nd .pathSegment
  | PathParameters_AngleBracketed (data : (Nd .angleBracketedParameterData)) : Nd .pathParameters
  | PathParameters_Parenthesized (data : (Nd .parenthesizedParameterData)) : Nd .pathParameters
  | AngleBracketedParameterData_mk (lifetimes : List Lifetime) (types : List (Nd .ty)) (bindings : List (Nd .typeBinding)) : Nd .angleBracketedParameterData
  | ParenthesizedParameterData_mk (inputs : List (Nd .ty)) (output : Option (Nd .ty)) (span : Span) : Nd .parenthesizedParameterData
  | TypeBinding_mk (id : NodeId) (ident : Ident) (ty : (Nd .ty)) (span : Span) : Nd .typeBinding
  | Ty_mk (id : NodeId) (node : (Nd .tyKind)) (span : Span) : Nd .ty
  | TyKind_Infer  : Nd .tyKind
  | TyKind_Vec (ty : (Nd .ty)) : Nd .tyKind
  | TyKind_Ptr (mt : (Nd .mutTy)) : Nd .tyKind
  | TyKind_Rptr (region : Option Lifetime) (mt : (Nd .mutTy)) : Nd .tyKind
  | TyKind_BareFn (f : (Nd .bareFnTy)) : Nd .tyKind
  | TyKind_Tup (tys : List (Nd .ty)) : Nd .tyKind
  | TyKind_Paren (ty : (Nd .ty)) : Nd .tyKind
  | TyKind_Path (qself : Option (Nd .qSelf)) (path : (Nd .path)) : Nd .tyKind
  | TyKind_ObjectSum (ty : (Nd .ty)) (bounds : List (Nd .tyParamBound)) : Nd .tyKind
  | TyKind_FixedLengthVec (ty : (Nd .ty)) (e : (Nd .expr)) : Nd .tyKind
  | TyKind_Typeof (expr : (Nd .expr)) : Nd .tyKind
  | TyKind_PolyTraitRefTy (bounds : List (Nd .tyParamBound)) : Nd .tyKind
  | TyKind_Mac (mac : (Nd .mac)) : Nd .tyKind
  | MutTy_mk (ty : (Nd .ty)) (mutbl : Mutability) : Nd .mutTy
  | BareFnTy_mk (lifetimes : List LifetimeDef) (unsafety : Unsafety) (abi : Abi) (decl : (Nd .fnDecl)) : Nd .bareFnTy
  | QSelf_mk (ty : (Nd .ty)) (position : Nat) : Nd .qSelf
  | TyParamBound_TraitTyParamBound (ty : (Nd .polyTraitRef)) (modifier : TraitBoundModifier) : Nd .tyParamBound
  | TyParamBound_RegionTyParamBound (lifetime : Lifetime) : Nd .tyParamBound
  | PolyTraitRef_mk (bound_lifetimes : List LifetimeDef) (trait_ref : (Nd .traitRef)) (span : Span) : Nd .polyTraitRef
  | TraitRef_mk (path : (Nd .path)) (ref_id : NodeId) : Nd .traitRef
  | Expr_mk (id : NodeId) (node : (Nd .exprKind)) (span : Span) (attrs : ThinAttributes) : Nd .expr
  | ExprKind_Box (e : (Nd .expr)) : Nd .exprKind
  | ExprKind_InPlace (p : (Nd .expr)) (e : (Nd .expr)) : Nd .exprKind
  | ExprKind_Vec (exprs : List (Nd .expr)) : Nd .exprKind
  | ExprKind_Repeat (expr : (Nd .expr)) (count : (Nd .expr)) : Nd .exprKind
  | ExprKind_Tup (exprs : List (Nd .expr)) : Nd .exprKind
  | ExprKind_Call (f : (Nd .expr)) (args : List (Nd .expr)) : Nd .exprKind
  | ExprKind_MethodCall (i : Spanned Ident) (tps : List (Nd .ty)) (args : List (Nd .expr)) : Nd .exprKind
  | ExprKind_Binary (op : BinOp) (lhs : (Nd .expr)) (rhs : (Nd .expr)) : Nd .exprKind
  | ExprKind_Unary (op : UnOp) (ohs : (Nd .expr)) : Nd .exprKind
  | ExprKind_Lit (l : Lit) : Nd .exprKind
  | ExprKind_Cast (expr : (Nd .expr)) (ty : (Nd .ty)) : Nd .exprKind
  | ExprKind_TypeE (expr : (Nd .expr)) (ty : (Nd .ty)) : Nd .exprKind
  | ExprKind_AddrOf (m : Mutability) (ohs : (Nd .expr)) : Nd .exprKind
  | ExprKind_If (cond : (Nd .expr)) (tr : (Nd .block)) (fl : Option (Nd .expr)) : Nd .exprKind
  | ExprKind_IfLet (pat : (Nd .pat)) (expr : (Nd .expr)) (tr : (Nd .block)) (fl : Option (Nd .expr)) : Nd .exprKind
  | ExprKind_While (cond : (Nd .expr)) (body : (Nd .block)) (label : Option Ident) : Nd .exprKind
  | ExprKind_WhileLet (pat : (Nd .pat)) (expr : (Nd .expr)) (body : (Nd .block)) (label : Option Ident) : Nd .exprKind
  | ExprKind_ForLoop (pat : (Nd .pat)) (iter : (Nd .expr)) (body : (Nd .block)) (label : Option Ident) : Nd .exprKind
  | ExprKind_Loop (body : (Nd .block)) (label : Option Ident) : Nd .exprKind
  | ExprKind_Match (expr : (Nd .expr)) (arms : List (Nd .arm)) : Nd .exprKind
  | ExprKind_Closure (capture : CaptureBy) (decl : (Nd .fnDecl)) (body : (Nd .block)) : Nd .exprKind
  | ExprKind_Block (blk : (Nd .block)) : Nd .exprKind
  | ExprKind_Assign (el : (Nd .expr)) (er : (Nd .expr)) : Nd .exprKind
  | ExprKind_AssignOp (op : BinOp) (el : (Nd .expr)) (er : (Nd .expr)) : Nd .exprKind
  | ExprKind_Field (el : (Nd .expr)) (ident : Spanned Ident) : Nd .exprKind
  | ExprKind_TupField (el : (Nd .expr)) (idx : Spanned Nat) : Nd .exprKind
  | ExprKind_Index (el : (Nd .expr)) (er : (Nd .expr)) : Nd .exprKind
  | ExprKind_Range (e1 : Option (Nd .expr)) (e2 : Option (Nd .expr)) (lim : RangeLimits) : Nd .exprKind
  | ExprKind_Path (qself : Option (Nd .qSelf)) (path : (Nd .path)) : Nd .exprKind
  | ExprKind_Break (label : Option (Spanned Ident)) : Nd .exprKind
  | ExprKind_Again (label : Option (Spanned Ident)) : Nd .exprKind
  | ExprKind_Ret (e : Option (Nd .expr)) : Nd .exprKind
  | ExprKind_InlineAsmE (asm : (Nd .inlineAsm)) : Nd .exprKind
  | ExprKind_Mac (mac : (Nd .mac)) : Nd .exprKind
  | ExprKind_Struct (path : (Nd .path)) (fields : List (Nd .field)) (maybe_expr : Option (Nd .expr)) : Nd .exprKind
  | ExprKind_Paren (ex : (Nd .expr)) : Nd .exprKind
  | ExprKind_Try (ex : (Nd .expr)) : Nd .exprKind
  | InlineAsm_mk (inputs : List (Nd .asmInput)) (outputs : List (Nd .inlineAsmOutput)) (asm : InternedString) (asm_str_style : StrStyle) (clobbers : List InternedString) (volatile : Bool) (alignstack : Bool) (dialect : AsmDialect) (expn_id : ExpnId) : Nd .inlineAsm
  | AsmInput_mk (constraint : InternedString) (expr : (Nd .expr)) : Nd .asmInput
  | InlineAsmOutput_mk (constraint : InternedString) (expr : (Nd .expr)) (is_rw : Bool) (is_indirect : Bool) : Nd .inlineAsmOutput
  | Field_mk (ident : Spanned Ident) (expr : (Nd .expr)) (span : Span) : Nd .field
  | Arm_mk (attrs : List Attribute) (pats : List (Nd .pat)) (guard : Option (Nd .expr)) (body : (Nd .expr)) : Nd .arm
  | Pat_mk (id : NodeId) (node : (Nd .patKind)) (span : Span) : Nd .pat
  | PatKind_Wild  : Nd .patKind
  | PatKind_Ident (binding_mode : BindingMode) (pth1 : Spanned Ident) (sub : Option (Nd .pat)) : Nd .patKind
  | PatKind_Lit (e : (Nd .expr)) : Nd .patKind
  | PatKind_TupleStruct (path : (Nd .path)) (pats : Option (List (Nd .pat))) : Nd .patKind
  | PatKind_Path (path : (Nd .path)) : Nd .patKind
  | PatKind_QPath (qself : (Nd .qSelf)) (path : (Nd .path)) : Nd .patKind
  | PatKind_Struct (path : (Nd .path)) (fields : List (Nd .spannedFieldPat)) (etc : Bool) : Nd .patKind
  | PatKind_Tup (elts : List (Nd .pat)) : Nd .patKind
  | PatKind_Box (inner : (Nd .pat)) : Nd .patKind
  | PatKind_Ref (inner : (Nd .pat)) (mutbl : Mutability) : Nd .patKind
  | PatKind_Range (e1 : (Nd .expr)) (e2 : (Nd .expr)) : Nd .patKind
  | PatKind_Vec (before : List (Nd .pat)) (slice : Option (Nd .pat)) (after : List (Nd .pat)) : Nd .patKind
  | PatKind_Mac (mac : (Nd .mac)) : Nd .patKind
  | FieldPat_mk (ident : Ident) (pat : (Nd .pat)) (is_shorthand : Bool) : Nd .fieldPat
  | SpannedFieldPat_mk (node : (Nd .fieldPat)) (span : Span) : Nd .spannedFieldPat
  | Block_mk (id : NodeId) (stmts : List (Nd .stmt)) (expr : Option (Nd .expr)) (rules : BlockCheckMode) (span : Span) : Nd .block
  | Stmt_mk (node : (Nd .stmtKind)) (span : Span) : Nd .stmt
  | StmtKind_Decl (d : (Nd .decl)) (id : NodeId) : Nd .stmtKind
  | StmtKind_Expr (e : (Nd .expr)) (id : NodeId) : Nd .stmtKind
  | StmtKind_Semi (e : (Nd .expr)) (id : NodeId) : Nd .stmtKind
  | StmtKind_Mac (mac : (Nd .mac)) (style : MacStmtStyle) (attrs : ThinAttributes) : Nd .stmtKind
  | Decl_mk (node : (Nd .declKind)) (span : Span) : Nd .decl
  | DeclKind_Local (l : (Nd .local)) : Nd .declKind
  | DeclKind_Item (it : (Nd .item)) : Nd .declKind
  | Local_mk (id : NodeId) (pat : (Nd .pat)) (ty : Option (Nd .ty)) (init : Option (Nd .expr)) (span : Span) (attrs : ThinAttributes) : Nd .local
  | Mac__mk (path : (Nd .path)) (tts : List (Nd .tokenTree)) (ctxt : SyntaxContext) : Nd .mac_
  | Mac_mk (node : (Nd .mac_)) (span : Span) : Nd .mac
  | TokenTree_Token (span : Span) (tok : (Nd .token)) : Nd .tokenTree
  | TokenTree_Delimited (span : Span) (delimed : (Nd .delimited)) : Nd .tokenTree
  | TokenTree_Sequence (span : Span) (seq : (Nd .sequenceRepetition)) : Nd .tokenTree
  | Delimited_mk (delim : DelimToken) (open_span : Span) (tts : List (Nd .tokenTree)) (close_span : Span) : Nd .delimited
  | SequenceRepetition_mk (tts : List (Nd .tokenTree)) (separator : Option (Nd .token)) (op : KleeneOp) (num_captures : Nat) : Nd .sequenceRepetition
  | Token_Ident (id : Ident) (style : IdentStyle) : Nd .token
  | Token_Lifetime (id : Ident) : Nd .token
  | Token_Interpolated (nt : (Nd .nonterminal)) : Nd .token
  | Token_SubstNt (ident : Ident) (namep : IdentStyle) : Nd .token
  | Token_MatchNt (name : Ident) (kind : Ident) (namep : IdentStyle) (kindp : IdentStyle) : Nd .token
  | Token_Literal (lit : Lit) (suffix : Option Name) : Nd .token
  | Token_Keyword (kw : Nat) : Nd .token
  | Token_Other (k : Nat) : Nd .token
  | Nonterminal_NtItem (item : (Nd .item)) : Nd .nonterminal
  | Nonterminal_NtBlock (block : (Nd .block)) : Nd .nonterminal
  | Nonterminal_NtStmt (stmt : (Nd .stmt)) : Nd .nonterminal
  | Nonterminal_NtPat (pat : (Nd .pat)) : Nd .nonterminal
  | Nonterminal_NtExpr (expr : (Nd .expr)) : Nd .nonterminal
  | Nonterminal_NtTy (ty : (Nd .ty)) : Nd .nonterminal
  | Nonterminal_NtIdent (id : Spanned Ident) (is_mod_name : Bool) : Nd .nonterminal
  | Nonterminal_NtMeta (meta_item : MetaItem) : Nd .nonterminal
  | Nonterminal_NtPath (path : (Nd .path)) : Nd .nonterminal
  | Nonterminal_NtTT (tt : (Nd .tokenTree)) : Nd .nonterminal
  | Nonterminal_NtArm (arm : (Nd .arm)) : Nd .nonterminal
  | Nonterminal_NtImplItem (item : (Nd .implItem)) : Nd .nonterminal
  | Nonterminal_NtTraitItem (item : (Nd .traitItem)) : Nd .nonterminal
  | Nonterminal_NtGenerics (generics : (Nd .generics)) : Nd .nonterminal
  | Nonterminal_NtWhereClause (where_clause : (Nd .whereClause)) : Nd .nonterminal
  | Nonterminal_NtArg (arg : (Nd .arg)) : Nd .nonterminal
  | Item_mk (id : NodeId) (ident : Ident) (attrs : List Attribute) (node : (Nd .itemKind)) (vis : Visibility) (span : Span) : Nd .item
  | ItemKind_ExternCrate (name : Option Name) : Nd .itemKind
  | ItemKind_Use (view_path : (Nd .viewPath)) : Nd .itemKind
  | ItemKind_Static (t : (Nd .ty)) (m : Mutability) (e : (Nd .expr)) : Nd .itemKind
  | ItemKind_Const (t : (Nd .ty)) (e : (Nd .expr)) : Nd .itemKind
  | ItemKind_Fn (decl : (Nd .fnDecl)) (unsafety : Unsafety) (constness : Constness) (abi : Abi) (generics : (Nd .generics)) (body : (Nd .block)) : Nd .itemKind
  | ItemKind_Mod (m : (Nd .mod)) : Nd .itemKind
  | ItemKind_ForeignMod (nm : (Nd .foreignMod)) : Nd .itemKind
  | ItemKind_Ty (t : (Nd .ty)) (generics : (Nd .generics)) : Nd .itemKind
  | ItemKind_Enum (definition : (Nd .enumDef)) (generics : (Nd .generics)) : Nd .itemKind
  | ItemKind_Struct (struct_def : (Nd .variantData)) (generics : (Nd .generics)) : Nd .itemKind
  | ItemKind_DefaultImpl (unsafety : Unsafety) (trait_ref : (Nd .traitRef)) : Nd .itemKind
  | ItemKind_Impl (unsafety : Unsafety) (polarity : ImplPolarity) (generics : (Nd .generics)) (ifce : Option (Nd .traitRef)) (ty : (Nd .ty)) (impl_items : List (Nd .implItem)) : Nd .itemKind
  | ItemKind_Trait (unsafety : Unsafety) (generics : (Nd .generics)) (bounds : List (Nd .tyParamBound)) (items : List (Nd .traitItem)) : Nd .itemKind
  | ItemKind_Mac (mac : (Nd .mac)) : Nd .itemKind
  | ViewPath_mk (node : (Nd .viewPath_)) (span : Span) : Nd .viewPath
  | ViewPath__ViewPathSimple (ident : Ident) (path : (Nd .path)) : Nd .viewPath_
  | ViewPath__ViewPathGlob (path : (Nd .path)) : Nd .viewPath_
  | ViewPath__ViewPathList (path : (Nd .path)) (imports : List PathListItem) : Nd .viewPath_
  | EnumDef_mk (variants : List (Nd .variant)) : Nd .enumDef
  | Variant_mk (node : (Nd .variant_)) (span : Span) : Nd .variant
  | Variant__mk (name : Ident) (attrs : List Attribute) (data : (Nd .variantData)) (disr_expr : Option (Nd .expr)) : Nd .variant_
  | VariantData_Struct (fields : List (Nd .structField)) (id : NodeId) : Nd .variantData
  | VariantData_Tuple (fields : List (Nd .structField)) (id : NodeId) : Nd .variantData
  | VariantData_Unit (id : NodeId) : Nd .variantData
  | StructField_mk (node : (Nd .structField_)) (span : Span) : Nd .structField
  | StructField__mk (id : NodeId) (kind : StructFieldKind) (ty : (Nd .ty)) (attrs : List Attribute) : Nd .structField_
  | Generics_mk (lifetimes : List LifetimeDef) (ty_params : List (Nd .tyParam)) (where_clause : (Nd .whereClause)) : Nd .generics
  | TyParam_mk (id : NodeId) (ident : Ident) (bounds : List (Nd .tyParamBound)) (default : Option (Nd .ty)) (span : Span) : Nd .tyParam
  | WhereClause_mk (id : NodeId) (predicates : List (Nd .wherePredicate)) : Nd .whereClause
  | WherePredicate_BoundPredicate (p : (Nd .whereBoundPredicate)) : Nd .wherePredicate
  | WherePredicate_RegionPredicate (p : WhereRegionPredicate) : Nd .wherePredicate
  | WherePredicate_EqPredicate (p : (Nd .whereEqPredicate)) : Nd .wherePredicate
  | WhereBoundPredicate_mk (bound_lifetimes : List LifetimeDef) (bounded_ty : (Nd .ty)) (bounds : List (Nd .tyParamBound)) (span : Span) : Nd .whereBoundPredicate
  | WhereEqPredicate_mk (id : NodeId) (path : (Nd .path)) (ty : (Nd .ty)) (span : Span) : Nd .whereEqPredicate
  | FnDecl_mk (inputs : List (Nd .arg)) (output : (Nd .functionRetTy)) (variadic : Bool) : Nd .fnDecl
  | Arg_mk (id : NodeId) (pat : (Nd .pat)) (ty : (Nd .ty)) : Nd .arg
  | FunctionRetTy_Ty (ty : (Nd .ty)) : Nd .functionRetTy
  | FunctionRetTy_Default (span : Span) : Nd .functionRetTy
  | FunctionRetTy_None (span : Span) : Nd .functionRetTy
  | TraitItem_mk (id : NodeId) (ident : Ident) (attrs : List Attribute) (node : (Nd .traitItemKind)) (span : Span) : Nd .traitItem
  | TraitItemKind_Const (ty : (Nd .ty)) (default : Option (Nd .expr)) : Nd .traitItemKind
  | TraitItemKind_Method (sig : (Nd .methodSig)) (body : Option (Nd .block)) : Nd .traitItemKind
  | TraitItemKind_TypeT (bounds : List (Nd .tyParamBound)) (default : Option (Nd .ty)) : Nd .traitItemKind
  | MethodSig_mk (unsafety : Unsafety) (constness : Constness) (abi : Abi) (decl : (Nd .fnDecl)) (generics : (Nd .generics)) (explicit_self : (Nd .explicitSelf)) : Nd .methodSig
  | ExplicitSelf_mk (node : (Nd .selfKind)) (span : Span) : Nd .explicitSelf
  | SelfKind_Static  : Nd .selfKind
  | SelfKind_Value (ident : Ident) : Nd .selfKind
  | SelfKind_Region (lifetime : Option Lifetime) (m : Mutability) (ident : Ident) : Nd .selfKind
  | SelfKind_Explicit (typ : (Nd .ty)) (ident : Ident) : Nd .selfKind
  | ImplItem_mk (id : NodeId) (ident : Ident) (attrs : List Attribute) (vis : Visibility) (defaultness : Defaultness) (node : (Nd .implItemKind)) (span : Span) : Nd .implItem
  | ImplItemKind_Const (ty : (Nd .ty)) (expr : (Nd .expr)) : Nd .implItemKind
  | ImplItemKind_Method (sig : (Nd .methodSig)) (body : (Nd .block)) : Nd .implItemKind
  | ImplItemKind_TypeI (ty : (Nd .ty)) : Nd .implItemKind
  | ImplItemKind_Macro (mac : (Nd .mac)) : Nd .implItemKind
  | ForeignItem_mk (id : NodeId) (ident : Ident) (attrs : List Attribute) (node : (Nd .foreignItemKind)) (vis : Visibility) (span : Span) : Nd .foreignItem
  | ForeignItemKind_Fn (decl : (Nd .fnDecl)) (generics : (Nd .generics)) : Nd .foreignItemKind
  | ForeignItemKind_Static (ty : (Nd .ty)) (m : Mutability) : Nd .foreignItemKind
  | Mod_mk (inner : Span) (items : List (Nd .item)) : Nd .mod
  | ForeignMod_mk (abi : Abi) (items : List (Nd .foreignItem)) : Nd .foreignMod

abbrev Path := Nd .path
abbrev PathSegment := Nd .pathSegment
abbrev PathParameters := Nd .pathParameters
abbrev AngleBracketedParameterData := Nd .angleBracketedParameterData
abbrev ParenthesizedParameterData := Nd .parenthesizedParameterData
abbrev TypeBinding := Nd .typeBinding
abbrev Ty := Nd .ty
abbrev TyKind := Nd .tyKind
abbrev MutTy := Nd .mutTy
abbrev BareFnTy := Nd .bareFnTy
abbrev QSelf := Nd .qSelf
abbrev TyParamBound := Nd .tyParamBound
abbrev PolyTraitRef := Nd .polyTraitRef
abbrev TraitRef := Nd .traitRef
abbrev Expr := Nd .expr
abbrev ExprKind := Nd .exprKind
abbrev InlineAsm := Nd .inlineAsm
abbrev AsmInput := Nd .asmInput
abbrev InlineAsmOutput := Nd .inlineAsmOutput
abbrev Field := Nd .field
abbrev Arm := Nd .arm
abbrev Pat := Nd .pat
abbrev PatKind := Nd .patKind
abbrev FieldPat := Nd .fieldPat
abbrev SpannedFieldPat := Nd .spannedFieldPat
abbrev Block := Nd .block
abbrev Stmt := Nd .stmt
abbrev StmtKind := Nd .stmtKind
abbrev Decl := Nd .decl
abbrev DeclKind := Nd .declKind
abbrev Local := Nd .local
abbrev Mac_ := Nd .mac_
abbrev Mac := Nd .mac
abbrev TokenTree := Nd .tokenTree
abbrev Delimited := Nd .delimited
abbrev SequenceRepetition := Nd .sequenceRepetition
abbrev Token := Nd .token
abbrev Nonterminal := Nd .nonterminal
abbrev Item := Nd .item
abbrev ItemKind := Nd .itemKind
abbrev ViewPath := Nd .viewPath
abbrev ViewPath_ := Nd .viewPath_
abbrev EnumDef := Nd .enumDef
abbrev Variant := Nd .variant
abbrev Variant_ := Nd .variant_
abbrev VariantData := Nd .variantData
abbrev StructField := Nd .structField
abbrev StructField_ := Nd .structField_
abbrev Generics := Nd .generics
abbrev TyParam := Nd .tyParam
abbrev WhereClause := Nd .whereClause
abbrev WherePredicate := Nd .wherePredicate
abbrev WhereBoundPredicate := Nd .whereBoundPredicate
abbrev WhereEqPredicate := Nd .whereEqPredicate
abbrev FnDecl := Nd .fnDecl
abbrev Arg := Nd .arg
abbrev FunctionRetTy := Nd .functionRetTy
abbrev TraitItem := Nd .traitItem
abbrev TraitItemKind := Nd .traitItemKind
abbrev MethodSig := Nd .methodSig
abbrev ExplicitSelf := Nd .explicitSelf
abbrev SelfKind := Nd .selfKind
abbrev ImplItem := Nd .implItem
abbrev ImplItemKind := Nd .implItemKind
abbrev ForeignItem := Nd .foreignItem
abbrev ForeignItemKind := Nd .foreignItemKind
abbrev Mod := Nd .mod
abbrev ForeignMod := Nd .foreignMod

/-- `ast::MacroDef` (external; only its `id` is touched by the fold). -/
structure MacroDef where
  ident : Ident
  attrs : List Attribute
  id : NodeId
  span : Span
  imported_from : Option Ident
  exportM : Bool
  use_locally : Bool
  allow_internal_unstable : Bool
  body : List TokenTree

/-- `ast::Crate`. -/
structure Crate where
  module : Mod
  attrs : List Attribute
  config : List MetaItem
  exported_macros : List MacroDef
  span : Span

/-- `ast::DUMMY_NODE_ID` (`!0`). -/
def DUMMY_NODE_ID : NodeId := 4294967295

/-- `token::special_idents::invalid` (the empty-name identifier). -/
def invalidIdent : Ident := ""

/-! ## Projections for the single-constructor node types used in theorems -/

def Ty.id : Ty → NodeId
  | .Ty_mk i _ _ => i

def Ty.span : Ty → Span
  | .Ty_mk _ _ s => s

def Ty.node : Ty → TyKind
  | .Ty_mk _ n _ => n

def Pat.id : Pat → NodeId
  | .Pat_mk i _ _ => i

def Pat.span : Pat → Span
  | .Pat_mk _ _ s => s

def Expr.id : Expr → NodeId
  | .Expr_mk i _ _ _ => i

def Expr.span : Expr → Span
  | .Expr_mk _ _ s _ => s

def Block.id : Block → NodeId
  | .Block_mk i _ _ _ _ => i

def Block.span : Block → Span
  | .Block_mk _ _ _ _ s => s

def Item.id : Item → NodeId
  | .Item_mk i _ _ _ _ _ => i

def Item.ident : Item → Ident
  | .Item_mk _ i _ _ _ _ => i

def Item.node : Item → ItemKind
  | .Item_mk _ _ _ n _ _ => n

def Item.span : Item → Span
  | .Item_mk _ _ _ _ _ s => s

def TyParam.id : TyParam → NodeId
  | .TyParam_mk i _ _ _ _ => i

def TyParam.ident : TyParam → Ident
  | .TyParam_mk _ i _ _ _ => i

def TyParam.span : TyParam → Span
  | .TyParam_mk _ _ _ _ s => s

def Mod.inner : Mod → Span
  | .Mod_mk s _ => s

def Mod.items : Mod → List Item
  | .Mod_mk _ xs => xs

def Mac_.path : Mac_ → Path
  | .Mac__mk p _ _ => p

def Mac_.tts : Mac_ → List TokenTree
  | .Mac__mk _ t _ => t

def Mac_.ctxt : Mac_ → SyntaxContext
  | .Mac__mk _ _ c => c

def TypeBinding.id : TypeBinding → NodeId
  | .TypeBinding_mk i _ _ _ => i

def TypeBinding.span : TypeBinding → Span
  | .TypeBinding_mk _ _ _ s => s

def TraitItem.id : TraitItem → NodeId
  | .TraitItem_mk i _ _ _ _ => i

def TraitItem.span : TraitItem → Span
  | .TraitItem_mk _ _ _ _ s => s

def ImplItem.id : ImplItem → NodeId
  | .ImplItem_mk i _ _ _ _ _ _ => i

def ImplItem.span : ImplItem → Span
  | .ImplItem_mk _ _ _ _ _ _ s => s

def ForeignItem.id : ForeignItem → NodeId
  | .ForeignItem_mk i _ _ _ _ _ => i

def ForeignItem.span : ForeignItem → Span
  | .ForeignItem_mk _ _ _ _ _ s => s

def Local.id : Local → NodeId
  | .Local_mk i _ _ _ _ _ => i

def Local.span : Local → Span
  | .Local_mk _ _ _ _ s _ => s

def Arg.id : Arg → NodeId
  | .Arg_mk i _ _ => i

def WhereClause.id : WhereClause → NodeId
  | .WhereClause_mk i _ => i

def TraitRef.ref_id : TraitRef → NodeId
  | .TraitRef_mk _ i => i

def Path.span : Path → Span
  | .Path_mk _ _ s => s

def Field.span : Field → Span
  | .Field_mk _ _ s => s

def Field.identSpan : Field → Span
  | .Field_mk i _ _ => i.span

def Mac.node : Mac → Mac_
  | .Mac_mk n _ => n

def Mac.span : Mac → Span
  | .Mac_mk _ s => s

def Stmt.node : Stmt → StmtKind
  | .Stmt_mk n _ => n

def Stmt.span : Stmt → Span
  | .Stmt_mk _ s => s

def Decl.node : Decl → DeclKind
  | .Decl_mk n _ => n

def Decl.span : Decl → Span
  | .Decl_mk _ s => s

def Variant.span : Variant → Span
  | .Variant_mk _ s => s

def StructField.node : StructField → StructField_
  | .StructField_mk n _ => n

def StructField.span : StructField → Span
  | .StructField_mk _ s => s

def StructField_.id : StructField_ → NodeId
  | .StructField__mk i _ _ _ => i

def ExplicitSelf.span : ExplicitSelf → Span
  | .ExplicitSelf_mk _ s => s

def ViewPath.span : ViewPath → Span
  | .ViewPath_mk _ s => s

end Ast

namespace Ast

/-! ## The folder's override points

`Folder` is a trait with one overridable method per node kind, each
defaulting to the matching `noop_fold_*` free function.  We model the
override points that the specification's claims exercise: the identifier
hook (`fold_ident`), the two universal rewrite hooks (`new_id`,
`new_span`), the disabled-by-default macro fold (`fold_mac`, where
`macNoop = true` models a consumer delegating to `noop_fold_mac`), and
the four multiplicity-returning folds (`fold_item`, `fold_stmt`,
`fold_impl_item`, `fold_trait_item`).  Every other method is left at its
default, so calls `fld.fold_x(..)` translate to `noop_fold_x`.

All fold functions take a recursion fuel argument; `fold.rs` recursion
always terminates on finite trees, and a fueled embedding keeps every
definition computable.  Exhaustion yields the distinguished error
`"out of fuel"`, which no source `panic!` message equals. -/

structure Hooks where
  foldIdent : Ident → Ident := fun i => i
  newId : NodeId → NodeId := fun i => i
  newSpan : Span → Span := fun s => s
  macNoop : Bool := false
  foldItemO : Option (Item → Except String (List Item)) := none
  foldStmtO : Option (Stmt → Except String (List Stmt)) := none
  foldImplItemO : Option (ImplItem → Except String (List ImplItem)) := none
  foldTraitItemO : Option (TraitItem → Except String (List TraitItem)) := none

/-- A folder that only customizes the identifier and rewrite hooks and
delegates `fold_mac` to `noop_fold_mac` (the opt-in of section 4.3). -/
def Hooks.simple (fi : Ident → Ident) (ni : NodeId → NodeId) (ns : Span → Span) : Hooks :=
  ⟨fi, ni, ns, true, none, none, none, none⟩

/-- No multiplicity override is installed and macro folding is delegated
to `noop_fold_mac`. -/
def Hooks.IsSimple (h : Hooks) : Prop :=
  h.macNoop = true ∧ h.foldItemO = none ∧ h.foldStmtO = none ∧
    h.foldImplItemO = none ∧ h.foldTraitItemO = none

theorem Hooks.simple_isSimple (fi ni ns) : (Hooks.simple fi ni ns).IsSimple :=
  ⟨rfl, rfl, rfl, rfl, rfl⟩

/-- `SmallVector::expect_one`: panics with `msg` unless there is exactly
one element. -/
def expect_one (msg : String) : List α → Except String α
  | [x] => .ok x
  | _ => .error msg

/-- Modelled from the spec: `ast_util::impl_pretty_name` lives outside
this repository (the node-kind catalog and its helpers are scoped out as
external collaborators).  It derives a fresh "pretty" name for an impl
item from its optional trait reference and self type; we model it as a
fixed function of that data. -/
def impl_pretty_name (maybe_trait : Option TraitRef) (ty : Option Ty) : Ident :=
  match maybe_trait, ty with
  | some _, _ => "<impl-trait>"
  | none, _ => "<impl>"

def fuelMsg : String := "out of fuel"

/-- The impl "pretty"-name refresh of `noop_fold_item_simple`: impl items
recompute their identifier from the folded node, everything else keeps
its own. -/
def impl_refreshed_ident (node : ItemKind) (ident : Ident) : Ident :=
  match node with
  | .ItemKind_Impl _ _ _ maybe_trait ty _ => impl_pretty_name maybe_trait (some ty)
  | _ => ident


/-! ## Hook-only (non-recursive) default folds -/

/-- `noop_fold_ident`. -/
def noop_fold_ident (i : Ident) (_ : Hooks) : Ident := i

/-- `noop_fold_usize`. -/
def noop_fold_usize (i : Nat) (_ : Hooks) : Nat := i

/-- `noop_fold_lifetime`. -/
def noop_fold_lifetime (h : Hooks) (l : Lifetime) : Lifetime :=
  ⟨h.newId l.id, l.name, h.newSpan l.span⟩

/-- `noop_fold_lifetime_def`. -/
def noop_fold_lifetime_def (h : Hooks) (l : LifetimeDef) : LifetimeDef :=
  ⟨noop_fold_lifetime h l.lifetime, l.bounds.map (noop_fold_lifetime h)⟩

/-- `noop_fold_lifetimes`. -/
def noop_fold_lifetimes (h : Hooks) (lts : List Lifetime) : List Lifetime :=
  lts.map (noop_fold_lifetime h)

/-- `noop_fold_lifetime_defs`. -/
def noop_fold_lifetime_defs (h : Hooks) (lts : List LifetimeDef) : List LifetimeDef :=
  lts.map (noop_fold_lifetime_def h)

/-- `noop_fold_opt_lifetime`. -/
def noop_fold_opt_lifetime (h : Hooks) (o_lt : Option Lifetime) : Option Lifetime :=
  o_lt.map (noop_fold_lifetime h)

/-- The `path_list_idents.move_map` closure of `noop_fold_view_path`:
ids through `new_id`, spans through `new_span`, names and renames kept. -/
def fold_path_list_item (h : Hooks) (x : PathListItem) : PathListItem :=
  match x with
  | ⟨node, span⟩ =>
    ⟨match node with
      | .IdentItem id name rename => .IdentItem (h.newId id) name rename
      | .ModItem id rename => .ModItem (h.newId id) rename,
     h.newSpan span⟩

/-! ## Meta-item and attribute folding (recursive only into itself) -/

mutual

/-- `noop_fold_meta_item`. -/
def noop_fold_meta_item (h : Hooks) : Nat → MetaItem → Except String MetaItem
  | 0, _ => .error fuelMsg
  | n+1, ⟨node, span⟩ => do
    let node' ← match node with
      | .Word id => pure (MetaItemKind.Word id)
      | .MetaList id mis => do
        let mis' ← noop_fold_meta_items h n mis
        pure (MetaItemKind.MetaList id mis')
      | .NameValue id s => pure (MetaItemKind.NameValue id s)
    pure ⟨node', h.newSpan span⟩

/-- `noop_fold_meta_items`. -/
def noop_fold_meta_items (h : Hooks) : Nat → List MetaItem → Except String (List MetaItem)
  | 0, _ => .error fuelMsg
  | _+1, [] => pure []
  | n+1, mi :: rest => do
    let mi' ← noop_fold_meta_item h n mi
    let rest' ← noop_fold_meta_items h n rest
    pure (mi' :: rest')

end

/-- `noop_fold_attribute` (default: never strips, returns `Some`). -/
def noop_fold_attribute (h : Hooks) : Nat → Attribute → Except String (Option Attribute)
  | 0, _ => .error fuelMsg
  | n+1, ⟨⟨id, style, value, is_sugared_doc⟩, span⟩ => do
    let value' ← noop_fold_meta_item h n value
    pure (some ⟨⟨id, style, value', is_sugared_doc⟩, h.newSpan span⟩)

/-- `fold_attrs` (`move_flat_map` over `fold_attribute`). -/
def fold_attrs (h : Hooks) : Nat → List Attribute → Except String (List Attribute)
  | 0, _ => .error fuelMsg
  | _+1, [] => pure []
  | n+1, a :: rest => do
    let a' ← noop_fold_attribute h n a
    let rest' ← fold_attrs h n rest
    pure (match a' with | some x => x :: rest' | none => rest')

/-- `fold_thin_attrs` (`map_thin_attrs`, external helper mapping the
optional attribute vector through the attribute fold). -/
def fold_thin_attrs (h : Hooks) : Nat → ThinAttributes → Except String ThinAttributes
  | 0, _ => .error fuelMsg
  | n+1, none => do
    let _ ← pure n
    pure none
  | n+1, some attrs => do
    let attrs' ← fold_attrs h n attrs
    pure (some attrs')

/-! ## The default structural recursion (`noop_fold_*`), fueled

Each function is the line-by-line translation of the synonymous
`fold.rs` function; `fld.fold_x(..)` becomes the matching default (or
the dispatcher for the modelled override points), inline `move_map`
closures become the explicit list walkers below. -/

mutual

/-- Dispatcher for `fold_mac`: disabled by default (the trait method
panics), `noop_fold_mac` when the consumer opted in. -/
def fold_mac (h : Hooks) : Nat → Mac → Except String Mac
  | 0, _ => .error fuelMsg
  | n+1, m =>
    if h.macNoop then noop_fold_mac h n m
    else .error "fold_mac disabled by default"

/-- `noop_fold_mac`. -/
def noop_fold_mac (h : Hooks) : Nat → Mac → Except String Mac
  | 0, _ => .error fuelMsg
  | n+1, .Mac_mk node span => do
    match node with
    | .Mac__mk path tts ctxt => do
      let path' ← noop_fold_path h n path
      let tts' ← noop_fold_tts h n tts
      pure (.Mac_mk (.Mac__mk path' tts' ctxt) (h.newSpan span))

/-- `noop_fold_path`. -/
def noop_fold_path (h : Hooks) : Nat → Path → Except String Path
  | 0, _ => .error fuelMsg
  | n+1, .Path_mk global segments span => do
    let segments' ← fold_path_segments h n segments
    pure (.Path_mk global segments' (h.newSpan span))

/-- The `segments.move_map` closure of `noop_fold_path`: identifier
through the identifier hook, parameters through their fold. -/
def fold_path_segments (h : Hooks) : Nat → List PathSegment → Except String (List PathSegment)
  | 0, _ => .error fuelMsg
  | _+1, [] => pure []
  | n+1, .PathSegment_mk identifier parameters :: rest => do
    let parameters' ← noop_fold_path_parameters h n parameters
    let rest' ← fold_path_segments h n rest
    pure (.PathSegment_mk (h.foldIdent identifier) parameters' :: rest')

/-- `noop_fold_path_parameters`. -/
def noop_fold_path_parameters (h : Hooks) : Nat → PathParameters → Except String PathParameters
  | 0, _ => .error fuelMsg
  | n+1, .PathParameters_AngleBracketed data => do
    let data' ← noop_fold_angle_bracketed_parameter_data h n data
    pure (.PathParameters_AngleBracketed data')
  | n+1, .PathParameters_Parenthesized data => do
    let data' ← noop_fold_parenthesized_parameter_data h n data
    pure (.PathParameters_Parenthesized data')

/-- `noop_fold_angle_bracketed_parameter_data`. -/
def noop_fold_angle_bracketed_parameter_data (h : Hooks) :
    Nat → AngleBracketedParameterData → Except String AngleBracketedParameterData
  | 0, _ => .error fuelMsg
  | n+1, .AngleBracketedParameterData_mk lifetimes types bindings => do
    let types' ← fold_tys h n types
    let bindings' ← fold_ty_bindings h n bindings
    pure (.AngleBracketedParameterData_mk (noop_fold_lifetimes h lifetimes) types' bindings')

/-- `noop_fold_parenthesized_parameter_data`. -/
def noop_fold_parenthesized_parameter_data (h : Hooks) :
    Nat → ParenthesizedParameterData → Except String ParenthesizedParameterData
  | 0, _ => .error fuelMsg
  | n+1, .ParenthesizedParameterData_mk inputs output span => do
    let inputs' ← fold_tys h n inputs
    let output' ← match output with
      | none => pure none
      | some ty => do
        let ty' ← noop_fold_ty h n ty
        pure (some ty')
    pure (.ParenthesizedParameterData_mk inputs' output' (h.newSpan span))

/-- `noop_fold_ty_binding`. -/
def noop_fold_ty_binding (h : Hooks) : Nat → TypeBinding → Except String TypeBinding
  | 0, _ => .error fuelMsg
  | n+1, .TypeBinding_mk id ident ty span => do
    let ty' ← noop_fold_ty h n ty
    pure (.TypeBinding_mk (h.newId id) ident ty' (h.newSpan span))

/-- The `bindings.move_map` closure. -/
def fold_ty_bindings (h : Hooks) : Nat → List TypeBinding → Except String (List TypeBinding)
  | 0, _ => .error fuelMsg
  | _+1, [] => pure []
  | n+1, b :: rest => do
    let b' ← noop_fold_ty_binding h n b
    let rest' ← fold_ty_bindings h n rest
    pure (b' :: rest')

/-- `noop_fold_ty`. -/
def noop_fold_ty (h : Hooks) : Nat → Ty → Except String Ty
  | 0, _ => .error fuelMsg
  | n+1, .Ty_mk id node span => do
    let node' ← match node with
      | .TyKind_Infer => pure Nd.TyKind_Infer
      | .TyKind_Vec ty => do
        let ty' ← noop_fold_ty h n ty
        pure (Nd.TyKind_Vec ty')
      | .TyKind_Ptr mt => do
        let mt' ← noop_fold_mt h n mt
        pure (Nd.TyKind_Ptr mt')
      | .TyKind_Rptr region mt => do
        let mt' ← noop_fold_mt h n mt
        pure (Nd.TyKind_Rptr (noop_fold_opt_lifetime h region) mt')
      | .TyKind_BareFn f => do
        match f with
        | .BareFnTy_mk lifetimes unsafety abi decl => do
          let decl' ← noop_fold_fn_decl h n decl
          pure (Nd.TyKind_BareFn
            (.BareFnTy_mk (noop_fold_lifetime_defs h lifetimes) unsafety abi decl'))
      | .TyKind_Tup tys => do
        let tys' ← fold_tys h n tys
        pure (Nd.TyKind_Tup tys')
      | .TyKind_Paren ty => do
        let ty' ← noop_fold_ty h n ty
        pure (Nd.TyKind_Paren ty')
      | .TyKind_Path qself path => do
        let qself' ← match qself with
          | none => pure none
          | some (.QSelf_mk ty position) => do
            let ty' ← noop_fold_ty h n ty
            pure (some (Nd.QSelf_mk ty' position))
        let path' ← noop_fold_path h n path
        pure (Nd.TyKind_Path qself' path')
      | .TyKind_ObjectSum ty bounds => do
        let ty' ← noop_fold_ty h n ty
        let bounds' ← noop_fold_bounds h n bounds
        pure (Nd.TyKind_ObjectSum ty' bounds')
      | .TyKind_FixedLengthVec ty e => do
        let ty' ← noop_fold_ty h n ty
        let e' ← noop_fold_expr h n e
        pure (Nd.TyKind_FixedLengthVec ty' e')
      | .TyKind_Typeof expr => do
        let expr' ← noop_fold_expr h n expr
        pure (Nd.TyKind_Typeof expr')
      | .TyKind_PolyTraitRefTy bounds => do
        let bounds' ← noop_fold_bounds h n bounds
        pure (Nd.TyKind_PolyTraitRefTy bounds')
      | .TyKind_Mac mac => do
        let mac' ← fold_mac h n mac
        pure (Nd.TyKind_Mac mac')
    pure (.Ty_mk (h.newId id) node' (h.newSpan span))

/-- The various `tys.move_map` closures. -/
def fold_tys (h : Hooks) : Nat → List Ty → Except String (List Ty)
  | 0, _ => .error fuelMsg
  | _+1, [] => pure []
  | n+1, t :: rest => do
    let t' ← noop_fold_ty h n t
    let rest' ← fold_tys h n rest
    pure (t' :: rest')

/-- `noop_fold_mt`. -/
def noop_fold_mt (h : Hooks) : Nat → MutTy → Except String MutTy
  | 0, _ => .error fuelMsg
  | n+1, .MutTy_mk ty mutbl => do
    let ty' ← noop_fold_ty h n ty
    pure (.MutTy_mk ty' mutbl)

/-- `noop_fold_bounds`. -/
def noop_fold_bounds (h : Hooks) : Nat → List TyParamBound → Except String (List TyParamBound)
  | 0, _ => .error fuelMsg
  | _+1, [] => pure []
  | n+1, b :: rest => do
    let b' ← noop_fold_ty_param_bound h n b
    let rest' ← noop_fold_bounds h n rest
    pure (b' :: rest')

/-- `noop_fold_opt_bounds`. -/
def noop_fold_opt_bounds (h : Hooks) :
    Nat → Option (List TyParamBound) → Except String (Option (List TyParamBound))
  | 0, _ => .error fuelMsg
  | n+1, b => match b with
    | none => pure none
    | some bounds => do
      let bounds' ← noop_fold_bounds h n bounds
      pure (some bounds')

/-- `noop_fold_ty_param_bound`. -/
def noop_fold_ty_param_bound (h : Hooks) : Nat → TyParamBound → Except String TyParamBound
  | 0, _ => .error fuelMsg
  | n+1, .TyParamBound_TraitTyParamBound ty modifier => do
    let ty' ← noop_fold_poly_trait_ref h n ty
    pure (.TyParamBound_TraitTyParamBound ty' modifier)
  | _+1, .TyParamBound_RegionTyParamBound lifetime =>
    pure (.TyParamBound_RegionTyParamBound (noop_fold_lifetime h lifetime))

/-- `noop_fold_poly_trait_ref`. -/
def noop_fold_poly_trait_ref (h : Hooks) : Nat → PolyTraitRef → Except String PolyTraitRef
  | 0, _ => .error fuelMsg
  | n+1, .PolyTraitRef_mk bound_lifetimes trait_ref span => do
    let trait_ref' ← noop_fold_trait_ref h n trait_ref
    pure (.PolyTraitRef_mk (noop_fold_lifetime_defs h bound_lifetimes) trait_ref'
      (h.newSpan span))

/-- `noop_fold_trait_ref` (fresh id first, then the path). -/
def noop_fold_trait_ref (h : Hooks) : Nat → TraitRef → Except String TraitRef
  | 0, _ => .error fuelMsg
  | n+1, .TraitRef_mk path ref_id => do
    let path' ← noop_fold_path h n path
    pure (.TraitRef_mk path' (h.newId ref_id))

/-- `noop_fold_expr`. -/
def noop_fold_expr (h : Hooks) : Nat → Expr → Except String Expr
  | 0, _ => .error fuelMsg
  | n+1, .Expr_mk id node span attrs => do
    let node' ← match node with
      | .ExprKind_Box e => do
        let e' ← noop_fold_expr h n e
        pure (Nd.ExprKind_Box e')
      | .ExprKind_InPlace p e => do
        let p' ← noop_fold_expr h n p
        let e' ← noop_fold_expr h n e
        pure (Nd.ExprKind_InPlace p' e')
      | .ExprKind_Vec exprs => do
        let exprs' ← noop_fold_exprs h n exprs
        pure (Nd.ExprKind_Vec exprs')
      | .ExprKind_Repeat expr count => do
        let expr' ← noop_fold_expr h n expr
        let count' ← noop_fold_expr h n count
        pure (Nd.ExprKind_Repeat expr' count')
      | .ExprKind_Tup exprs => do
        let exprs' ← noop_fold_exprs h n exprs
        pure (Nd.ExprKind_Tup exprs')
      | .ExprKind_Call f args => do
        let f' ← noop_fold_expr h n f
        let args' ← noop_fold_exprs h n args
        pure (Nd.ExprKind_Call f' args')
      | .ExprKind_MethodCall i tps args => do
        let tps' ← fold_tys h n tps
        let args' ← noop_fold_exprs h n args
        pure (Nd.ExprKind_MethodCall
          (respan (h.newSpan i.span) (h.foldIdent i.node)) tps' args')
      | .ExprKind_Binary binop lhs rhs => do
        let lhs' ← noop_fold_expr h n lhs
        let rhs' ← noop_fold_expr h n rhs
        pure (Nd.ExprKind_Binary binop lhs' rhs')
      | .ExprKind_Unary unop ohs => do
        let ohs' ← noop_fold_expr h n ohs
        pure (Nd.ExprKind_Unary unop ohs')
      | .ExprKind_Lit l => pure (Nd.ExprKind_Lit l)
      | .ExprKind_Cast expr ty => do
        let expr' ← noop_fold_expr h n expr
        let ty' ← noop_fold_ty h n ty
        pure (Nd.ExprKind_Cast expr' ty')
      | .ExprKind_TypeE expr ty => do
        let expr' ← noop_fold_expr h n expr
        let ty' ← noop_fold_ty h n ty
        pure (Nd.ExprKind_TypeE expr' ty')
      | .ExprKind_AddrOf m ohs => do
        let ohs' ← noop_fold_expr h n ohs
        pure (Nd.ExprKind_AddrOf m ohs')
      | .ExprKind_If cond tr fl => do
        let cond' ← noop_fold_expr h n cond
        let tr' ← noop_fold_block h n tr
        let fl' ← match fl with
          | none => pure none
          | some x => do
            let x' ← noop_fold_expr h n x
            pure (some x')
        pure (Nd.ExprKind_If cond' tr' fl')
      | .ExprKind_IfLet pat expr tr fl => do
        let pat' ← noop_fold_pat h n pat
        let expr' ← noop_fold_expr h n expr
        let tr' ← noop_fold_block h n tr
        let fl' ← match fl with
          | none => pure none
          | some x => do
            let x' ← noop_fold_expr h n x
            pure (some x')
        pure (Nd.ExprKind_IfLet pat' expr' tr' fl')
      | .ExprKind_While cond body opt_ident => do
        let cond' ← noop_fold_expr h n cond
        let body' ← noop_fold_block h n body
        pure (Nd.ExprKind_While cond' body' (opt_ident.map h.foldIdent))
      | .ExprKind_WhileLet pat expr body opt_ident => do
        let pat' ← noop_fold_pat h n pat
        let expr' ← noop_fold_expr h n expr
        let body' ← noop_fold_block h n body
        pure (Nd.ExprKind_WhileLet pat' expr' body' (opt_ident.map h.foldIdent))
      | .ExprKind_ForLoop pat iter body opt_ident => do
        let pat' ← noop_fold_pat h n pat
        let iter' ← noop_fold_expr h n iter
        let body' ← noop_fold_block h n body
        pure (Nd.ExprKind_ForLoop pat' iter' body' (opt_ident.map h.foldIdent))
      | .ExprKind_Loop body opt_ident => do
        let body' ← noop_fold_block h n body
        pure (Nd.ExprKind_Loop body' (opt_ident.map h.foldIdent))
      | .ExprKind_Match expr arms => do
        let expr' ← noop_fold_expr h n expr
        let arms' ← fold_arms h n arms
        pure (Nd.ExprKind_Match expr' arms')
      | .ExprKind_Closure capture_clause decl body => do
        let decl' ← noop_fold_fn_decl h n decl
        let body' ← noop_fold_block h n body
        pure (Nd.ExprKind_Closure capture_clause decl' body')
      | .ExprKind_Block blk => do
        let blk' ← noop_fold_block h n blk
        pure (Nd.ExprKind_Block blk')
      | .ExprKind_Assign el er => do
        let el' ← noop_fold_expr h n el
        let er' ← noop_fold_expr h n er
        pure (Nd.ExprKind_Assign el' er')
      | .ExprKind_AssignOp op el er => do
        let el' ← noop_fold_expr h n el
        let er' ← noop_fold_expr h n er
        pure (Nd.ExprKind_AssignOp op el' er')
      | .ExprKind_Field el ident => do
        let el' ← noop_fold_expr h n el
        pure (Nd.ExprKind_Field el'
          (respan (h.newSpan ident.span) (h.foldIdent ident.node)))
      | .ExprKind_TupField el ident => do
        let el' ← noop_fold_expr h n el
        pure (Nd.ExprKind_TupField el'
          (respan (h.newSpan ident.span) (noop_fold_usize ident.node h)))
      | .ExprKind_Index el er => do
        let el' ← noop_fold_expr h n el
        let er' ← noop_fold_expr h n er
        pure (Nd.ExprKind_Index el' er')
      | .ExprKind_Range e1 e2 lim => do
        let e1' ← match e1 with
          | none => pure none
          | some x => do
            let x' ← noop_fold_expr h n x
            pure (some x')
        let e2' ← match e2 with
          | none => pure none
          | some x => do
            let x' ← noop_fold_expr h n x
            pure (some x')
        pure (Nd.ExprKind_Range e1' e2' lim)
      | .ExprKind_Path qself path => do
        let qself' ← match qself with
          | none => pure none
          | some (.QSelf_mk ty position) => do
            let ty' ← noop_fold_ty h n ty
            pure (some (Nd.QSelf_mk ty' position))
        let path' ← noop_fold_path h n path
        pure (Nd.ExprKind_Path qself' path')
      | .ExprKind_Break opt_ident =>
        pure (Nd.ExprKind_Break (opt_ident.map fun label =>
          respan (h.newSpan label.span) (h.foldIdent label.node)))
      | .ExprKind_Again opt_ident =>
        pure (Nd.ExprKind_Again (opt_ident.map fun label =>
          respan (h.newSpan label.span) (h.foldIdent label.node)))
      | .ExprKind_Ret e => do
        let e' ← match e with
          | none => pure none
          | some x => do
            let x' ← noop_fold_expr h n x
            pure (some x')
        pure (Nd.ExprKind_Ret e')
      | .ExprKind_InlineAsmE asm => do
        match asm with
        | .InlineAsm_mk inputs outputs a as cl vola al dial expn => do
          let inputs' ← fold_asm_inputs h n inputs
          let outputs' ← fold_asm_outputs h n outputs
          pure (Nd.ExprKind_InlineAsmE
            (.InlineAsm_mk inputs' outputs' a as cl vola al dial expn))
      | .ExprKind_Mac mac => do
        let mac' ← fold_mac h n mac
        pure (Nd.ExprKind_Mac mac')
      | .ExprKind_Struct path fields maybe_expr => do
        let path' ← noop_fold_path h n path
        let fields' ← fold_fields h n fields
        let maybe_expr' ← match maybe_expr with
          | none => pure none
          | some x => do
            let x' ← noop_fold_expr h n x
            pure (some x')
        pure (Nd.ExprKind_Struct path' fields' maybe_expr')
      | .ExprKind_Paren ex => do
        let ex' ← noop_fold_expr h n ex
        pure (Nd.ExprKind_Paren ex')
      | .ExprKind_Try ex => do
        let ex' ← noop_fold_expr h n ex
        pure (Nd.ExprKind_Try ex')
    let attrs' ← fold_thin_attrs h n attrs
    pure (.Expr_mk (h.newId id) node' (h.newSpan span) attrs')

/-- `noop_fold_opt_expr` (default: always `Some`). -/
def noop_fold_opt_expr (h : Hooks) : Nat → Expr → Except String (Option Expr)
  | 0, _ => .error fuelMsg
  | n+1, e => do
    let e' ← noop_fold_expr h n e
    pure (some e')

/-- `noop_fold_exprs` (`move_flat_map` over `fold_opt_expr`). -/
def noop_fold_exprs (h : Hooks) : Nat → List Expr → Except String (List Expr)
  | 0, _ => .error fuelMsg
  | _+1, [] => pure []
  | n+1, e :: rest => do
    let e' ← noop_fold_opt_expr h n e
    let rest' ← noop_fold_exprs h n rest
    pure (match e' with | some x => x :: rest' | none => rest')

/-- The `inputs.move_map` closure of the inline-asm arm. -/
def fold_asm_inputs (h : Hooks) : Nat → List AsmInput → Except String (List AsmInput)
  | 0, _ => .error fuelMsg
  | _+1, [] => pure []
  | n+1, .AsmInput_mk c input :: rest => do
    let input' ← noop_fold_expr h n input
    let rest' ← fold_asm_inputs h n rest
    pure (.AsmInput_mk c input' :: rest')

/-- The `outputs.move_map` closure of the inline-asm arm. -/
def fold_asm_outputs (h : Hooks) : Nat → List InlineAsmOutput → Except String (List InlineAsmOutput)
  | 0, _ => .error fuelMsg
  | _+1, [] => pure []
  | n+1, .InlineAsmOutput_mk constraint expr is_rw is_indirect :: rest => do
    let expr' ← noop_fold_expr h n expr
    let rest' ← fold_asm_outputs h n rest
    pure (.InlineAsmOutput_mk constraint expr' is_rw is_indirect :: rest')

/-- `noop_fold_field`. -/
def noop_fold_field (h : Hooks) : Nat → Field → Except String Field
  | 0, _ => .error fuelMsg
  | n+1, .Field_mk ident expr span => do
    let expr' ← noop_fold_expr h n expr
    pure (.Field_mk (respan ident.span (h.foldIdent ident.node)) expr' (h.newSpan span))

/-- The `fields.move_map` closure of the struct-literal arm. -/
def fold_fields (h : Hooks) : Nat → List Field → Except String (List Field)
  | 0, _ => .error fuelMsg
  | _+1, [] => pure []
  | n+1, f :: rest => do
    let f' ← noop_fold_field h n f
    let rest' ← fold_fields h n rest
    pure (f' :: rest')

/-- `noop_fold_arm`. -/
def noop_fold_arm (h : Hooks) : Nat → Arm → Except String Arm
  | 0, _ => .error fuelMsg
  | n+1, .Arm_mk attrs pats guard body => do
    let attrs' ← fold_attrs h n attrs
    let pats' ← fold_pats h n pats
    let guard' ← match guard with
      | none => pure none
      | some x => do
        let x' ← noop_fold_expr h n x
        pure (some x')
    let body' ← noop_fold_expr h n body
    pure (.Arm_mk attrs' pats' guard' body')

/-- The `arms.move_map` closure. -/
def fold_arms (h : Hooks) : Nat → List Arm → Except String (List Arm)
  | 0, _ => .error fuelMsg
  | _+1, [] => pure []
  | n+1, a :: rest => do
    let a' ← noop_fold_arm h n a
    let rest' ← fold_arms h n rest
    pure (a' :: rest')

/-- `noop_fold_pat`. -/
def noop_fold_pat (h : Hooks) : Nat → Pat → Except String Pat
  | 0, _ => .error fuelMsg
  | n+1, .Pat_mk id node span => do
    let node' ← match node with
      | .PatKind_Wild => pure Nd.PatKind_Wild
      | .PatKind_Ident binding_mode pth1 sub => do
        let sub' ← match sub with
          | none => pure none
          | some x => do
            let x' ← noop_fold_pat h n x
            pure (some x')
        pure (Nd.PatKind_Ident binding_mode
          ⟨h.foldIdent pth1.node, h.newSpan pth1.span⟩ sub')
      | .PatKind_Lit e => do
        let e' ← noop_fold_expr h n e
        pure (Nd.PatKind_Lit e')
      | .PatKind_TupleStruct pth pats => do
        let pth' ← noop_fold_path h n pth
        let pats' ← match pats with
          | none => pure none
          | some ps => do
            let ps' ← fold_pats h n ps
            pure (some ps')
        pure (Nd.PatKind_TupleStruct pth' pats')
      | .PatKind_Path pth => do
        let pth' ← noop_fold_path h n pth
        pure (Nd.PatKind_Path pth')
      | .PatKind_QPath qself pth => do
        match qself with
        | .QSelf_mk ty position => do
          let ty' ← noop_fold_ty h n ty
          let pth' ← noop_fold_path h n pth
          pure (Nd.PatKind_QPath (.QSelf_mk ty' position) pth')
      | .PatKind_Struct pth fields etc => do
        let pth' ← noop_fold_path h n pth
        let fs ← fold_field_pats h n fields
        pure (Nd.PatKind_Struct pth' fs etc)
      | .PatKind_Tup elts => do
        let elts' ← fold_pats h n elts
        pure (Nd.PatKind_Tup elts')
      | .PatKind_Box inner => do
        let inner' ← noop_fold_pat h n inner
        pure (Nd.PatKind_Box inner')
      | .PatKind_Ref inner mutbl => do
        let inner' ← noop_fold_pat h n inner
        pure (Nd.PatKind_Ref inner' mutbl)
      | .PatKind_Range e1 e2 => do
        let e1' ← noop_fold_expr h n e1
        let e2' ← noop_fold_expr h n e2
        pure (Nd.PatKind_Range e1' e2')
      | .PatKind_Vec before slice after => do
        let before' ← fold_pats h n before
        let slice' ← match slice with
          | none => pure none
          | some x => do
            let x' ← noop_fold_pat h n x
            pure (some x')
        let after' ← fold_pats h n after
        pure (Nd.PatKind_Vec before' slice' after')
      | .PatKind_Mac mac => do
        let mac' ← fold_mac h n mac
        pure (Nd.PatKind_Mac mac')
    pure (.Pat_mk (h.newId id) node' (h.newSpan span))

/-- The `pats.move_map` closures. -/
def fold_pats (h : Hooks) : Nat → List Pat → Except String (List Pat)
  | 0, _ => .error fuelMsg
  | _+1, [] => pure []
  | n+1, p :: rest => do
    let p' ← noop_fold_pat h n p
    let rest' ← fold_pats h n rest
    pure (p' :: rest')

/-- The `fields.move_map` closure of the struct-pattern arm: field-pattern
spans through `new_span`, field names kept verbatim. -/
def fold_field_pats (h : Hooks) : Nat → List SpannedFieldPat → Except String (List SpannedFieldPat)
  | 0, _ => .error fuelMsg
  | _+1, [] => pure []
  | n+1, .SpannedFieldPat_mk node span :: rest => do
    match node with
    | .FieldPat_mk ident pat is_shorthand => do
      let pat' ← noop_fold_pat h n pat
      let rest' ← fold_field_pats h n rest
      pure (.SpannedFieldPat_mk (.FieldPat_mk ident pat' is_shorthand) (h.newSpan span) :: rest')

/-- `noop_fold_block`. -/
def noop_fold_block (h : Hooks) : Nat → Block → Except String Block
  | 0, _ => .error fuelMsg
  | n+1, .Block_mk id stmts expr rules span => do
    let stmts' ← fold_stmts h n stmts
    let expr' ← match expr with
      | none => pure none
      | some x => noop_fold_opt_expr h n x
    pure (.Block_mk (h.newId id) stmts' expr' rules (h.newSpan span))

/-- Dispatcher for `fold_stmt`. -/
def fold_stmt (h : Hooks) : Nat → Stmt → Except String (List Stmt)
  | 0, _ => .error fuelMsg
  | n+1, s =>
    match h.foldStmtO with
    | some f => f s
    | none => noop_fold_stmt h n s

/-- `noop_fold_stmt`. -/
def noop_fold_stmt (h : Hooks) : Nat → Stmt → Except String (List Stmt)
  | 0, _ => .error fuelMsg
  | n+1, .Stmt_mk node span => do
    let span := h.newSpan span
    match node with
    | .StmtKind_Decl d id => do
      let id := h.newId id
      let ds ← noop_fold_decl h n d
      pure (ds.map fun d' => Nd.Stmt_mk (.StmtKind_Decl d' id) span)
    | .StmtKind_Expr e id => do
      let id := h.newId id
      let e' ← noop_fold_opt_expr h n e
      match e' with
      | some e' => pure [Nd.Stmt_mk (.StmtKind_Expr e' id) span]
      | none => pure []
    | .StmtKind_Semi e id => do
      let id := h.newId id
      let e' ← noop_fold_opt_expr h n e
      match e' with
      | some e' => pure [Nd.Stmt_mk (.StmtKind_Semi e' id) span]
      | none => pure []
    | .StmtKind_Mac mac semi attrs => do
      let mac' ← fold_mac h n mac
      let attrs' ← fold_thin_attrs h n attrs
      pure [Nd.Stmt_mk (.StmtKind_Mac mac' semi attrs') span]

/-- The `stmts.move_flat_map` closure of `noop_fold_block`. -/
def fold_stmts (h : Hooks) : Nat → List Stmt → Except String (List Stmt)
  | 0, _ => .error fuelMsg
  | _+1, [] => pure []
  | n+1, s :: rest => do
    let ss ← fold_stmt h n s
    let rest' ← fold_stmts h n rest
    pure (ss ++ rest')

/-- `noop_fold_decl`. -/
def noop_fold_decl (h : Hooks) : Nat → Decl → Except String (List Decl)
  | 0, _ => .error fuelMsg
  | n+1, .Decl_mk node span =>
    match node with
    | .DeclKind_Local l => do
      let l' ← noop_fold_local h n l
      pure [Nd.Decl_mk (.DeclKind_Local l') (h.newSpan span)]
    | .DeclKind_Item it => do
      let its ← fold_item h n it
      pure (its.map fun i => Nd.Decl_mk (.DeclKind_Item i) (h.newSpan span))

/-- `noop_fold_local`. -/
def noop_fold_local (h : Hooks) : Nat → Local → Except String Local
  | 0, _ => .error fuelMsg
  | n+1, .Local_mk id pat ty init span attrs => do
    let ty' ← match ty with
      | none => pure none
      | some t => do
        let t' ← noop_fold_ty h n t
        pure (some t')
    let pat' ← noop_fold_pat h n pat
    let init' ← match init with
      | none => pure none
      | some e => do
        let e' ← noop_fold_expr h n e
        pure (some e')
    let attrs' ← fold_thin_attrs h n attrs
    pure (.Local_mk (h.newId id) pat' ty' init' (h.newSpan span) attrs')

/-- `noop_fold_tt`. -/
def noop_fold_tt (h : Hooks) : Nat → TokenTree → Except String TokenTree
  | 0, _ => .error fuelMsg
  | n+1, .TokenTree_Token span tok => do
    let tok' ← noop_fold_token h n tok
    pure (.TokenTree_Token span tok')
  | n+1, .TokenTree_Delimited span delimed => do
    match delimed with
    | .Delimited_mk delim open_span tts close_span => do
      let tts' ← noop_fold_tts h n tts
      pure (.TokenTree_Delimited span (.Delimited_mk delim open_span tts' close_span))
  | n+1, .TokenTree_Sequence span seq => do
    match seq with
    | .SequenceRepetition_mk tts separator op num_captures => do
      let tts' ← noop_fold_tts h n tts
      let separator' ← match separator with
        | none => pure none
        | some tok => do
          let tok' ← noop_fold_token h n tok
          pure (some tok')
      pure (.TokenTree_Sequence span (.SequenceRepetition_mk tts' separator' op num_captures))

/-- `noop_fold_tts`. -/
def noop_fold_tts (h : Hooks) : Nat → List TokenTree → Except String (List TokenTree)
  | 0, _ => .error fuelMsg
  | _+1, [] => pure []
  | n+1, tt :: rest => do
    let tt' ← noop_fold_tt h n tt
    let rest' ← noop_fold_tts h n rest
    pure (tt' :: rest')

/-- `noop_fold_token`: identifier-bearing tokens route through the
identifier hook, interpolated fragments through the adapter, everything
else is returned unchanged. -/
def noop_fold_token (h : Hooks) : Nat → Token → Except String Token
  | 0, _ => .error fuelMsg
  | n+1, t => match t with
    | .Token_Ident id followed_by_colons =>
      pure (.Token_Ident (h.foldIdent id) followed_by_colons)
    | .Token_Lifetime id => pure (.Token_Lifetime (h.foldIdent id))
    | .Token_Interpolated nt => do
      let nt' ← noop_fold_interpolated h n nt
      pure (.Token_Interpolated nt')
    | .Token_SubstNt ident namep => pure (.Token_SubstNt (h.foldIdent ident) namep)
    | .Token_MatchNt name kind namep kindp =>
      pure (.Token_MatchNt (h.foldIdent name) (h.foldIdent kind) namep kindp)
    | t => pure t

/-- `noop_fold_interpolated`: the interpolated-fragment adapter, with its
dynamic exactly-one checks for the multiplicity-returning kinds. -/
def noop_fold_interpolated (h : Hooks) : Nat → Nonterminal → Except String Nonterminal
  | 0, _ => .error fuelMsg
  | n+1, nt => match nt with
    | .Nonterminal_NtItem item => do
      let items ← fold_item h n item
      let item' ← expect_one "expected fold to produce exactly one item" items
      pure (.Nonterminal_NtItem item')
    | .Nonterminal_NtBlock block => do
      let block' ← noop_fold_block h n block
      pure (.Nonterminal_NtBlock block')
    | .Nonterminal_NtStmt stmt => do
      let stmts ← fold_stmt h n stmt
      let stmt' ← expect_one "expected fold to produce exactly one statement" stmts
      pure (.Nonterminal_NtStmt stmt')
    | .Nonterminal_NtPat pat => do
      let pat' ← noop_fold_pat h n pat
      pure (.Nonterminal_NtPat pat')
    | .Nonterminal_NtExpr expr => do
      let expr' ← noop_fold_expr h n expr
      pure (.Nonterminal_NtExpr expr')
    | .Nonterminal_NtTy ty => do
      let ty' ← noop_fold_ty h n ty
      pure (.Nonterminal_NtTy ty')
    | .Nonterminal_NtIdent id is_mod_name =>
      pure (.Nonterminal_NtIdent ⟨h.foldIdent id.node, id.span⟩ is_mod_name)
    | .Nonterminal_NtMeta meta_item => do
      let meta_item' ← noop_fold_meta_item h n meta_item
      pure (.Nonterminal_NtMeta meta_item')
    | .Nonterminal_NtPath path => do
      let path' ← noop_fold_path h n path
      pure (.Nonterminal_NtPath path')
    | .Nonterminal_NtTT tt => do
      let tt' ← noop_fold_tt h n tt
      pure (.Nonterminal_NtTT tt')
    | .Nonterminal_NtArm arm => do
      let arm' ← noop_fold_arm h n arm
      pure (.Nonterminal_NtArm arm')
    | .Nonterminal_NtImplItem arm => do
      let arms ← fold_impl_item h n arm
      let arm' ← expect_one "expected fold to produce exactly one item" arms
      pure (.Nonterminal_NtImplItem arm')
    | .Nonterminal_NtTraitItem arm => do
      let arms ← fold_trait_item h n arm
      let arm' ← expect_one "expected fold to produce exactly one item" arms
      pure (.Nonterminal_NtTraitItem arm')
    | .Nonterminal_NtGenerics generics => do
      let generics' ← noop_fold_generics h n generics
      pure (.Nonterminal_NtGenerics generics')
    | .Nonterminal_NtWhereClause where_clause => do
      let where_clause' ← noop_fold_where_clause h n where_clause
      pure (.Nonterminal_NtWhereClause where_clause')
    | .Nonterminal_NtArg arg => do
      let arg' ← noop_fold_arg h n arg
      pure (.Nonterminal_NtArg arg')

/-- `noop_fold_fn_decl`. -/
def noop_fold_fn_decl (h : Hooks) : Nat → FnDecl → Except String FnDecl
  | 0, _ => .error fuelMsg
  | n+1, .FnDecl_mk inputs output variadic => do
    let inputs' ← fold_args h n inputs
    let output' ← match output with
      | .FunctionRetTy_Ty ty => do
        let ty' ← noop_fold_ty h n ty
        pure (Nd.FunctionRetTy_Ty ty')
      | .FunctionRetTy_Default span => pure (Nd.FunctionRetTy_Default span)
      | .FunctionRetTy_None span => pure (Nd.FunctionRetTy_None span)
    pure (.FnDecl_mk inputs' output' variadic)

/-- `noop_fold_arg`. -/
def noop_fold_arg (h : Hooks) : Nat → Arg → Except String Arg
  | 0, _ => .error fuelMsg
  | n+1, .Arg_mk id pat ty => do
    let pat' ← noop_fold_pat h n pat
    let ty' ← noop_fold_ty h n ty
    pure (.Arg_mk (h.newId id) pat' ty')

/-- The `inputs.move_map` closure of `noop_fold_fn_decl`. -/
def fold_args (h : Hooks) : Nat → List Arg → Except String (List Arg)
  | 0, _ => .error fuelMsg
  | _+1, [] => pure []
  | n+1, a :: rest => do
    let a' ← noop_fold_arg h n a
    let rest' ← fold_args h n rest
    pure (a' :: rest')

/-- `noop_fold_ty_param` (note: its span is rebuilt verbatim). -/
def noop_fold_ty_param (h : Hooks) : Nat → TyParam → Except String TyParam
  | 0, _ => .error fuelMsg
  | n+1, .TyParam_mk id ident bounds default span => do
    let bounds' ← noop_fold_bounds h n bounds
    let default' ← match default with
      | none => pure none
      | some x => do
        let x' ← noop_fold_ty h n x
        pure (some x')
    pure (.TyParam_mk (h.newId id) ident bounds' default' span)

/-- `noop_fold_ty_params`. -/
def noop_fold_ty_params (h : Hooks) : Nat → List TyParam → Except String (List TyParam)
  | 0, _ => .error fuelMsg
  | _+1, [] => pure []
  | n+1, tp :: rest => do
    let tp' ← noop_fold_ty_param h n tp
    let rest' ← noop_fold_ty_params h n rest
    pure (tp' :: rest')

/-- `noop_fold_generics`. -/
def noop_fold_generics (h : Hooks) : Nat → Generics → Except String Generics
  | 0, _ => .error fuelMsg
  | n+1, .Generics_mk lifetimes ty_params where_clause => do
    let ty_params' ← noop_fold_ty_params h n ty_params
    let where_clause' ← noop_fold_where_clause h n where_clause
    pure (.Generics_mk (noop_fold_lifetime_defs h lifetimes) ty_params' where_clause')

/-- `noop_fold_where_clause`. -/
def noop_fold_where_clause (h : Hooks) : Nat → WhereClause → Except String WhereClause
  | 0, _ => .error fuelMsg
  | n+1, .WhereClause_mk id predicates => do
    let predicates' ← fold_where_predicates h n predicates
    pure (.WhereClause_mk (h.newId id) predicates')

/-- The `predicates.move_map` closure. -/
def fold_where_predicates (h : Hooks) :
    Nat → List WherePredicate → Except String (List WherePredicate)
  | 0, _ => .error fuelMsg
  | _+1, [] => pure []
  | n+1, p :: rest => do
    let p' ← noop_fold_where_predicate h n p
    let rest' ← fold_where_predicates h n rest
    pure (p' :: rest')

/-- `noop_fold_where_predicate`. -/
def noop_fold_where_predicate (h : Hooks) : Nat → WherePredicate → Except String WherePredicate
  | 0, _ => .error fuelMsg
  | n+1, .WherePredicate_BoundPredicate p => do
    match p with
    | .WhereBoundPredicate_mk bound_lifetimes bounded_ty bounds span => do
      let bounded_ty' ← noop_fold_ty h n bounded_ty
      let bounds' ← noop_fold_bounds h n bounds
      pure (.WherePredicate_BoundPredicate
        (.WhereBoundPredicate_mk (noop_fold_lifetime_defs h bound_lifetimes)
          bounded_ty' bounds' (h.newSpan span)))
  | _+1, .WherePredicate_RegionPredicate p =>
    pure (.WherePredicate_RegionPredicate
      ⟨noop_fold_lifetime h p.lifetime, p.bounds.map (noop_fold_lifetime h),
        h.newSpan p.span⟩)
  | n+1, .WherePredicate_EqPredicate p => do
    match p with
    | .WhereEqPredicate_mk id path ty span => do
      let path' ← noop_fold_path h n path
      let ty' ← noop_fold_ty h n ty
      pure (.WherePredicate_EqPredicate
        (.WhereEqPredicate_mk (h.newId id) path' ty' (h.newSpan span)))

/-- `noop_fold_variant_data`. -/
def noop_fold_variant_data (h : Hooks) : Nat → VariantData → Except String VariantData
  | 0, _ => .error fuelMsg
  | n+1, .VariantData_Struct fields id => do
    let fields' ← fold_struct_fields h n fields
    pure (.VariantData_Struct fields' (h.newId id))
  | n+1, .VariantData_Tuple fields id => do
    let fields' ← fold_struct_fields h n fields
    pure (.VariantData_Tuple fields' (h.newId id))
  | _+1, .VariantData_Unit id => pure (.VariantData_Unit (h.newId id))

/-- `noop_fold_struct_field` (the declaration-side field name inside
`kind` is rebuilt verbatim). -/
def noop_fold_struct_field (h : Hooks) : Nat → StructField → Except String StructField
  | 0, _ => .error fuelMsg
  | n+1, .StructField_mk node span => do
    match node with
    | .StructField__mk id kind ty attrs => do
      let ty' ← noop_fold_ty h n ty
      let attrs' ← fold_attrs h n attrs
      pure (.StructField_mk (.StructField__mk (h.newId id) kind ty' attrs') (h.newSpan span))

/-- The `fields.move_map` closures of `noop_fold_variant_data`. -/
def fold_struct_fields (h : Hooks) : Nat → List StructField → Except String (List StructField)
  | 0, _ => .error fuelMsg
  | _+1, [] => pure []
  | n+1, f :: rest => do
    let f' ← noop_fold_struct_field h n f
    let rest' ← fold_struct_fields h n rest
    pure (f' :: rest')

/-- `noop_fold_variant` (the variant name is rebuilt verbatim). -/
def noop_fold_variant (h : Hooks) : Nat → Variant → Except String Variant
  | 0, _ => .error fuelMsg
  | n+1, .Variant_mk node span => do
    match node with
    | .Variant__mk name attrs data disr_expr => do
      let attrs' ← fold_attrs h n attrs
      let data' ← noop_fold_variant_data h n data
      let disr_expr' ← match disr_expr with
        | none => pure none
        | some e => do
          let e' ← noop_fold_expr h n e
          pure (some e')
      pure (.Variant_mk (.Variant__mk name attrs' data' disr_expr') (h.newSpan span))

/-- The `variants.move_map` closure of the enum arm. -/
def fold_variants (h : Hooks) : Nat → List Variant → Except String (List Variant)
  | 0, _ => .error fuelMsg
  | _+1, [] => pure []
  | n+1, v :: rest => do
    let v' ← noop_fold_variant h n v
    let rest' ← fold_variants h n rest
    pure (v' :: rest')

/-- `noop_fold_explicit_self_kind` (explicit-self identifiers kept). -/
def noop_fold_explicit_self_kind (h : Hooks) : Nat → SelfKind → Except String SelfKind
  | 0, _ => .error fuelMsg
  | _+1, .SelfKind_Static => pure .SelfKind_Static
  | _+1, .SelfKind_Value ident => pure (.SelfKind_Value ident)
  | _+1, .SelfKind_Region lifetime m ident =>
    pure (.SelfKind_Region (noop_fold_opt_lifetime h lifetime) m ident)
  | n+1, .SelfKind_Explicit typ ident => do
    let typ' ← noop_fold_ty h n typ
    pure (.SelfKind_Explicit typ' ident)

/-- `noop_fold_explicit_self`. -/
def noop_fold_explicit_self (h : Hooks) : Nat → ExplicitSelf → Except String ExplicitSelf
  | 0, _ => .error fuelMsg
  | n+1, .ExplicitSelf_mk node span => do
    let node' ← noop_fold_explicit_self_kind h n node
    pure (.ExplicitSelf_mk node' (h.newSpan span))

/-- `noop_fold_method_sig`. -/
def noop_fold_method_sig (h : Hooks) : Nat → MethodSig → Except String MethodSig
  | 0, _ => .error fuelMsg
  | n+1, .MethodSig_mk unsafety constness abi decl generics explicit_self => do
    let generics' ← noop_fold_generics h n generics
    let explicit_self' ← noop_fold_explicit_self h n explicit_self
    let decl' ← noop_fold_fn_decl h n decl
    pure (.MethodSig_mk unsafety constness abi decl' generics' explicit_self')

/-- Dispatcher for `fold_trait_item`. -/
def fold_trait_item (h : Hooks) : Nat → TraitItem → Except String (List TraitItem)
  | 0, _ => .error fuelMsg
  | n+1, i =>
    match h.foldTraitItemO with
    | some f => f i
    | none => noop_fold_trait_item h n i

/-- `noop_fold_trait_item`. -/
def noop_fold_trait_item (h : Hooks) : Nat → TraitItem → Except String (List TraitItem)
  | 0, _ => .error fuelMsg
  | n+1, .TraitItem_mk id ident attrs node span => do
    let attrs' ← fold_attrs h n attrs
    let node' ← match node with
      | .TraitItemKind_Const ty default => do
        let ty' ← noop_fold_ty h n ty
        let default' ← match default with
          | none => pure none
          | some x => do
            let x' ← noop_fold_expr h n x
            pure (some x')
        pure (Nd.TraitItemKind_Const ty' default')
      | .TraitItemKind_Method sig body => do
        let sig' ← noop_fold_method_sig h n sig
        let body' ← match body with
          | none => pure none
          | some x => do
            let x' ← noop_fold_block h n x
            pure (some x')
        pure (Nd.TraitItemKind_Method sig' body')
      | .TraitItemKind_TypeT bounds default => do
        let bounds' ← noop_fold_bounds h n bounds
        let default' ← match default with
          | none => pure none
          | some x => do
            let x' ← noop_fold_ty h n x
            pure (some x')
        pure (Nd.TraitItemKind_TypeT bounds' default')
    pure [Nd.TraitItem_mk (h.newId id) (h.foldIdent ident) attrs' node'
      (h.newSpan span)]

/-- The `items.move_flat_map` closure of the trait arm. -/
def fold_trait_items (h : Hooks) : Nat → List TraitItem → Except String (List TraitItem)
  | 0, _ => .error fuelMsg
  | _+1, [] => pure []
  | n+1, i :: rest => do
    let is' ← fold_trait_item h n i
    let rest' ← fold_trait_items h n rest
    pure (is' ++ rest')

/-- Dispatcher for `fold_impl_item`. -/
def fold_impl_item (h : Hooks) : Nat → ImplItem → Except String (List ImplItem)
  | 0, _ => .error fuelMsg
  | n+1, i =>
    match h.foldImplItemO with
    | some f => f i
    | none => noop_fold_impl_item h n i

/-- `noop_fold_impl_item`. -/
def noop_fold_impl_item (h : Hooks) : Nat → ImplItem → Except String (List ImplItem)
  | 0, _ => .error fuelMsg
  | n+1, .ImplItem_mk id ident attrs vis defaultness node span => do
    let attrs' ← fold_attrs h n attrs
    let node' ← match node with
      | .ImplItemKind_Const ty expr => do
        let ty' ← noop_fold_ty h n ty
        let expr' ← noop_fold_expr h n expr
        pure (Nd.ImplItemKind_Const ty' expr')
      | .ImplItemKind_Method sig body => do
        let sig' ← noop_fold_method_sig h n sig
        let body' ← noop_fold_block h n body
        pure (Nd.ImplItemKind_Method sig' body')
      | .ImplItemKind_TypeI ty => do
        let ty' ← noop_fold_ty h n ty
        pure (Nd.ImplItemKind_TypeI ty')
      | .ImplItemKind_Macro mac => do
        let mac' ← fold_mac h n mac
        pure (Nd.ImplItemKind_Macro mac')
    pure [Nd.ImplItem_mk (h.newId id) (h.foldIdent ident) attrs' vis defaultness
      node' (h.newSpan span)]

/-- The `impl_items.move_flat_map` closure of the impl arm. -/
def fold_impl_items (h : Hooks) : Nat → List ImplItem → Except String (List ImplItem)
  | 0, _ => .error fuelMsg
  | _+1, [] => pure []
  | n+1, i :: rest => do
    let is' ← fold_impl_item h n i
    let rest' ← fold_impl_items h n rest
    pure (is' ++ rest')

/-- `noop_fold_view_path` (the `ViewPathSimple` rename identifier and the
path-list names are rebuilt verbatim). -/
def noop_fold_view_path (h : Hooks) : Nat → ViewPath → Except String ViewPath
  | 0, _ => .error fuelMsg
  | n+1, .ViewPath_mk node span => do
    let node' ← match node with
      | .ViewPath__ViewPathSimple ident path => do
        let path' ← noop_fold_path h n path
        pure (Nd.ViewPath__ViewPathSimple ident path')
      | .ViewPath__ViewPathGlob path => do
        let path' ← noop_fold_path h n path
        pure (Nd.ViewPath__ViewPathGlob path')
      | .ViewPath__ViewPathList path path_list_idents => do
        let path' ← noop_fold_path h n path
        pure (Nd.ViewPath__ViewPathList path'
          (path_list_idents.map (fold_path_list_item h)))
    pure (.ViewPath_mk node' (h.newSpan span))

/-- `noop_fold_item_kind`. -/
def noop_fold_item_kind (h : Hooks) : Nat → ItemKind → Except String ItemKind
  | 0, _ => .error fuelMsg
  | n+1, i => match i with
    | .ItemKind_ExternCrate string => pure (.ItemKind_ExternCrate string)
    | .ItemKind_Use view_path => do
      let view_path' ← noop_fold_view_path h n view_path
      pure (.ItemKind_Use view_path')
    | .ItemKind_Static t m e => do
      let t' ← noop_fold_ty h n t
      let e' ← noop_fold_expr h n e
      pure (.ItemKind_Static t' m e')
    | .ItemKind_Const t e => do
      let t' ← noop_fold_ty h n t
      let e' ← noop_fold_expr h n e
      pure (.ItemKind_Const t' e')
    | .ItemKind_Fn decl unsafety constness abi generics body => do
      let decl' ← noop_fold_fn_decl h n decl
      let generics' ← noop_fold_generics h n generics
      let body' ← noop_fold_block h n body
      pure (.ItemKind_Fn decl' unsafety constness abi generics' body')
    | .ItemKind_Mod m => do
      let m' ← noop_fold_mod h n m
      pure (.ItemKind_Mod m')
    | .ItemKind_ForeignMod nm => do
      let nm' ← noop_fold_foreign_mod h n nm
      pure (.ItemKind_ForeignMod nm')
    | .ItemKind_Ty t generics => do
      let t' ← noop_fold_ty h n t
      let generics' ← noop_fold_generics h n generics
      pure (.ItemKind_Ty t' generics')
    | .ItemKind_Enum enum_definition generics => do
      match enum_definition with
      | .EnumDef_mk variants => do
        let variants' ← fold_variants h n variants
        let generics' ← noop_fold_generics h n generics
        pure (.ItemKind_Enum (.EnumDef_mk variants') generics')
    | .ItemKind_Struct struct_def generics => do
      let struct_def' ← noop_fold_variant_data h n struct_def
      let generics' ← noop_fold_generics h n generics
      pure (.ItemKind_Struct struct_def' generics')
    | .ItemKind_DefaultImpl unsafety trait_ref => do
      let trait_ref' ← noop_fold_trait_ref h n trait_ref
      pure (.ItemKind_DefaultImpl unsafety trait_ref')
    | .ItemKind_Impl unsafety polarity generics ifce ty impl_items => do
      let new_impl_items ← fold_impl_items h n impl_items
      let ifce' ← match ifce with
        | none => pure none
        | some trait_ref => do
          let trait_ref' ← noop_fold_trait_ref h n trait_ref
          pure (some trait_ref')
      let generics' ← noop_fold_generics h n generics
      let ty' ← noop_fold_ty h n ty
      pure (.ItemKind_Impl unsafety polarity generics' ifce' ty' new_impl_items)
    | .ItemKind_Trait unsafety generics bounds items => do
      let bounds' ← noop_fold_bounds h n bounds
      let items' ← fold_trait_items h n items
      let generics' ← noop_fold_generics h n generics
      pure (.ItemKind_Trait unsafety generics' bounds' items')
    | .ItemKind_Mac m => do
      let m' ← fold_mac h n m
      pure (.ItemKind_Mac m')

/-- Dispatcher for `fold_item` (one item into possibly many items). -/
def fold_item (h : Hooks) : Nat → Item → Except String (List Item)
  | 0, _ => .error fuelMsg
  | n+1, i =>
    match h.foldItemO with
    | some f => f i
    | none => noop_fold_item h n i

/-- `noop_fold_item`. -/
def noop_fold_item (h : Hooks) : Nat → Item → Except String (List Item)
  | 0, _ => .error fuelMsg
  | n+1, i => do
    let i' ← noop_fold_item_simple h n i
    pure [i']

/-- `noop_fold_item_simple` (for impl items the "pretty" name is
recomputed from the folded node before the identifier hook runs). -/
def noop_fold_item_simple (h : Hooks) : Nat → Item → Except String Item
  | 0, _ => .error fuelMsg
  | n+1, .Item_mk id ident attrs node vis span => do
    let id := h.newId id
    let node' ← noop_fold_item_kind h n node
    let ident := impl_refreshed_ident node' ident
    let attrs' ← fold_attrs h n attrs
    pure (.Item_mk id (h.foldIdent ident) attrs' node' vis (h.newSpan span))

/-- The `items.move_flat_map` closure of `noop_fold_mod`. -/
def fold_items (h : Hooks) : Nat → List Item → Except String (List Item)
  | 0, _ => .error fuelMsg
  | _+1, [] => pure []
  | n+1, i :: rest => do
    let is' ← fold_item h n i
    let rest' ← fold_items h n rest
    pure (is' ++ rest')

/-- `noop_fold_mod`. -/
def noop_fold_mod (h : Hooks) : Nat → Mod → Except String Mod
  | 0, _ => .error fuelMsg
  | n+1, .Mod_mk inner items => do
    let items' ← fold_items h n items
    pure (.Mod_mk (h.newSpan inner) items')

/-- `noop_fold_foreign_item`. -/
def noop_fold_foreign_item (h : Hooks) : Nat → ForeignItem → Except String ForeignItem
  | 0, _ => .error fuelMsg
  | n+1, .ForeignItem_mk id ident attrs node vis span => do
    let attrs' ← fold_attrs h n attrs
    let node' ← match node with
      | .ForeignItemKind_Fn fdec generics => do
        let fdec' ← noop_fold_fn_decl h n fdec
        let generics' ← noop_fold_generics h n generics
        pure (Nd.ForeignItemKind_Fn fdec' generics')
      | .ForeignItemKind_Static t m => do
        let t' ← noop_fold_ty h n t
        pure (Nd.ForeignItemKind_Static t' m)
    pure (.ForeignItem_mk (h.newId id) (h.foldIdent ident) attrs' node' vis
      (h.newSpan span))

/-- The `items.move_map` closure of `noop_fold_foreign_mod`. -/
def fold_foreign_items (h : Hooks) : Nat → List ForeignItem → Except String (List ForeignItem)
  | 0, _ => .error fuelMsg
  | _+1, [] => pure []
  | n+1, i :: rest => do
    let i' ← noop_fold_foreign_item h n i
    let rest' ← fold_foreign_items h n rest
    pure (i' :: rest')

/-- `noop_fold_foreign_mod`. -/
def noop_fold_foreign_mod (h : Hooks) : Nat → ForeignMod → Except String ForeignMod
  | 0, _ => .error fuelMsg
  | n+1, .ForeignMod_mk abi items => do
    let items' ← fold_foreign_items h n items
    pure (.ForeignMod_mk abi items')

end

/-- `noop_fold_crate`: the whole-unit assembler.  The top-level item
list is wrapped into a synthetic module item, folded through the
(possibly multiplicity-returning) item fold, and unwrapped again with
the two fatal dynamic checks of the source. -/
def noop_fold_crate (h : Hooks) : Nat → Crate → Except String Crate
  | 0, _ => .error fuelMsg
  | n+1, ⟨module, attrs, config, exported_macros, span⟩ => do
    let config' ← noop_fold_meta_items h n config
    let items ← fold_item h n
      (.Item_mk DUMMY_NODE_ID invalidIdent attrs (.ItemKind_Mod module) .Public span)
    let (module', attrs', span') ←
      match items with
      | [] => pure (Nd.Mod_mk span [], ([] : List Attribute), span)
      | [item] =>
        match item with
        | .Item_mk _ _ attrs2 node _ span2 =>
          match node with
          | .ItemKind_Mod m => pure (m, attrs2, span2)
          | _ => .error "fold converted a module to not a module"
      | _ => .error "a crate cannot expand to more than one item"
    let exported_macros' := exported_macros.map fun d =>
      MacroDef.mk d.ident d.attrs (h.newId d.id) d.span d.imported_from d.exportM
        d.use_locally d.allow_internal_unstable d.body
    pure ⟨module', attrs', config', exported_macros', span'⟩


/-- Wrap a single-valued fold as the matching one-element multiplicity
result. -/
def one1 (m : Except String α) : Except String (List α) := do
  let x ← m
  pure [x]

/-! ## The specification-side simplified fold (`sfold_*`)

Second definitions following the spec's words, for the refinement claims
C1 and C2: the same structural recursion with the same fuel discipline,
but with the consumer's view resolved — the macro fold delegated to its
default, no multiplicity overrides installed (so every
multiplicity-returning fold is single-valued and the dynamic exactly-one
checks cannot fire), identifiers rewritten by the identifier hook at
exactly the routed positions, ids by `new_id` and spans by `new_span` at
exactly the routed fields.  `master_*` theorems below prove the default
fold agrees with this simplified fold for every simple folder, every
fuel and every tree. -/

mutual

def sfold_mac (h : Hooks) : Nat → Mac → Except String Mac
  | 0, _ => .error fuelMsg
  | n+1, m => sfold_macN h n m

def sfold_macN (h : Hooks) : Nat → Mac → Except String Mac
  | 0, _ => .error fuelMsg
  | n+1, .Mac_mk node span => do
    match node with
    | .Mac__mk path tts ctxt => do
      let path' ← sfold_path h n path
      let tts' ← sfold_tts h n tts
      pure (.Mac_mk (.Mac__mk path' tts' ctxt) (h.newSpan span))

def sfold_path (h : Hooks) : Nat → Path → Except String Path
  | 0, _ => .error fuelMsg
  | n+1, .Path_mk global segments span => do
    let segments' ← sfold_path_segments h n segments
    pure (.Path_mk global segments' (h.newSpan span))

def sfold_path_segments (h : Hooks) : Nat → List PathSegment → Except String (List PathSegment)
  | 0, _ => .error fuelMsg
  | _+1, [] => pure []
  | n+1, .PathSegment_mk identifier parameters :: rest => do
    let parameters' ← sfold_path_parameters h n parameters
    let rest' ← sfold_path_segments h n rest
    pure (.PathSegment_mk (h.foldIdent identifier) parameters' :: rest')

def sfold_path_parameters (h : Hooks) : Nat → PathParameters → Except String PathParameters
  | 0, _ => .error fuelMsg
  | n+1, .PathParameters_AngleBracketed data => do
    let data' ← sfold_angle_bracketed_parameter_data h n data
    pure (.PathParameters_AngleBracketed data')
  | n+1, .PathParameters_Parenthesized data => do
    let data' ← sfold_parenthesized_parameter_data h n data
    pure (.PathParameters_Parenthesized data')

def sfold_angle_bracketed_parameter_data (h : Hooks) :
    Nat → AngleBracketedParameterData → Except String AngleBracketedParameterData
  | 0, _ => .error fuelMsg
  | n+1, .AngleBracketedParameterData_mk lifetimes types bindings => do
    let types' ← sfold_tys h n types
    let bindings' ← sfold_ty_bindings h n bindings
    pure (.AngleBracketedParameterData_mk (noop_fold_lifetimes h lifetimes) types' bindings')

def sfold_parenthesized_parameter_data (h : Hooks) :
    Nat → ParenthesizedParameterData → Except String ParenthesizedParameterData
  | 0, _ => .error fuelMsg
  | n+1, .ParenthesizedParameterData_mk inputs output span => do
    let inputs' ← sfold_tys h n inputs
    let output' ← match output with
      | none => pure none
      | some ty => do
        let ty' ← sfold_ty h n ty
        pure (some ty')
    pure (.ParenthesizedParameterData_mk inputs' output' (h.newSpan span))

def sfold_ty_binding (h : Hooks) : Nat → TypeBinding → Except String TypeBinding
  | 0, _ => .error fuelMsg
  | n+1, .TypeBinding_mk id ident ty span => do
    let ty' ← sfold_ty h n ty
    pure (.TypeBinding_mk (h.newId id) ident ty' (h.newSpan span))

def sfold_ty_bindings (h : Hooks) : Nat → List TypeBinding → Except String (List TypeBinding)
  | 0, _ => .error fuelMsg
  | _+1, [] => pure []
  | n+1, b :: rest => do
    let b' ← sfold_ty_binding h n b
    let rest' ← sfold_ty_bindings h n rest
    pure (b' :: rest')

def sfold_ty (h : Hooks) : Nat → Ty → Except String Ty
  | 0, _ => .error fuelMsg
  | n+1, .Ty_mk id node span => do
    let node' ← match node with
      | .TyKind_Infer => pure Nd.TyKind_Infer
      | .TyKind_Vec ty => do
        let ty' ← sfold_ty h n ty
        pure (Nd.TyKind_Vec ty')
      | .TyKind_Ptr mt => do
        let mt' ← sfold_mt h n mt
        pure (Nd.TyKind_Ptr mt')
      | .TyKind_Rptr region mt => do
        let mt' ← sfold_mt h n mt
        pure (Nd.TyKind_Rptr (noop_fold_opt_lifetime h region) mt')
      | .TyKind_BareFn f => do
        match f with
        | .BareFnTy_mk lifetimes unsafety abi decl => do
          let decl' ← sfold_fn_decl h n decl
          pure (Nd.TyKind_BareFn
            (.BareFnTy_mk (noop_fold_lifetime_defs h lifetimes) unsafety abi decl'))
      | .TyKind_Tup tys => do
        let tys' ← sfold_tys h n tys
        pure (Nd.TyKind_Tup tys')
      | .TyKind_Paren ty => do
        let ty' ← sfold_ty h n ty
        pure (Nd.TyKind_Paren ty')
      | .TyKind_Path qself path => do
        let qself' ← match qself with
          | none => pure none
          | some (.QSelf_mk ty position) => do
            let ty' ← sfold_ty h n ty
            pure (some (Nd.QSelf_mk ty' position))
        let path' ← sfold_path h n path
        pure (Nd.TyKind_Path qself' path')
      | .TyKind_ObjectSum ty bounds => do
        let ty' ← sfold_ty h n ty
        let bounds' ← sfold_bounds h n bounds
        pure (Nd.TyKind_ObjectSum ty' bounds')
      | .TyKind_FixedLengthVec ty e => do
        let ty' ← sfold_ty h n ty
        let e' ← sfold_expr h n e
        pure (Nd.TyKind_FixedLengthVec ty' e')
      | .TyKind_Typeof expr => do
        let expr' ← sfold_expr h n expr
        pure (Nd.TyKind_Typeof expr')
      | .TyKind_PolyTraitRefTy bounds => do
        let bounds' ← sfold_bounds h n bounds
        pure (Nd.TyKind_PolyTraitRefTy bounds')
      | .TyKind_Mac mac => do
        let mac' ← sfold_mac h n mac
        pure (Nd.TyKind_Mac mac')
    pure (.Ty_mk (h.newId id) node' (h.newSpan span))

def sfold_tys (h : Hooks) : Nat → List Ty → Except String (List Ty)
  | 0, _ => .error fuelMsg
  | _+1, [] => pure []
  | n+1, t :: rest => do
    let t' ← sfold_ty h n t
    let rest' ← sfold_tys h n rest
    pure (t' :: rest')

def sfold_mt (h : Hooks) : Nat → MutTy → Except String MutTy
  | 0, _ => .error fuelMsg
  | n+1, .MutTy_mk ty mutbl => do
    let ty' ← sfold_ty h n ty
    pure (.MutTy_mk ty' mutbl)

def sfold_bounds (h : Hooks) : Nat → List TyParamBound → Except String (List TyParamBound)
  | 0, _ => .error fuelMsg
  | _+1, [] => pure []
  | n+1, b :: rest => do
    let b' ← sfold_ty_param_bound h n b
    let rest' ← sfold_bounds h n rest
    pure (b' :: rest')

def sfold_opt_bounds (h : Hooks) :
    Nat → Option (List TyParamBound) → Except String (Option (List TyParamBound))
  | 0, _ => .error fuelMsg
  | n+1, b => match b with
    | none => pure none
    | some bounds => do
      let bounds' ← sfold_bounds h n bounds
      pure (some bounds')

def sfold_ty_param_bound (h : Hooks) : Nat → TyParamBound → Except String TyParamBound
  | 0, _ => .error fuelMsg
  | n+1, .TyParamBound_TraitTyParamBound ty modifier => do
    let ty' ← sfold_poly_trait_ref h n ty
    pure (.TyParamBound_TraitTyParamBound ty' modifier)
  | _+1, .TyParamBound_RegionTyParamBound lifetime =>
    pure (.TyParamBound_RegionTyParamBound (noop_fold_lifetime h lifetime))

def sfold_poly_trait_ref (h : Hooks) : Nat → PolyTraitRef → Except String PolyTraitRef
  | 0, _ => .error fuelMsg
  | n+1, .PolyTraitRef_mk bound_lifetimes trait_ref span => do
    let trait_ref' ← sfold_trait_ref h n trait_ref
    pure (.PolyTraitRef_mk (noop_fold_lifetime_defs h bound_lifetimes) trait_ref'
      (h.newSpan span))

def sfold_trait_ref (h : Hooks) : Nat → TraitRef → Except String TraitRef
  | 0, _ => .error fuelMsg
  | n+1, .TraitRef_mk path ref_id => do
    let path' ← sfold_path h n path
    pure (.TraitRef_mk path' (h.newId ref_id))

def sfold_expr (h : Hooks) : Nat → Expr → Except String Expr
  | 0, _ => .error fuelMsg
  | n+1, .Expr_mk id node span attrs => do
    let node' ← match node with
      | .ExprKind_Box e => do
        let e' ← sfold_expr h n e
        pure (Nd.ExprKind_Box e')
      | .ExprKind_InPlace p e => do
        let p' ← sfold_expr h n p
        let e' ← sfold_expr h n e
        pure (Nd.ExprKind_InPlace p' e')
      | .ExprKind_Vec exprs => do
        let exprs' ← sfold_exprs h n exprs
        pure (Nd.ExprKind_Vec exprs')
      | .ExprKind_Repeat expr count => do
        let expr' ← sfold_expr h n expr
        let count' ← sfold_expr h n count
        pure (Nd.ExprKind_Repeat expr' count')
      | .ExprKind_Tup exprs => do
        let exprs' ← sfold_exprs h n exprs
        pure (Nd.ExprKind_Tup exprs')
      | .ExprKind_Call f args => do
        let f' ← sfold_expr h n f
        let args' ← sfold_exprs h n args
        pure (Nd.ExprKind_Call f' args')
      | .ExprKind_MethodCall i tps args => do
        let tps' ← sfold_tys h n tps
        let args' ← sfold_exprs h n args
        pure (Nd.ExprKind_MethodCall
          (respan (h.newSpan i.span) (h.foldIdent i.node)) tps' args')
      | .ExprKind_Binary binop lhs rhs => do
        let lhs' ← sfold_expr h n lhs
        let rhs' ← sfold_expr h n rhs
        pure (Nd.ExprKind_Binary binop lhs' rhs')
      | .ExprKind_Unary unop ohs => do
        let ohs' ← sfold_expr h n ohs
        pure (Nd.ExprKind_Unary unop ohs')
      | .ExprKind_Lit l => pure (Nd.ExprKind_Lit l)
      | .ExprKind_Cast expr ty => do
        let expr' ← sfold_expr h n expr
        let ty' ← sfold_ty h n ty
        pure (Nd.ExprKind_Cast expr' ty')
      | .ExprKind_TypeE expr ty => do
        let expr' ← sfold_expr h n expr
        let ty' ← sfold_ty h n ty
        pure (Nd.ExprKind_TypeE expr' ty')
      | .ExprKind_AddrOf m ohs => do
        let ohs' ← sfold_expr h n ohs
        pure (Nd.ExprKind_AddrOf m ohs')
      | .ExprKind_If cond tr fl => do
        let cond' ← sfold_expr h n cond
        let tr' ← sfold_block h n tr
        let fl' ← match fl with
          | none => pure none
          | some x => do
            let x' ← sfold_expr h n x
            pure (some x')
        pure (Nd.ExprKind_If cond' tr' fl')
      | .ExprKind_IfLet pat expr tr fl => do
        let pat' ← sfold_pat h n pat
        let expr' ← sfold_expr h n expr
        let tr' ← sfold_block h n tr
        let fl' ← match fl with
          | none => pure none
          | some x => do
            let x' ← sfold_expr h n x
            pure (some x')
        pure (Nd.ExprKind_IfLet pat' expr' tr' fl')
      | .ExprKind_While cond body opt_ident => do
        let cond' ← sfold_expr h n cond
        let body' ← sfold_block h n body
        pure (Nd.ExprKind_While cond' body' (opt_ident.map h.foldIdent))
      | .ExprKind_WhileLet pat expr body opt_ident => do
        let pat' ← sfold_pat h n pat
        let expr' ← sfold_expr h n expr
        let body' ← sfold_block h n body
        pure (Nd.ExprKind_WhileLet pat' expr' body' (opt_ident.map h.foldIdent))
      | .ExprKind_ForLoop pat iter body opt_ident => do
        let pat' ← sfold_pat h n pat
        let iter' ← sfold_expr h n iter
        let body' ← sfold_block h n body
        pure (Nd.ExprKind_ForLoop pat' iter' body' (opt_ident.map h.foldIdent))
      | .ExprKind_Loop body opt_ident => do
        let body' ← sfold_block h n body
        pure (Nd.ExprKind_Loop body' (opt_ident.map h.foldIdent))
      | .ExprKind_Match expr arms => do
        let expr' ← sfold_expr h n expr
        let arms' ← sfold_arms h n arms
        pure (Nd.ExprKind_Match expr' arms')
      | .ExprKind_Closure capture_clause decl body => do
        let decl' ← sfold_fn_decl h n decl
        let body' ← sfold_block h n body
        pure (Nd.ExprKind_Closure capture_clause decl' body')
      | .ExprKind_Block blk => do
        let blk' ← sfold_block h n blk
        pure (Nd.ExprKind_Block blk')
      | .ExprKind_Assign el er => do
        let el' ← sfold_expr h n el
        let er' ← sfold_expr h n er
        pure (Nd.ExprKind_Assign el' er')
      | .ExprKind_AssignOp op el er => do
        let el' ← sfold_expr h n el
        let er' ← sfold_expr h n er
        pure (Nd.ExprKind_AssignOp op el' er')
      | .ExprKind_Field el ident => do
        let el' ← sfold_expr h n el
        pure (Nd.ExprKind_Field el'
          (respan (h.newSpan ident.span) (h.foldIdent ident.node)))
      | .ExprKind_TupField el ident => do
        let el' ← sfold_expr h n el
        pure (Nd.ExprKind_TupField el'
          (respan (h.newSpan ident.span) (noop_fold_usize ident.node h)))
      | .ExprKind_Index el er => do
        let el' ← sfold_expr h n el
        let er' ← sfold_expr h n er
        pure (Nd.ExprKind_Index el' er')
      | .ExprKind_Range e1 e2 lim => do
        let e1' ← match e1 with
          | none => pure none
          | some x => do
            let x' ← sfold_expr h n x
            pure (some x')
        let e2' ← match e2 with
          | none => pure none
          | some x => do
            let x' ← sfold_expr h n x
            pure (some x')
        pure (Nd.ExprKind_Range e1' e2' lim)
      | .ExprKind_Path qself path => do
        let qself' ← match qself with
          | none => pure none
          | some (.QSelf_mk ty position) => do
            let ty' ← sfold_ty h n ty
            pure (some (Nd.QSelf_mk ty' position))
        let path' ← sfold_path h n path
        pure (Nd.ExprKind_Path qself' path')
      | .ExprKind_Break opt_ident =>
        pure (Nd.ExprKind_Break (opt_ident.map fun label =>
          respan (h.newSpan label.span) (h.foldIdent label.node)))
      | .ExprKind_Again opt_ident =>
        pure (Nd.ExprKind_Again (opt_ident.map fun label =>
          respan (h.newSpan label.span) (h.foldIdent label.node)))
      | .ExprKind_Ret e => do
        let e' ← match e with
          | none => pure none
          | some x => do
            let x' ← sfold_expr h n x
            pure (some x')
        pure (Nd.ExprKind_Ret e')
      | .ExprKind_InlineAsmE asm => do
        match asm with
        | .InlineAsm_mk inputs outputs a as cl vola al dial expn => do
          let inputs' ← sfold_asm_inputs h n inputs
          let outputs' ← sfold_asm_outputs h n outputs
          pure (Nd.ExprKind_InlineAsmE
            (.InlineAsm_mk inputs' outputs' a as cl vola al dial expn))
      | .ExprKind_Mac mac => do
        let mac' ← sfold_mac h n mac
        pure (Nd.ExprKind_Mac mac')
      | .ExprKind_Struct path fields maybe_expr => do
        let path' ← sfold_path h n path
        let fields' ← sfold_fields h n fields
        let maybe_expr' ← match maybe_expr with
          | none => pure none
          | some x => do
            let x' ← sfold_expr h n x
            pure (some x')
        pure (Nd.ExprKind_Struct path' fields' maybe_expr')
      | .ExprKind_Paren ex => do
        let ex' ← sfold_expr h n ex
        pure (Nd.ExprKind_Paren ex')
      | .ExprKind_Try ex => do
        let ex' ← sfold_expr h n ex
        pure (Nd.ExprKind_Try ex')
    let attrs' ← fold_thin_attrs h n attrs
    pure (.Expr_mk (h.newId id) node' (h.newSpan span) attrs')

def sfold_opt_expr (h : Hooks) : Nat → Expr → Except String Expr
  | 0, _ => .error fuelMsg
  | n+1, e => sfold_expr h n e

def sfold_exprs (h : Hooks) : Nat → List Expr → Except String (List Expr)
  | 0, _ => .error fuelMsg
  | _+1, [] => pure []
  | n+1, e :: rest => do
    let e' ← sfold_opt_expr h n e
    let rest' ← sfold_exprs h n rest
    pure (e' :: rest')

def sfold_asm_inputs (h : Hooks) : Nat → List AsmInput → Except String (List AsmInput)
  | 0, _ => .error fuelMsg
  | _+1, [] => pure []
  | n+1, .AsmInput_mk c input :: rest => do
    let input' ← sfold_expr h n input
    let rest' ← sfold_asm_inputs h n rest
    pure (.AsmInput_mk c input' :: rest')

def sfold_asm_outputs (h : Hooks) : Nat → List InlineAsmOutput → Except String (List InlineAsmOutput)
  | 0, _ => .error fuelMsg
  | _+1, [] => pure []
  | n+1, .InlineAsmOutput_mk constraint expr is_rw is_indirect :: rest => do
    let expr' ← sfold_expr h n expr
    let rest' ← sfold_asm_outputs h n rest
    pure (.InlineAsmOutput_mk constraint expr' is_rw is_indirect :: rest')

def sfold_field (h : Hooks) : Nat → Field → Except String Field
  | 0, _ => .error fuelMsg
  | n+1, .Field_mk ident expr span => do
    let expr' ← sfold_expr h n expr
    pure (.Field_mk (respan ident.span (h.foldIdent ident.node)) expr' (h.newSpan span))

def sfold_fields (h : Hooks) : Nat → List Field → Except String (List Field)
  | 0, _ => .error fuelMsg
  | _+1, [] => pure []
  | n+1, f :: rest => do
    let f' ← sfold_field h n f
    let rest' ← sfold_fields h n rest
    pure (f' :: rest')

def sfold_arm (h : Hooks) : Nat → Arm → Except String Arm
  | 0, _ => .error fuelMsg
  | n+1, .Arm_mk attrs pats guard body => do
    let attrs' ← fold_attrs h n attrs
    let pats' ← sfold_pats h n pats
    let guard' ← match guard with
      | none => pure none
      | some x => do
        let x' ← sfold_expr h n x
        pure (some x')
    let body' ← sfold_expr h n body
    pure (.Arm_mk attrs' pats' guard' body')

def sfold_arms (h : Hooks) : Nat → List Arm → Except String (List Arm)
  | 0, _ => .error fuelMsg
  | _+1, [] => pure []
  | n+1, a :: rest => do
    let a' ← sfold_arm h n a
    let rest' ← sfold_arms h n rest
    pure (a' :: rest')

def sfold_pat (h : Hooks) : Nat → Pat → Except String Pat
  | 0, _ => .error fuelMsg
  | n+1, .Pat_mk id node span => do
    let node' ← match node with
      | .PatKind_Wild => pure Nd.PatKind_Wild
      | .PatKind_Ident binding_mode pth1 sub => do
        let sub' ← match sub with
          | none => pure none
          | some x => do
            let x' ← sfold_pat h n x
            pure (some x')
        pure (Nd.PatKind_Ident binding_mode
          ⟨h.foldIdent pth1.node, h.newSpan pth1.span⟩ sub')
      | .PatKind_Lit e => do
        let e' ← sfold_expr h n e
        pure (Nd.PatKind_Lit e')
      | .PatKind_TupleStruct pth pats => do
        let pth' ← sfold_path h n pth
        let pats' ← match pats with
          | none => pure none
          | some ps => do
            let ps' ← sfold_pats h n ps
            pure (some ps')
        pure (Nd.PatKind_TupleStruct pth' pats')
      | .PatKind_Path pth => do
        let pth' ← sfold_path h n pth
        pure (Nd.PatKind_Path pth')
      | .PatKind_QPath qself pth => do
        match qself with
        | .QSelf_mk ty position => do
          let ty' ← sfold_ty h n ty
          let pth' ← sfold_path h n pth
          pure (Nd.PatKind_QPath (.QSelf_mk ty' position) pth')
      | .PatKind_Struct pth fields etc => do
        let pth' ← sfold_path h n pth
        let fs ← sfold_field_pats h n fields
        pure (Nd.PatKind_Struct pth' fs etc)
      | .PatKind_Tup elts => do
        let elts' ← sfold_pats h n elts
        pure (Nd.PatKind_Tup elts')
      | .PatKind_Box inner => do
        let inner' ← sfold_pat h n inner
        pure (Nd.PatKind_Box inner')
      | .PatKind_Ref inner mutbl => do
        let inner' ← sfold_pat h n inner
        pure (Nd.PatKind_Ref inner' mutbl)
      | .PatKind_Range e1 e2 => do
        let e1' ← sfold_expr h n e1
        let e2' ← sfold_expr h n e2
        pure (Nd.PatKind_Range e1' e2')
      | .PatKind_Vec before slice after => do
        let before' ← sfold_pats h n before
        let slice' ← match slice with
          | none => pure none
          | some x => do
            let x' ← sfold_pat h n x
            pure (some x')
        let after' ← sfold_pats h n after
        pure (Nd.PatKind_Vec before' slice' after')
      | .PatKind_Mac mac => do
        let mac' ← sfold_mac h n mac
        pure (Nd.PatKind_Mac mac')
    pure (.Pat_mk (h.newId id) node' (h.newSpan span))

def sfold_pats (h : Hooks) : Nat → List Pat → Except String (List Pat)
  | 0, _ => .error fuelMsg
  | _+1, [] => pure []
  | n+1, p :: rest => do
    let p' ← sfold_pat h n p
    let rest' ← sfold_pats h n rest
    pure (p' :: rest')

def sfold_field_pats (h : Hooks) : Nat → List SpannedFieldPat → Except String (List SpannedFieldPat)
  | 0, _ => .error fuelMsg
  | _+1, [] => pure []
  | n+1, .SpannedFieldPat_mk node span :: rest => do
    match node with
    | .FieldPat_mk ident pat is_shorthand => do
      let pat' ← sfold_pat h n pat
      let rest' ← sfold_field_pats h n rest
      pure (.SpannedFieldPat_mk (.FieldPat_mk ident pat' is_shorthand) (h.newSpan span) :: rest')

def sfold_block (h : Hooks) : Nat → Block → Except String Block
  | 0, _ => .error fuelMsg
  | n+1, .Block_mk id stmts expr rules span => do
    let stmts' ← sfold_stmts h n stmts
    let expr' ← match expr with
      | none => pure none
      | some x => do
        let x' ← sfold_opt_expr h n x
        pure (some x')
    pure (.Block_mk (h.newId id) stmts' expr' rules (h.newSpan span))

def sfold_stmt (h : Hooks) : Nat → Stmt → Except String Stmt
  | 0, _ => .error fuelMsg
  | n+1, s => sfold_stmtN h n s

def sfold_stmtN (h : Hooks) : Nat → Stmt → Except String Stmt
  | 0, _ => .error fuelMsg
  | n+1, .Stmt_mk node span => do
    let span := h.newSpan span
    match node with
    | .StmtKind_Decl d id => do
      let id := h.newId id
      let d' ← sfold_decl h n d
      pure (Nd.Stmt_mk (.StmtKind_Decl d' id) span)
    | .StmtKind_Expr e id => do
      let id := h.newId id
      let e' ← sfold_opt_expr h n e
      pure (Nd.Stmt_mk (.StmtKind_Expr e' id) span)
    | .StmtKind_Semi e id => do
      let id := h.newId id
      let e' ← sfold_opt_expr h n e
      pure (Nd.Stmt_mk (.StmtKind_Semi e' id) span)
    | .StmtKind_Mac mac semi attrs => do
      let mac' ← sfold_mac h n mac
      let attrs' ← fold_thin_attrs h n attrs
      pure (Nd.Stmt_mk (.StmtKind_Mac mac' semi attrs') span)

def sfold_stmts (h : Hooks) : Nat → List Stmt → Except String (List Stmt)
  | 0, _ => .error fuelMsg
  | _+1, [] => pure []
  | n+1, s :: rest => do
    let s' ← sfold_stmt h n s
    let rest' ← sfold_stmts h n rest
    pure (s' :: rest')

def sfold_decl (h : Hooks) : Nat → Decl → Except String Decl
  | 0, _ => .error fuelMsg
  | n+1, .Decl_mk node span =>
    match node with
    | .DeclKind_Local l => do
      let l' ← sfold_local h n l
      pure (Nd.Decl_mk (.DeclKind_Local l') (h.newSpan span))
    | .DeclKind_Item it => do
      let i ← sfold_item h n it
      pure (Nd.Decl_mk (.DeclKind_Item i) (h.newSpan span))

def sfold_local (h : Hooks) : Nat → Local → Except String Local
  | 0, _ => .error fuelMsg
  | n+1, .Local_mk id pat ty init span attrs => do
    let ty' ← match ty with
      | none => pure none
      | some t => do
        let t' ← sfold_ty h n t
        pure (some t')
    let pat' ← sfold_pat h n pat
    let init' ← match init with
      | none => pure none
      | some e => do
        let e' ← sfold_expr h n e
        pure (some e')
    let attrs' ← fold_thin_attrs h n attrs
    pure (.Local_mk (h.newId id) pat' ty' init' (h.newSpan span) attrs')

def sfold_tt (h : Hooks) : Nat → TokenTree → Except String TokenTree
  | 0, _ => .error fuelMsg
  | n+1, .TokenTree_Token span tok => do
    let tok' ← sfold_token h n tok
    pure (.TokenTree_Token span tok')
  | n+1, .TokenTree_Delimited span delimed => do
    match delimed with
    | .Delimited_mk delim open_span tts close_span => do
      let tts' ← sfold_tts h n tts
      pure (.TokenTree_Delimited span (.Delimited_mk delim open_span tts' close_span))
  | n+1, .TokenTree_Sequence span seq => do
    match seq with
    | .SequenceRepetition_mk tts separator op num_captures => do
      let tts' ← sfold_tts h n tts
      let separator' ← match separator with
        | none => pure none
        | some tok => do
          let tok' ← sfold_token h n tok
          pure (some tok')
      pure (.TokenTree_Sequence span (.SequenceRepetition_mk tts' separator' op num_captures))

def sfold_tts (h : Hooks) : Nat → List TokenTree → Except String (List TokenTree)
  | 0, _ => .error fuelMsg
  | _+1, [] => pure []
  | n+1, tt :: rest => do
    let tt' ← sfold_tt h n tt
    let rest' ← sfold_tts h n rest
    pure (tt' :: rest')

def sfold_token (h : Hooks) : Nat → Token → Except String Token
  | 0, _ => .error fuelMsg
  | n+1, t => match t with
    | .Token_Ident id followed_by_colons =>
      pure (.Token_Ident (h.foldIdent id) followed_by_colons)
    | .Token_Lifetime id => pure (.Token_Lifetime (h.foldIdent id))
    | .Token_Interpolated nt => do
      let nt' ← sfold_interpolated h n nt
      pure (.Token_Interpolated nt')
    | .Token_SubstNt ident namep => pure (.Token_SubstNt (h.foldIdent ident) namep)
    | .Token_MatchNt name kind namep kindp =>
      pure (.Token_MatchNt (h.foldIdent name) (h.foldIdent kind) namep kindp)
    | t => pure t

def sfold_interpolated (h : Hooks) : Nat → Nonterminal → Except String Nonterminal
  | 0, _ => .error fuelMsg
  | n+1, nt => match nt with
    | .Nonterminal_NtItem item => do
      let item' ← sfold_item h n item
      pure (.Nonterminal_NtItem item')
    | .Nonterminal_NtBlock block => do
      let block' ← sfold_block h n block
      pure (.Nonterminal_NtBlock block')
    | .Nonterminal_NtStmt stmt => do
      let stmt' ← sfold_stmt h n stmt
      pure (.Nonterminal_NtStmt stmt')
    | .Nonterminal_NtPat pat => do
      let pat' ← sfold_pat h n pat
      pure (.Nonterminal_NtPat pat')
    | .Nonterminal_NtExpr expr => do
      let expr' ← sfold_expr h n expr
      pure (.Nonterminal_NtExpr expr')
    | .Nonterminal_NtTy ty => do
      let ty' ← sfold_ty h n ty
      pure (.Nonterminal_NtTy ty')
    | .Nonterminal_NtIdent id is_mod_name =>
      pure (.Nonterminal_NtIdent ⟨h.foldIdent id.node, id.span⟩ is_mod_name)
    | .Nonterminal_NtMeta meta_item => do
      let meta_item' ← noop_fold_meta_item h n meta_item
      pure (.Nonterminal_NtMeta meta_item')
    | .Nonterminal_NtPath path => do
      let path' ← sfold_path h n path
      pure (.Nonterminal_NtPath path')
    | .Nonterminal_NtTT tt => do
      let tt' ← sfold_tt h n tt
      pure (.Nonterminal_NtTT tt')
    | .Nonterminal_NtArm arm => do
      let arm' ← sfold_arm h n arm
      pure (.Nonterminal_NtArm arm')
    | .Nonterminal_NtImplItem arm => do
      let arm' ← sfold_impl_item h n arm
      pure (.Nonterminal_NtImplItem arm')
    | .Nonterminal_NtTraitItem arm => do
      let arm' ← sfold_trait_item h n arm
      pure (.Nonterminal_NtTraitItem arm')
    | .Nonterminal_NtGenerics generics => do
      let generics' ← sfold_generics h n generics
      pure (.Nonterminal_NtGenerics generics')
    | .Nonterminal_NtWhereClause where_clause => do
      let where_clause' ← sfold_where_clause h n where_clause
      pure (.Nonterminal_NtWhereClause where_clause')
    | .Nonterminal_NtArg arg => do
      let arg' ← sfold_arg h n arg
      pure (.Nonterminal_NtArg arg')

def sfold_fn_decl (h : Hooks) : Nat → FnDecl → Except String FnDecl
  | 0, _ => .error fuelMsg
  | n+1, .FnDecl_mk inputs output variadic => do
    let inputs' ← sfold_args h n inputs
    let output' ← match output with
      | .FunctionRetTy_Ty ty => do
        let ty' ← sfold_ty h n ty
        pure (Nd.FunctionRetTy_Ty ty')
      | .FunctionRetTy_Default span => pure (Nd.FunctionRetTy_Default span)
      | .FunctionRetTy_None span => pure (Nd.FunctionRetTy_None span)
    pure (.FnDecl_mk inputs' output' variadic)

def sfold_arg (h : Hooks) : Nat → Arg → Except String Arg
  | 0, _ => .error fuelMsg
  | n+1, .Arg_mk id pat ty => do
    let pat' ← sfold_pat h n pat
    let ty' ← sfold_ty h n ty
    pure (.Arg_mk (h.newId id) pat' ty')

def sfold_args (h : Hooks) : Nat → List Arg → Except String (List Arg)
  | 0, _ => .error fuelMsg
  | _+1, [] => pure []
  | n+1, a :: rest => do
    let a' ← sfold_arg h n a
    let rest' ← sfold_args h n rest
    pure (a' :: rest')

def sfold_ty_param (h : Hooks) : Nat → TyParam → Except String TyParam
  | 0, _ => .error fuelMsg
  | n+1, .TyParam_mk id ident bounds default span => do
    let bounds' ← sfold_bounds h n bounds
    let default' ← match default with
      | none => pure none
      | some x => do
        let x' ← sfold_ty h n x
        pure (some x')
    pure (.TyParam_mk (h.newId id) ident bounds' default' span)

def sfold_ty_params (h : Hooks) : Nat → List TyParam → Except String (List TyParam)
  | 0, _ => .error fuelMsg
  | _+1, [] => pure []
  | n+1, tp :: rest => do
    let tp' ← sfold_ty_param h n tp
    let rest' ← sfold_ty_params h n rest
    pure (tp' :: rest')

def sfold_generics (h : Hooks) : Nat → Generics → Except String Generics
  | 0, _ => .error fuelMsg
  | n+1, .Generics_mk lifetimes ty_params where_clause => do
    let ty_params' ← sfold_ty_params h n ty_params
    let where_clause' ← sfold_where_clause h n where_clause
    pure (.Generics_mk (noop_fold_lifetime_defs h lifetimes) ty_params' where_clause')

def sfold_where_clause (h : Hooks) : Nat → WhereClause → Except String WhereClause
  | 0, _ => .error fuelMsg
  | n+1, .WhereClause_mk id predicates => do
    let predicates' ← sfold_where_predicates h n predicates
    pure (.WhereClause_mk (h.newId id) predicates')

def sfold_where_predicates (h : Hooks) :
    Nat → List WherePredicate → Except String (List WherePredicate)
  | 0, _ => .error fuelMsg
  | _+1, [] => pure []
  | n+1, p :: rest => do
    let p' ← sfold_where_predicate h n p
    let rest' ← sfold_where_predicates h n rest
    pure (p' :: rest')

def sfold_where_predicate (h : Hooks) : Nat → WherePredicate → Except String WherePredicate
  | 0, _ => .error fuelMsg
  | n+1, .WherePredicate_BoundPredicate p => do
    match p with
    | .WhereBoundPredicate_mk bound_lifetimes bounded_ty bounds span => do
      let bounded_ty' ← sfold_ty h n bounded_ty
      let bounds' ← sfold_bounds h n bounds
      pure (.WherePredicate_BoundPredicate
        (.WhereBoundPredicate_mk (noop_fold_lifetime_defs h bound_lifetimes)
          bounded_ty' bounds' (h.newSpan span)))
  | _+1, .WherePredicate_RegionPredicate p =>
    pure (.WherePredicate_RegionPredicate
      ⟨noop_fold_lifetime h p.lifetime, p.bounds.map (noop_fold_lifetime h),
        h.newSpan p.span⟩)
  | n+1, .WherePredicate_EqPredicate p => do
    match p with
    | .WhereEqPredicate_mk id path ty span => do
      let path' ← sfold_path h n path
      let ty' ← sfold_ty h n ty
      pure (.WherePredicate_EqPredicate
        (.WhereEqPredicate_mk (h.newId id) path' ty' (h.newSpan span)))

def sfold_variant_data (h : Hooks) : Nat → VariantData → Except String VariantData
  | 0, _ => .error fuelMsg
  | n+1, .VariantData_Struct fields id => do
    let fields' ← sfold_struct_fields h n fields
    pure (.VariantData_Struct fields' (h.newId id))
  | n+1, .VariantData_Tuple fields id => do
    let fields' ← sfold_struct_fields h n fields
    pure (.VariantData_Tuple fields' (h.newId id))
  | _+1, .VariantData_Unit id => pure (.VariantData_Unit (h.newId id))

def sfold_struct_field (h : Hooks) : Nat → StructField → Except String StructField
  | 0, _ => .error fuelMsg
  | n+1, .StructField_mk node span => do
    match node with
    | .StructField__mk id kind ty attrs => do
      let ty' ← sfold_ty h n ty
      let attrs' ← fold_attrs h n attrs
      pure (.StructField_mk (.StructField__mk (h.newId id) kind ty' attrs') (h.newSpan span))

def sfold_struct_fields (h : Hooks) : Nat → List StructField → Except String (List StructField)
  | 0, _ => .error fuelMsg
  | _+1, [] => pure []
  | n+1, f :: rest => do
    let f' ← sfold_struct_field h n f
    let rest' ← sfold_struct_fields h n rest
    pure (f' :: rest')

def sfold_variant (h : Hooks) : Nat → Variant → Except String Variant
  | 0, _ => .error fuelMsg
  | n+1, .Variant_mk node span => do
    match node with
    | .Variant__mk name attrs data disr_expr => do
      let attrs' ← fold_attrs h n attrs
      let data' ← sfold_variant_data h n data
      let disr_expr' ← match disr_expr with
        | none => pure none
        | some e => do
          let e' ← sfold_expr h n e
          pure (some e')
      pure (.Variant_mk (.Variant__mk name attrs' data' disr_expr') (h.newSpan span))

def sfold_variants (h : Hooks) : Nat → List Variant → Except String (List Variant)
  | 0, _ => .error fuelMsg
  | _+1, [] => pure []
  | n+1, v :: rest => do
    let v' ← sfold_variant h n v
    let rest' ← sfold_variants h n rest
    pure (v' :: rest')

def sfold_explicit_self_kind (h : Hooks) : Nat → SelfKind → Except String SelfKind
  | 0, _ => .error fuelMsg
  | _+1, .SelfKind_Static => pure .SelfKind_Static
  | _+1, .SelfKind_Value ident => pure (.SelfKind_Value ident)
  | _+1, .SelfKind_Region lifetime m ident =>
    pure (.SelfKind_Region (noop_fold_opt_lifetime h lifetime) m ident)
  | n+1, .SelfKind_Explicit typ ident => do
    let typ' ← sfold_ty h n typ
    pure (.SelfKind_Explicit typ' ident)

def sfold_explicit_self (h : Hooks) : Nat → ExplicitSelf → Except String ExplicitSelf
  | 0, _ => .error fuelMsg
  | n+1, .ExplicitSelf_mk node span => do
    let node' ← sfold_explicit_self_kind h n node
    pure (.ExplicitSelf_mk node' (h.newSpan span))

def sfold_method_sig (h : Hooks) : Nat → MethodSig → Except String MethodSig
  | 0, _ => .error fuelMsg
  | n+1, .MethodSig_mk unsafety constness abi decl generics explicit_self => do
    let generics' ← sfold_generics h n generics
    let explicit_self' ← sfold_explicit_self h n explicit_self
    let decl' ← sfold_fn_decl h n decl
    pure (.MethodSig_mk unsafety constness abi decl' generics' explicit_self')

def sfold_trait_item (h : Hooks) : Nat → TraitItem → Except String TraitItem
  | 0, _ => .error fuelMsg
  | n+1, i => sfold_trait_itemN h n i

def sfold_trait_itemN (h : Hooks) : Nat → TraitItem → Except String TraitItem
  | 0, _ => .error fuelMsg
  | n+1, .TraitItem_mk id ident attrs node span => do
    let attrs' ← fold_attrs h n attrs
    let node' ← match node with
      | .TraitItemKind_Const ty default => do
        let ty' ← sfold_ty h n ty
        let default' ← match default with
          | none => pure none
          | some x => do
            let x' ← sfold_expr h n x
            pure (some x')
        pure (Nd.TraitItemKind_Const ty' default')
      | .TraitItemKind_Method sig body => do
        let sig' ← sfold_method_sig h n sig
        let body' ← match body with
          | none => pure none
          | some x => do
            let x' ← sfold_block h n x
            pure (some x')
        pure (Nd.TraitItemKind_Method sig' body')
      | .TraitItemKind_TypeT bounds default => do
        let bounds' ← sfold_bounds h n bounds
        let default' ← match default with
          | none => pure none
          | some x => do
            let x' ← sfold_ty h n x
            pure (some x')
        pure (Nd.TraitItemKind_TypeT bounds' default')
    pure (Nd.TraitItem_mk (h.newId id) (h.foldIdent ident) attrs' node'
      (h.newSpan span))

def sfold_trait_items (h : Hooks) : Nat → List TraitItem → Except String (List TraitItem)
  | 0, _ => .error fuelMsg
  | _+1, [] => pure []
  | n+1, i :: rest => do
    let i' ← sfold_trait_item h n i
    let rest' ← sfold_trait_items h n rest
    pure (i' :: rest')

def sfold_impl_item (h : Hooks) : Nat → ImplItem → Except String ImplItem
  | 0, _ => .error fuelMsg
  | n+1, i => sfold_impl_itemN h n i

def sfold_impl_itemN (h : Hooks) : Nat → ImplItem → Except String ImplItem
  | 0, _ => .error fuelMsg
  | n+1, .ImplItem_mk id ident attrs vis defaultness node span => do
    let attrs' ← fold_attrs h n attrs
    let node' ← match node with
      | .ImplItemKind_Const ty expr => do
        let ty' ← sfold_ty h n ty
        let expr' ← sfold_expr h n expr
        pure (Nd.ImplItemKind_Const ty' expr')
      | .ImplItemKind_Method sig body => do
        let sig' ← sfold_method_sig h n sig
        let body' ← sfold_block h n body
        pure (Nd.ImplItemKind_Method sig' body')
      | .ImplItemKind_TypeI ty => do
        let ty' ← sfold_ty h n ty
        pure (Nd.ImplItemKind_TypeI ty')
      | .ImplItemKind_Macro mac => do
        let mac' ← sfold_mac h n mac
        pure (Nd.ImplItemKind_Macro mac')
    pure (Nd.ImplItem_mk (h.newId id) (h.foldIdent ident) attrs' vis defaultness
      node' (h.newSpan span))

def sfold_impl_items (h : Hooks) : Nat → List ImplItem → Except String (List ImplItem)
  | 0, _ => .error fuelMsg
  | _+1, [] => pure []
  | n+1, i :: rest => do
    let i' ← sfold_impl_item h n i
    let rest' ← sfold_impl_items h n rest
    pure (i' :: rest')

def sfold_view_path (h : Hooks) : Nat → ViewPath → Except String ViewPath
  | 0, _ => .error fuelMsg
  | n+1, .ViewPath_mk node span => do
    let node' ← match node with
      | .ViewPath__ViewPathSimple ident path => do
        let path' ← sfold_path h n path
        pure (Nd.ViewPath__ViewPathSimple ident path')
      | .ViewPath__ViewPathGlob path => do
        let path' ← sfold_path h n path
        pure (Nd.ViewPath__ViewPathGlob path')
      | .ViewPath__ViewPathList path path_list_idents => do
        let path' ← sfold_path h n path
        pure (Nd.ViewPath__ViewPathList path'
          (path_list_idents.map (fold_path_list_item h)))
    pure (.ViewPath_mk node' (h.newSpan span))

def sfold_item_kind (h : Hooks) : Nat → ItemKind → Except String ItemKind
  | 0, _ => .error fuelMsg
  | n+1, i => match i with
    | .ItemKind_ExternCrate string => pure (.ItemKind_ExternCrate string)
    | .ItemKind_Use view_path => do
      let view_path' ← sfold_view_path h n view_path
      pure (.ItemKind_Use view_path')
    | .ItemKind_Static t m e => do
      let t' ← sfold_ty h n t
      let e' ← sfold_expr h n e
      pure (.ItemKind_Static t' m e')
    | .ItemKind_Const t e => do
      let t' ← sfold_ty h n t
      let e' ← sfold_expr h n e
      pure (.ItemKind_Const t' e')
    | .ItemKind_Fn decl unsafety constness abi generics body => do
      let decl' ← sfold_fn_decl h n decl
      let generics' ← sfold_generics h n generics
      let body' ← sfold_block h n body
      pure (.ItemKind_Fn decl' unsafety constness abi generics' body')
    | .ItemKind_Mod m => do
      let m' ← sfold_mod h n m
      pure (.ItemKind_Mod m')
    | .ItemKind_ForeignMod nm => do
      let nm' ← sfold_foreign_mod h n nm
      pure (.ItemKind_ForeignMod nm')
    | .ItemKind_Ty t generics => do
      let t' ← sfold_ty h n t
      let generics' ← sfold_generics h n generics
      pure (.ItemKind_Ty t' generics')
    | .ItemKind_Enum enum_definition generics => do
      match enum_definition with
      | .EnumDef_mk variants => do
        let variants' ← sfold_variants h n variants
        let generics' ← sfold_generics h n generics
        pure (.ItemKind_Enum (.EnumDef_mk variants') generics')
    | .ItemKind_Struct struct_def generics => do
      let struct_def' ← sfold_variant_data h n struct_def
      let generics' ← sfold_generics h n generics
      pure (.ItemKind_Struct struct_def' generics')
    | .ItemKind_DefaultImpl unsafety trait_ref => do
      let trait_ref' ← sfold_trait_ref h n trait_ref
      pure (.ItemKind_DefaultImpl unsafety trait_ref')
    | .ItemKind_Impl unsafety polarity generics ifce ty impl_items => do
      let new_impl_items ← sfold_impl_items h n impl_items
      let ifce' ← match ifce with
        | none => pure none
        | some trait_ref => do
          let trait_ref' ← sfold_trait_ref h n trait_ref
          pure (some trait_ref')
      let generics' ← sfold_generics h n generics
      let ty' ← sfold_ty h n ty
      pure (.ItemKind_Impl unsafety polarity generics' ifce' ty' new_impl_items)
    | .ItemKind_Trait unsafety generics bounds items => do
      let bounds' ← sfold_bounds h n bounds
      let items' ← sfold_trait_items h n items
      let generics' ← sfold_generics h n generics
      pure (.ItemKind_Trait unsafety generics' bounds' items')
    | .ItemKind_Mac m => do
      let m' ← sfold_mac h n m
      pure (.ItemKind_Mac m')

def sfold_item (h : Hooks) : Nat → Item → Except String Item
  | 0, _ => .error fuelMsg
  | n+1, i => sfold_itemN h n i

def sfold_itemN (h : Hooks) : Nat → Item → Except String Item
  | 0, _ => .error fuelMsg
  | n+1, i => sfold_item_simple h n i

def sfold_item_simple (h : Hooks) : Nat → Item → Except String Item
  | 0, _ => .error fuelMsg
  | n+1, .Item_mk id ident attrs node vis span => do
    let id := h.newId id
    let node' ← sfold_item_kind h n node
    let ident := impl_refreshed_ident node' ident
    let attrs' ← fold_attrs h n attrs
    pure (.Item_mk id (h.foldIdent ident) attrs' node' vis (h.newSpan span))

def sfold_items (h : Hooks) : Nat → List Item → Except String (List Item)
  | 0, _ => .error fuelMsg
  | _+1, [] => pure []
  | n+1, i :: rest => do
    let i' ← sfold_item h n i
    let rest' ← sfold_items h n rest
    pure (i' :: rest')

def sfold_mod (h : Hooks) : Nat → Mod → Except String Mod
  | 0, _ => .error fuelMsg
  | n+1, .Mod_mk inner items => do
    let items' ← sfold_items h n items
    pure (.Mod_mk (h.newSpan inner) items')

def sfold_foreign_item (h : Hooks) : Nat → ForeignItem → Except String ForeignItem
  | 0, _ => .error fuelMsg
  | n+1, .ForeignItem_mk id ident attrs node vis span => do
    let attrs' ← fold_attrs h n attrs
    let node' ← match node with
      | .ForeignItemKind_Fn fdec generics => do
        let fdec' ← sfold_fn_decl h n fdec
        let generics' ← sfold_generics h n generics
        pure (Nd.ForeignItemKind_Fn fdec' generics')
      | .ForeignItemKind_Static t m => do
        let t' ← sfold_ty h n t
        pure (Nd.ForeignItemKind_Static t' m)
    pure (.ForeignItem_mk (h.newId id) (h.foldIdent ident) attrs' node' vis
      (h.newSpan span))

def sfold_foreign_items (h : Hooks) : Nat → List ForeignItem → Except String (List ForeignItem)
  | 0, _ => .error fuelMsg
  | _+1, [] => pure []
  | n+1, i :: rest => do
    let i' ← sfold_foreign_item h n i
    let rest' ← sfold_foreign_items h n rest
    pure (i' :: rest')

def sfold_foreign_mod (h : Hooks) : Nat → ForeignMod → Except String ForeignMod
  | 0, _ => .error fuelMsg
  | n+1, .ForeignMod_mk abi items => do
    let items' ← sfold_foreign_items h n items
    pure (.ForeignMod_mk abi items')

end

/-- The simplified whole-unit assembler: `noop_fold_crate` with the
single-valued item fold, so the more-than-one-item assertion cannot
fire. -/
def sfold_crate (h : Hooks) : Nat → Crate → Except String Crate
  | 0, _ => .error fuelMsg
  | n+1, ⟨module, attrs, config, exported_macros, span⟩ => do
    let config' ← noop_fold_meta_items h n config
    let item ← sfold_item h n
      (.Item_mk DUMMY_NODE_ID invalidIdent attrs (.ItemKind_Mod module) .Public span)
    let (module', attrs', span') ←
      match item with
      | .Item_mk _ _ attrs2 node _ span2 =>
        match node with
        | .ItemKind_Mod m => pure (m, attrs2, span2)
        | _ => .error "fold converted a module to not a module"
    let exported_macros' := exported_macros.map fun d =>
      MacroDef.mk d.ident d.attrs (h.newId d.id) d.span d.imported_from d.exportM
        d.use_locally d.allow_internal_unstable d.body
    pure ⟨module', attrs', config', exported_macros', span'⟩

end Ast

namespace Ast

/-! ## Elementary `Except` computation rules -/

@[simp] theorem exc_bind_ok (a : α) (f : α → Except String β) :
    (Except.ok a : Except String α) >>= f = f a := rfl

@[simp] theorem exc_bind_err (e : String) (f : α → Except String β) :
    (Except.error e : Except String α) >>= f = Except.error e := rfl

@[simp] theorem exc_pure_eq (a : α) : (pure a : Except String α) = Except.ok a := rfl

@[simp] theorem exc_bind_assoc (m : Except String α) (f : α → Except String β)
    (g : β → Except String γ) :
    (m >>= f) >>= g = m >>= fun x => f x >>= g := by
  cases m <;> rfl

/-! ## The master agreement statement

For a simple folder (macro fold delegated, no multiplicity overrides),
every default fold agrees at every fuel with the simplified
specification-side fold; the multiplicity-returning defaults always
return exactly one element. -/

structure MS (h : Hooks) (n : Nat) : Prop where
  macD : ∀ x, fold_mac h n x = sfold_mac h n x
  macN : ∀ x, noop_fold_mac h n x = sfold_macN h n x
  path : ∀ x, noop_fold_path h n x = sfold_path h n x
  segs : ∀ x, fold_path_segments h n x = sfold_path_segments h n x
  pparams : ∀ x, noop_fold_path_parameters h n x = sfold_path_parameters h n x
  abpd : ∀ x, noop_fold_angle_bracketed_parameter_data h n x =
    sfold_angle_bracketed_parameter_data h n x
  ppd : ∀ x, noop_fold_parenthesized_parameter_data h n x =
    sfold_parenthesized_parameter_data h n x
  tyBind : ∀ x, noop_fold_ty_binding h n x = sfold_ty_binding h n x
  tyBinds : ∀ x, fold_ty_bindings h n x = sfold_ty_bindings h n x
  ty : ∀ x, noop_fold_ty h n x = sfold_ty h n x
  tys : ∀ x, fold_tys h n x = sfold_tys h n x
  mt : ∀ x, noop_fold_mt h n x = sfold_mt h n x
  bounds : ∀ x, noop_fold_bounds h n x = sfold_bounds h n x
  optBounds : ∀ x, noop_fold_opt_bounds h n x = sfold_opt_bounds h n x
  typb : ∀ x, noop_fold_ty_param_bound h n x = sfold_ty_param_bound h n x
  ptr : ∀ x, noop_fold_poly_trait_ref h n x = sfold_poly_trait_ref h n x
  tref : ∀ x, noop_fold_trait_ref h n x = sfold_trait_ref h n x
  expr : ∀ x, noop_fold_expr h n x = sfold_expr h n x
  optE : ∀ x, noop_fold_opt_expr h n x = sfold_opt_expr h n x >>= fun e => pure (some e)
  exprs : ∀ x, noop_fold_exprs h n x = sfold_exprs h n x
  asmIns : ∀ x, fold_asm_inputs h n x = sfold_asm_inputs h n x
  asmOuts : ∀ x, fold_asm_outputs h n x = sfold_asm_outputs h n x
  fieldF : ∀ x, noop_fold_field h n x = sfold_field h n x
  fieldsF : ∀ x, fold_fields h n x = sfold_fields h n x
  arm : ∀ x, noop_fold_arm h n x = sfold_arm h n x
  arms : ∀ x, fold_arms h n x = sfold_arms h n x
  pat : ∀ x, noop_fold_pat h n x = sfold_pat h n x
  pats : ∀ x, fold_pats h n x = sfold_pats h n x
  fieldPats : ∀ x, fold_field_pats h n x = sfold_field_pats h n x
  block : ∀ x, noop_fold_block h n x = sfold_block h n x
  stmtD : ∀ x, fold_stmt h n x = one1 (sfold_stmt h n x)
  stmtN : ∀ x, noop_fold_stmt h n x = one1 (sfold_stmtN h n x)
  stmts : ∀ x, fold_stmts h n x = sfold_stmts h n x
  decl : ∀ x, noop_fold_decl h n x = one1 (sfold_decl h n x)
  localF : ∀ x, noop_fold_local h n x = sfold_local h n x
  tt : ∀ x, noop_fold_tt h n x = sfold_tt h n x
  tts : ∀ x, noop_fold_tts h n x = sfold_tts h n x
  token : ∀ x, noop_fold_token h n x = sfold_token h n x
  interp : ∀ x, noop_fold_interpolated h n x = sfold_interpolated h n x
  fnDecl : ∀ x, noop_fold_fn_decl h n x = sfold_fn_decl h n x
  arg : ∀ x, noop_fold_arg h n x = sfold_arg h n x
  args : ∀ x, fold_args h n x = sfold_args h n x
  typaram : ∀ x, noop_fold_ty_param h n x = sfold_ty_param h n x
  typarams : ∀ x, noop_fold_ty_params h n x = sfold_ty_params h n x
  generics : ∀ x, noop_fold_generics h n x = sfold_generics h n x
  whereC : ∀ x, noop_fold_where_clause h n x = sfold_where_clause h n x
  wherePs : ∀ x, fold_where_predicates h n x = sfold_where_predicates h n x
  whereP : ∀ x, noop_fold_where_predicate h n x = sfold_where_predicate h n x
  vdata : ∀ x, noop_fold_variant_data h n x = sfold_variant_data h n x
  sfield : ∀ x, noop_fold_struct_field h n x = sfold_struct_field h n x
  sfields : ∀ x, fold_struct_fields h n x = sfold_struct_fields h n x
  variant : ∀ x, noop_fold_variant h n x = sfold_variant h n x
  variants : ∀ x, fold_variants h n x = sfold_variants h n x
  selfK : ∀ x, noop_fold_explicit_self_kind h n x = sfold_explicit_self_kind h n x
  eself : ∀ x, noop_fold_explicit_self h n x = sfold_explicit_self h n x
  msig : ∀ x, noop_fold_method_sig h n x = sfold_method_sig h n x
  titD : ∀ x, fold_trait_item h n x = one1 (sfold_trait_item h n x)
  titN : ∀ x, noop_fold_trait_item h n x = one1 (sfold_trait_itemN h n x)
  tits : ∀ x, fold_trait_items h n x = sfold_trait_items h n x
  iitD : ∀ x, fold_impl_item h n x = one1 (sfold_impl_item h n x)
  iitN : ∀ x, noop_fold_impl_item h n x = one1 (sfold_impl_itemN h n x)
  iits : ∀ x, fold_impl_items h n x = sfold_impl_items h n x
  viewPath : ∀ x, noop_fold_view_path h n x = sfold_view_path h n x
  itemKind : ∀ x, noop_fold_item_kind h n x = sfold_item_kind h n x
  itemD : ∀ x, fold_item h n x = one1 (sfold_item h n x)
  itemN : ∀ x, noop_fold_item h n x = one1 (sfold_itemN h n x)
  itemS : ∀ x, noop_fold_item_simple h n x = sfold_item_simple h n x
  items : ∀ x, fold_items h n x = sfold_items h n x
  modF : ∀ x, noop_fold_mod h n x = sfold_mod h n x
  fitem : ∀ x, noop_fold_foreign_item h n x = sfold_foreign_item h n x
  fitems : ∀ x, fold_foreign_items h n x = sfold_foreign_items h n x
  fmod : ∀ x, noop_fold_foreign_mod h n x = sfold_foreign_mod h n x

theorem master_zero (h : Hooks) : MS h 0 := by
  constructor <;> intro x <;> rfl

theorem step_macD (h : Hooks) (n : Nat) (hs : h.IsSimple) (ih : MS h n) :
    ∀ x, fold_mac h (n+1) x = sfold_mac h (n+1) x := by
  intro x
  simp [fold_mac, sfold_mac, hs.1, ih.macN]

theorem step_macN (h : Hooks) (n : Nat) (ih : MS h n) :
    ∀ x, noop_fold_mac h (n+1) x = sfold_macN h (n+1) x := by
  intro x
  cases x with
  | Mac_mk node span =>
    cases node with
    | Mac__mk path tts ctxt => simp [noop_fold_mac, sfold_macN, ih.path, ih.tts]

theorem step_path (h : Hooks) (n : Nat) (ih : MS h n) :
    ∀ x, noop_fold_path h (n+1) x = sfold_path h (n+1) x := by
  intro x
  cases x with
  | Path_mk g segs sp => simp [noop_fold_path, sfold_path, ih.segs]

theorem step_segs (h : Hooks) (n : Nat) (ih : MS h n) :
    ∀ x, fold_path_segments h (n+1) x = sfold_path_segments h (n+1) x := by
  intro x
  cases x with
  | nil => rfl
  | cons a rest =>
    cases a with
    | PathSegment_mk ident params =>
      simp [fold_path_segments, sfold_path_segments, ih.pparams, ih.segs]

theorem step_pparams (h : Hooks) (n : Nat) (ih : MS h n) :
    ∀ x, noop_fold_path_parameters h (n+1) x = sfold_path_parameters h (n+1) x := by
  intro x
  cases x <;> simp [noop_fold_path_parameters, sfold_path_parameters, ih.abpd, ih.ppd]

theorem step_abpd (h : Hooks) (n : Nat) (ih : MS h n) :
    ∀ x, noop_fold_angle_bracketed_parameter_data h (n+1) x =
      sfold_angle_bracketed_parameter_data h (n+1) x := by
  intro x
  cases x with
  | AngleBracketedParameterData_mk l t b =>
    simp [noop_fold_angle_bracketed_parameter_data,
      sfold_angle_bracketed_parameter_data, ih.tys, ih.tyBinds]

theorem step_ppd (h : Hooks) (n : Nat) (ih : MS h n) :
    ∀ x, noop_fold_parenthesized_parameter_data h (n+1) x =
      sfold_parenthesized_parameter_data h (n+1) x := by
  intro x
  cases x with
  | ParenthesizedParameterData_mk inputs output sp =>
    cases output <;>
      simp [noop_fold_parenthesized_parameter_data,
        sfold_parenthesized_parameter_data, ih.tys, ih.ty]

theorem step_tyBind (h : Hooks) (n : Nat) (ih : MS h n) :
    ∀ x, noop_fold_ty_binding h (n+1) x = sfold_ty_binding h (n+1) x := by
  intro x
  cases x with
  | TypeBinding_mk id ident ty sp => simp [noop_fold_ty_binding, sfold_ty_binding, ih.ty]

theorem step_tyBinds (h : Hooks) (n : Nat) (ih : MS h n) :
    ∀ x, fold_ty_bindings h (n+1) x = sfold_ty_bindings h (n+1) x := by
  intro x
  cases x with
  | nil => rfl
  | cons a rest => simp [fold_ty_bindings, sfold_ty_bindings, ih.tyBind, ih.tyBinds]

theorem step_ty (h : Hooks) (n : Nat) (ih : MS h n) :
    ∀ x, noop_fold_ty h (n+1) x = sfold_ty h (n+1) x := by
  intro x
  cases x with
  | Ty_mk id node sp =>
    cases node with
    | TyKind_Infer => simp [noop_fold_ty, sfold_ty]
    | TyKind_Vec ty => simp [noop_fold_ty, sfold_ty, ih.ty]
    | TyKind_Ptr mt => simp [noop_fold_ty, sfold_ty, ih.mt]
    | TyKind_Rptr region mt => simp [noop_fold_ty, sfold_ty, ih.mt]
    | TyKind_BareFn f =>
      cases f with
      | BareFnTy_mk l u a d => simp [noop_fold_ty, sfold_ty, ih.fnDecl]
    | TyKind_Tup tys => simp [noop_fold_ty, sfold_ty, ih.tys]
    | TyKind_Paren ty => simp [noop_fold_ty, sfold_ty, ih.ty]
    | TyKind_Path qself path =>
      cases qself with
      | none => simp [noop_fold_ty, sfold_ty, ih.path]
      | some q =>
        cases q with
        | QSelf_mk ty pos => simp [noop_fold_ty, sfold_ty, ih.ty, ih.path]
    | TyKind_ObjectSum ty bounds => simp [noop_fold_ty, sfold_ty, ih.ty, ih.bounds]
    | TyKind_FixedLengthVec ty e => simp [noop_fold_ty, sfold_ty, ih.ty, ih.expr]
    | TyKind_Typeof e => simp [noop_fold_ty, sfold_ty, ih.expr]
    | TyKind_PolyTraitRefTy bounds => simp [noop_fold_ty, sfold_ty, ih.bounds]
    | TyKind_Mac mac => simp [noop_fold_ty, sfold_ty, ih.macD]

theorem step_tys (h : Hooks) (n : Nat) (ih : MS h n) :
    ∀ x, fold_tys h (n+1) x = sfold_tys h (n+1) x := by
  intro x
  cases x with
  | nil => rfl
  | cons a rest => simp [fold_tys, sfold_tys, ih.ty, ih.tys]

theorem step_mt (h : Hooks) (n : Nat) (ih : MS h n) :
    ∀ x, noop_fold_mt h (n+1) x = sfold_mt h (n+1) x := by
  intro x
  cases x with
  | MutTy_mk ty m => simp [noop_fold_mt, sfold_mt, ih.ty]

theorem step_bounds (h : Hooks) (n : Nat) (ih : MS h n) :
    ∀ x, noop_fold_bounds h (n+1) x = sfold_bounds h (n+1) x := by
  intro x
  cases x with
  | nil => rfl
  | cons a rest => simp [noop_fold_bounds, sfold_bounds, ih.typb, ih.bounds]

theorem step_optBounds (h : Hooks) (n : Nat) (ih : MS h n) :
    ∀ x, noop_fold_opt_bounds h (n+1) x = sfold_opt_bounds h (n+1) x := by
  intro x
  cases x <;> simp [noop_fold_opt_bounds, sfold_opt_bounds, ih.bounds]

theorem step_typb (h : Hooks) (n : Nat) (ih : MS h n) :
    ∀ x, noop_fold_ty_param_bound h (n+1) x = sfold_ty_param_bound h (n+1) x := by
  intro x
  cases x <;> simp [noop_fold_ty_param_bound, sfold_ty_param_bound, ih.ptr]

theorem step_ptr (h : Hooks) (n : Nat) (ih : MS h n) :
    ∀ x, noop_fold_poly_trait_ref h (n+1) x = sfold_poly_trait_ref h (n+1) x := by
  intro x
  cases x with
  | PolyTraitRef_mk l t sp => simp [noop_fold_poly_trait_ref, sfold_poly_trait_ref, ih.tref]

theorem step_tref (h : Hooks) (n : Nat) (ih : MS h n) :
    ∀ x, noop_fold_trait_ref h (n+1) x = sfold_trait_ref h (n+1) x := by
  intro x
  cases x with
  | TraitRef_mk p id => simp [noop_fold_trait_ref, sfold_trait_ref, ih.path]

theorem step_expr (h : Hooks) (n : Nat) (ih : MS h n) :
    ∀ x, noop_fold_expr h (n+1) x = sfold_expr h (n+1) x := by
  intro x
  cases x with
  | Expr_mk id node sp attrs =>
    cases node with
    | ExprKind_Box e => simp [noop_fold_expr, sfold_expr, ih.expr]
    | ExprKind_InPlace p e => simp [noop_fold_expr, sfold_expr, ih.expr]
    | ExprKind_Vec es => simp [noop_fold_expr, sfold_expr, ih.exprs]
    | ExprKind_Repeat e c => simp [noop_fold_expr, sfold_expr, ih.expr]
    | ExprKind_Tup es => simp [noop_fold_expr, sfold_expr, ih.exprs]
    | ExprKind_Call f args => simp [noop_fold_expr, sfold_expr, ih.expr, ih.exprs]
    | ExprKind_MethodCall i tps args =>
      simp [noop_fold_expr, sfold_expr, ih.tys, ih.exprs]
    | ExprKind_Binary op l r => simp [noop_fold_expr, sfold_expr, ih.expr]
    | ExprKind_Unary op e => simp [noop_fold_expr, sfold_expr, ih.expr]
    | ExprKind_Lit l => simp [noop_fold_expr, sfold_expr]
    | ExprKind_Cast e t => simp [noop_fold_expr, sfold_expr, ih.expr, ih.ty]
    | ExprKind_TypeE e t => simp [noop_fold_expr, sfold_expr, ih.expr, ih.ty]
    | ExprKind_AddrOf m e => simp [noop_fold_expr, sfold_expr, ih.expr]
    | ExprKind_If c tr fl =>
      cases fl <;> simp [noop_fold_expr, sfold_expr, ih.expr, ih.block]
    | ExprKind_IfLet p e tr fl =>
      cases fl <;> simp [noop_fold_expr, sfold_expr, ih.pat, ih.expr, ih.block]
    | ExprKind_While c b l => simp [noop_fold_expr, sfold_expr, ih.expr, ih.block]
    | ExprKind_WhileLet p e b l =>
      simp [noop_fold_expr, sfold_expr, ih.pat, ih.expr, ih.block]
    | ExprKind_ForLoop p i b l =>
      simp [noop_fold_expr, sfold_expr, ih.pat, ih.expr, ih.block]
    | ExprKind_Loop b l => simp [noop_fold_expr, sfold_expr, ih.block]
    | ExprKind_Match e arms => simp [noop_fold_expr, sfold_expr, ih.expr, ih.arms]
    | ExprKind_Closure c d b => simp [noop_fold_expr, sfold_expr, ih.fnDecl, ih.block]
    | ExprKind_Block b => simp [noop_fold_expr, sfold_expr, ih.block]
    | ExprKind_Assign a b => simp [noop_fold_expr, sfold_expr, ih.expr]
    | ExprKind_AssignOp op a b => simp [noop_fold_expr, sfold_expr, ih.expr]
    | ExprKind_Field e i => simp [noop_fold_expr, sfold_expr, ih.expr]
    | ExprKind_TupField e i => simp [noop_fold_expr, sfold_expr, ih.expr]
    | ExprKind_Index a b => simp [noop_fold_expr, sfold_expr, ih.expr]
    | ExprKind_Range e1 e2 lim =>
      cases e1 <;> cases e2 <;> simp [noop_fold_expr, sfold_expr, ih.expr]
    | ExprKind_Path qself p =>
      cases qself with
      | none => simp [noop_fold_expr, sfold_expr, ih.path]
      | some q =>
        cases q with
        | QSelf_mk ty pos => simp [noop_fold_expr, sfold_expr, ih.ty, ih.path]
    | ExprKind_Break l => simp [noop_fold_expr, sfold_expr]
    | ExprKind_Again l => simp [noop_fold_expr, sfold_expr]
    | ExprKind_Ret e => cases e <;> simp [noop_fold_expr, sfold_expr, ih.expr]
    | ExprKind_InlineAsmE asm =>
      cases asm with
      | InlineAsm_mk ins outs a as cl v al d ex =>
        simp [noop_fold_expr, sfold_expr, ih.asmIns, ih.asmOuts]
    | ExprKind_Mac mac => simp [noop_fold_expr, sfold_expr, ih.macD]
    | ExprKind_Struct p fs me =>
      cases me <;> simp [noop_fold_expr, sfold_expr, ih.path, ih.fieldsF, ih.expr]
    | ExprKind_Paren e => simp [noop_fold_expr, sfold_expr, ih.expr]
    | ExprKind_Try e => simp [noop_fold_expr, sfold_expr, ih.expr]

theorem step_optE (h : Hooks) (n : Nat) (ih : MS h n) :
    ∀ x, noop_fold_opt_expr h (n+1) x = sfold_opt_expr h (n+1) x >>= fun e => pure (some e) := by
  intro x
  simp [noop_fold_opt_expr, sfold_opt_expr, ih.expr]

theorem step_exprs (h : Hooks) (n : Nat) (ih : MS h n) :
    ∀ x, noop_fold_exprs h (n+1) x = sfold_exprs h (n+1) x := by
  intro x
  cases x with
  | nil => rfl
  | cons a rest => simp [noop_fold_exprs, sfold_exprs, ih.optE, ih.exprs]

theorem step_asmIns (h : Hooks) (n : Nat) (ih : MS h n) :
    ∀ x, fold_asm_inputs h (n+1) x = sfold_asm_inputs h (n+1) x := by
  intro x
  cases x with
  | nil => rfl
  | cons a rest =>
    cases a with
    | AsmInput_mk c i => simp [fold_asm_inputs, sfold_asm_inputs, ih.expr, ih.asmIns]

theorem step_asmOuts (h : Hooks) (n : Nat) (ih : MS h n) :
    ∀ x, fold_asm_outputs h (n+1) x = sfold_asm_outputs h (n+1) x := by
  intro x
  cases x with
  | nil => rfl
  | cons a rest =>
    cases a with
    | InlineAsmOutput_mk c e r i =>
      simp [fold_asm_outputs, sfold_asm_outputs, ih.expr, ih.asmOuts]

theorem step_fieldF (h : Hooks) (n : Nat) (ih : MS h n) :
    ∀ x, noop_fold_field h (n+1) x = sfold_field h (n+1) x := by
  intro x
  cases x with
  | Field_mk i e sp => simp [noop_fold_field, sfold_field, ih.expr]

theorem step_fieldsF (h : Hooks) (n : Nat) (ih : MS h n) :
    ∀ x, fold_fields h (n+1) x = sfold_fields h (n+1) x := by
  intro x
  cases x with
  | nil => rfl
  | cons a rest => simp [fold_fields, sfold_fields, ih.fieldF, ih.fieldsF]

theorem step_arm (h : Hooks) (n : Nat) (ih : MS h n) :
    ∀ x, noop_fold_arm h (n+1) x = sfold_arm h (n+1) x := by
  intro x
  cases x with
  | Arm_mk attrs pats guard body =>
    cases guard <;> simp [noop_fold_arm, sfold_arm, ih.pats, ih.expr]

theorem step_arms (h : Hooks) (n : Nat) (ih : MS h n) :
    ∀ x, fold_arms h (n+1) x = sfold_arms h (n+1) x := by
  intro x
  cases x with
  | nil => rfl
  | cons a rest => simp [fold_arms, sfold_arms, ih.arm, ih.arms]

theorem step_pat (h : Hooks) (n : Nat) (ih : MS h n) :
    ∀ x, noop_fold_pat h (n+1) x = sfold_pat h (n+1) x := by
  intro x
  cases x with
  | Pat_mk id node sp =>
    cases node with
    | PatKind_Wild => simp [noop_fold_pat, sfold_pat]
    | PatKind_Ident bm pth1 sub => cases sub <;> simp [noop_fold_pat, sfold_pat, ih.pat]
    | PatKind_Lit e => simp [noop_fold_pat, sfold_pat, ih.expr]
    | PatKind_TupleStruct pth pats =>
      cases pats <;> simp [noop_fold_pat, sfold_pat, ih.path, ih.pats]
    | PatKind_Path pth => simp [noop_fold_pat, sfold_pat, ih.path]
    | PatKind_QPath qself pth =>
      cases qself with
      | QSelf_mk ty pos => simp [noop_fold_pat, sfold_pat, ih.ty, ih.path]
    | PatKind_Struct pth fields etc =>
      simp [noop_fold_pat, sfold_pat, ih.path, ih.fieldPats]
    | PatKind_Tup elts => simp [noop_fold_pat, sfold_pat, ih.pats]
    | PatKind_Box inner => simp [noop_fold_pat, sfold_pat, ih.pat]
    | PatKind_Ref inner m => simp [noop_fold_pat, sfold_pat, ih.pat]
    | PatKind_Range e1 e2 => simp [noop_fold_pat, sfold_pat, ih.expr]
    | PatKind_Vec before slice after =>
      cases slice <;> simp [noop_fold_pat, sfold_pat, ih.pats, ih.pat]
    | PatKind_Mac mac => simp [noop_fold_pat, sfold_pat, ih.macD]

theorem step_pats (h : Hooks) (n : Nat) (ih : MS h n) :
    ∀ x, fold_pats h (n+1) x = sfold_pats h (n+1) x := by
  intro x
  cases x with
  | nil => rfl
  | cons a rest => simp [fold_pats, sfold_pats, ih.pat, ih.pats]

theorem step_fieldPats (h : Hooks) (n : Nat) (ih : MS h n) :
    ∀ x, fold_field_pats h (n+1) x = sfold_field_pats h (n+1) x := by
  intro x
  cases x with
  | nil => rfl
  | cons a rest =>
    cases a with
    | SpannedFieldPat_mk node sp =>
      cases node with
      | FieldPat_mk i p s => simp [fold_field_pats, sfold_field_pats, ih.pat, ih.fieldPats]

theorem step_block (h : Hooks) (n : Nat) (ih : MS h n) :
    ∀ x, noop_fold_block h (n+1) x = sfold_block h (n+1) x := by
  intro x
  cases x with
  | Block_mk id stmts expr rules sp =>
    cases expr <;> simp [noop_fold_block, sfold_block, ih.stmts, ih.optE]

theorem step_stmtD (h : Hooks) (n : Nat) (hs : h.IsSimple) (ih : MS h n) :
    ∀ x, fold_stmt h (n+1) x = one1 (sfold_stmt h (n+1) x) := by
  intro x
  simp [fold_stmt, sfold_stmt, hs.2.2.1, ih.stmtN]

theorem step_stmtN (h : Hooks) (n : Nat) (ih : MS h n) :
    ∀ x, noop_fold_stmt h (n+1) x = one1 (sfold_stmtN h (n+1) x) := by
  intro x
  cases x with
  | Stmt_mk node sp =>
    cases node with
    | StmtKind_Decl d id => simp [noop_fold_stmt, sfold_stmtN, ih.decl, one1]
    | StmtKind_Expr e id => simp [noop_fold_stmt, sfold_stmtN, ih.optE, one1]
    | StmtKind_Semi e id => simp [noop_fold_stmt, sfold_stmtN, ih.optE, one1]
    | StmtKind_Mac mac semi attrs => simp [noop_fold_stmt, sfold_stmtN, ih.macD, one1]

theorem step_stmts (h : Hooks) (n : Nat) (ih : MS h n) :
    ∀ x, fold_stmts h (n+1) x = sfold_stmts h (n+1) x := by
  intro x
  cases x with
  | nil => rfl
  | cons a rest => simp [fold_stmts, sfold_stmts, ih.stmtD, ih.stmts, one1]

theorem step_decl (h : Hooks) (n : Nat) (ih : MS h n) :
    ∀ x, noop_fold_decl h (n+1) x = one1 (sfold_decl h (n+1) x) := by
  intro x
  cases x with
  | Decl_mk node sp =>
    cases node with
    | DeclKind_Local l => simp [noop_fold_decl, sfold_decl, ih.localF, one1]
    | DeclKind_Item it => simp [noop_fold_decl, sfold_decl, ih.itemD, one1]

theorem step_localF (h : Hooks) (n : Nat) (ih : MS h n) :
    ∀ x, noop_fold_local h (n+1) x = sfold_local h (n+1) x := by
  intro x
  cases x with
  | Local_mk id pat ty init sp attrs =>
    cases ty <;> cases init <;> simp [noop_fold_local, sfold_local, ih.ty, ih.pat, ih.expr]

theorem step_tt (h : Hooks) (n : Nat) (ih : MS h n) :
    ∀ x, noop_fold_tt h (n+1) x = sfold_tt h (n+1) x := by
  intro x
  cases x with
  | TokenTree_Token sp tok => simp [noop_fold_tt, sfold_tt, ih.token]
  | TokenTree_Delimited sp d =>
    cases d with
    | Delimited_mk del os tts cs => simp [noop_fold_tt, sfold_tt, ih.tts]
  | TokenTree_Sequence sp seq =>
    cases seq with
    | SequenceRepetition_mk tts sep op nc =>
      cases sep <;> simp [noop_fold_tt, sfold_tt, ih.tts, ih.token]

theorem step_tts (h : Hooks) (n : Nat) (ih : MS h n) :
    ∀ x, noop_fold_tts h (n+1) x = sfold_tts h (n+1) x := by
  intro x
  cases x with
  | nil => rfl
  | cons a rest => simp [noop_fold_tts, sfold_tts, ih.tt, ih.tts]

theorem step_token (h : Hooks) (n : Nat) (ih : MS h n) :
    ∀ x, noop_fold_token h (n+1) x = sfold_token h (n+1) x := by
  intro x
  cases x <;> simp [noop_fold_token, sfold_token, ih.interp]

theorem step_interp (h : Hooks) (n : Nat) (ih : MS h n) :
    ∀ x, noop_fold_interpolated h (n+1) x = sfold_interpolated h (n+1) x := by
  intro x
  cases x with
  | Nonterminal_NtItem item =>
    simp [noop_fold_interpolated, sfold_interpolated, ih.itemD, one1, expect_one]
  | Nonterminal_NtBlock b => simp [noop_fold_interpolated, sfold_interpolated, ih.block]
  | Nonterminal_NtStmt s =>
    simp [noop_fold_interpolated, sfold_interpolated, ih.stmtD, one1, expect_one]
  | Nonterminal_NtPat p => simp [noop_fold_interpolated, sfold_interpolated, ih.pat]
  | Nonterminal_NtExpr e => simp [noop_fold_interpolated, sfold_interpolated, ih.expr]
  | Nonterminal_NtTy t => simp [noop_fold_interpolated, sfold_interpolated, ih.ty]
  | Nonterminal_NtIdent i m => simp [noop_fold_interpolated, sfold_interpolated]
  | Nonterminal_NtMeta m => simp [noop_fold_interpolated, sfold_interpolated]
  | Nonterminal_NtPath p => simp [noop_fold_interpolated, sfold_interpolated, ih.path]
  | Nonterminal_NtTT t => simp [noop_fold_interpolated, sfold_interpolated, ih.tt]
  | Nonterminal_NtArm a => simp [noop_fold_interpolated, sfold_interpolated, ih.arm]
  | Nonterminal_NtImplItem a =>
    simp [noop_fold_interpolated, sfold_interpolated, ih.iitD, one1, expect_one]
  | Nonterminal_NtTraitItem a =>
    simp [noop_fold_interpolated, sfold_interpolated, ih.titD, one1, expect_one]
  | Nonterminal_NtGenerics g =>
    simp [noop_fold_interpolated, sfold_interpolated, ih.generics]
  | Nonterminal_NtWhereClause w =>
    simp [noop_fold_interpolated, sfold_interpolated, ih.whereC]
  | Nonterminal_NtArg a => simp [noop_fold_interpolated, sfold_interpolated, ih.arg]

theorem step_fnDecl (h : Hooks) (n : Nat) (ih : MS h n) :
    ∀ x, noop_fold_fn_decl h (n+1) x = sfold_fn_decl h (n+1) x := by
  intro x
  cases x with
  | FnDecl_mk inputs output variadic =>
    cases output <;> simp [noop_fold_fn_decl, sfold_fn_decl, ih.args, ih.ty]

theorem step_arg (h : Hooks) (n : Nat) (ih : MS h n) :
    ∀ x, noop_fold_arg h (n+1) x = sfold_arg h (n+1) x := by
  intro x
  cases x with
  | Arg_mk id pat ty => simp [noop_fold_arg, sfold_arg, ih.pat, ih.ty]

theorem step_args (h : Hooks) (n : Nat) (ih : MS h n) :
    ∀ x, fold_args h (n+1) x = sfold_args h (n+1) x := by
  intro x
  cases x with
  | nil => rfl
  | cons a rest => simp [fold_args, sfold_args, ih.arg, ih.args]

theorem step_typaram (h : Hooks) (n : Nat) (ih : MS h n) :
    ∀ x, noop_fold_ty_param h (n+1) x = sfold_ty_param h (n+1) x := by
  intro x
  cases x with
  | TyParam_mk id ident bounds default sp =>
    cases default <;> simp [noop_fold_ty_param, sfold_ty_param, ih.bounds, ih.ty]

theorem step_typarams (h : Hooks) (n : Nat) (ih : MS h n) :
    ∀ x, noop_fold_ty_params h (n+1) x = sfold_ty_params h (n+1) x := by
  intro x
  cases x with
  | nil => rfl
  | cons a rest => simp [noop_fold_ty_params, sfold_ty_params, ih.typaram, ih.typarams]

theorem step_generics (h : Hooks) (n : Nat) (ih : MS h n) :
    ∀ x, noop_fold_generics h (n+1) x = sfold_generics h (n+1) x := by
  intro x
  cases x with
  | Generics_mk l t w => simp [noop_fold_generics, sfold_generics, ih.typarams, ih.whereC]

theorem step_whereC (h : Hooks) (n : Nat) (ih : MS h n) :
    ∀ x, noop_fold_where_clause h (n+1) x = sfold_where_clause h (n+1) x := by
  intro x
  cases x with
  | WhereClause_mk id preds => simp [noop_fold_where_clause, sfold_where_clause, ih.wherePs]

theorem step_wherePs (h : Hooks) (n : Nat) (ih : MS h n) :
    ∀ x, fold_where_predicates h (n+1) x = sfold_where_predicates h (n+1) x := by
  intro x
  cases x with
  | nil => rfl
  | cons a rest =>
    simp [fold_where_predicates, sfold_where_predicates, ih.whereP, ih.wherePs]

theorem step_whereP (h : Hooks) (n : Nat) (ih : MS h n) :
    ∀ x, noop_fold_where_predicate h (n+1) x = sfold_where_predicate h (n+1) x := by
  intro x
  cases x with
  | WherePredicate_BoundPredicate p =>
    cases p with
    | WhereBoundPredicate_mk l ty bounds sp =>
      simp [noop_fold_where_predicate, sfold_where_predicate, ih.ty, ih.bounds]
  | WherePredicate_RegionPredicate p =>
    simp [noop_fold_where_predicate, sfold_where_predicate]
  | WherePredicate_EqPredicate p =>
    cases p with
    | WhereEqPredicate_mk id path ty sp =>
      simp [noop_fold_where_predicate, sfold_where_predicate, ih.path, ih.ty]

theorem step_vdata (h : Hooks) (n : Nat) (ih : MS h n) :
    ∀ x, noop_fold_variant_data h (n+1) x = sfold_variant_data h (n+1) x := by
  intro x
  cases x <;> simp [noop_fold_variant_data, sfold_variant_data, ih.sfields]

theorem step_sfield (h : Hooks) (n : Nat) (ih : MS h n) :
    ∀ x, noop_fold_struct_field h (n+1) x = sfold_struct_field h (n+1) x := by
  intro x
  cases x with
  | StructField_mk node sp =>
    cases node with
    | StructField__mk id kind ty attrs =>
      simp [noop_fold_struct_field, sfold_struct_field, ih.ty]

theorem step_sfields (h : Hooks) (n : Nat) (ih : MS h n) :
    ∀ x, fold_struct_fields h (n+1) x = sfold_struct_fields h (n+1) x := by
  intro x
  cases x with
  | nil => rfl
  | cons a rest => simp [fold_struct_fields, sfold_struct_fields, ih.sfield, ih.sfields]

theorem step_variant (h : Hooks) (n : Nat) (ih : MS h n) :
    ∀ x, noop_fold_variant h (n+1) x = sfold_variant h (n+1) x := by
  intro x
  cases x with
  | Variant_mk node sp =>
    cases node with
    | Variant__mk name attrs data disr =>
      cases disr <;> simp [noop_fold_variant, sfold_variant, ih.vdata, ih.expr]

theorem step_variants (h : Hooks) (n : Nat) (ih : MS h n) :
    ∀ x, fold_variants h (n+1) x = sfold_variants h (n+1) x := by
  intro x
  cases x with
  | nil => rfl
  | cons a rest => simp [fold_variants, sfold_variants, ih.variant, ih.variants]

theorem step_selfK (h : Hooks) (n : Nat) (ih : MS h n) :
    ∀ x, noop_fold_explicit_self_kind h (n+1) x = sfold_explicit_self_kind h (n+1) x := by
  intro x
  cases x <;> simp [noop_fold_explicit_self_kind, sfold_explicit_self_kind, ih.ty]

theorem step_eself (h : Hooks) (n : Nat) (ih : MS h n) :
    ∀ x, noop_fold_explicit_self h (n+1) x = sfold_explicit_self h (n+1) x := by
  intro x
  cases x with
  | ExplicitSelf_mk node sp => simp [noop_fold_explicit_self, sfold_explicit_self, ih.selfK]

theorem step_msig (h : Hooks) (n : Nat) (ih : MS h n) :
    ∀ x, noop_fold_method_sig h (n+1) x = sfold_method_sig h (n+1) x := by
  intro x
  cases x with
  | MethodSig_mk u c a d g e =>
    simp [noop_fold_method_sig, sfold_method_sig, ih.generics, ih.eself, ih.fnDecl]

theorem step_titD (h : Hooks) (n : Nat) (hs : h.IsSimple) (ih : MS h n) :
    ∀ x, fold_trait_item h (n+1) x = one1 (sfold_trait_item h (n+1) x) := by
  intro x
  simp [fold_trait_item, sfold_trait_item, hs.2.2.2.2, ih.titN]

theorem step_titN (h : Hooks) (n : Nat) (ih : MS h n) :
    ∀ x, noop_fold_trait_item h (n+1) x = one1 (sfold_trait_itemN h (n+1) x) := by
  intro x
  cases x with
  | TraitItem_mk id ident attrs node sp =>
    cases node with
    | TraitItemKind_Const ty default =>
      cases default <;>
        simp [noop_fold_trait_item, sfold_trait_itemN, ih.ty, ih.expr, one1]
    | TraitItemKind_Method sig body =>
      cases body <;>
        simp [noop_fold_trait_item, sfold_trait_itemN, ih.msig, ih.block, one1]
    | TraitItemKind_TypeT bounds default =>
      cases default <;>
        simp [noop_fold_trait_item, sfold_trait_itemN, ih.bounds, ih.ty, one1]

theorem step_tits (h : Hooks) (n : Nat) (ih : MS h n) :
    ∀ x, fold_trait_items h (n+1) x = sfold_trait_items h (n+1) x := by
  intro x
  cases x with
  | nil => rfl
  | cons a rest => simp [fold_trait_items, sfold_trait_items, ih.titD, ih.tits, one1]

theorem step_iitD (h : Hooks) (n : Nat) (hs : h.IsSimple) (ih : MS h n) :
    ∀ x, fold_impl_item h (n+1) x = one1 (sfold_impl_item h (n+1) x) := by
  intro x
  simp [fold_impl_item, sfold_impl_item, hs.2.2.2.1, ih.iitN]

theorem step_iitN (h : Hooks) (n : Nat) (ih : MS h n) :
    ∀ x, noop_fold_impl_item h (n+1) x = one1 (sfold_impl_itemN h (n+1) x) := by
  intro x
  cases x with
  | ImplItem_mk id ident attrs vis defaultness node sp =>
    cases node with
    | ImplItemKind_Const ty expr =>
      simp [noop_fold_impl_item, sfold_impl_itemN, ih.ty, ih.expr, one1]
    | ImplItemKind_Method sig body =>
      simp [noop_fold_impl_item, sfold_impl_itemN, ih.msig, ih.block, one1]
    | ImplItemKind_TypeI ty =>
      simp [noop_fold_impl_item, sfold_impl_itemN, ih.ty, one1]
    | ImplItemKind_Macro mac =>
      simp [noop_fold_impl_item, sfold_impl_itemN, ih.macD, one1]

theorem step_iits (h : Hooks) (n : Nat) (ih : MS h n) :
    ∀ x, fold_impl_items h (n+1) x = sfold_impl_items h (n+1) x := by
  intro x
  cases x with
  | nil => rfl
  | cons a rest => simp [fold_impl_items, sfold_impl_items, ih.iitD, ih.iits, one1]

theorem step_viewPath (h : Hooks) (n : Nat) (ih : MS h n) :
    ∀ x, noop_fold_view_path h (n+1) x = sfold_view_path h (n+1) x := by
  intro x
  cases x with
  | ViewPath_mk node sp =>
    cases node <;> simp [noop_fold_view_path, sfold_view_path, ih.path]

theorem step_itemKind (h : Hooks) (n : Nat) (ih : MS h n) :
    ∀ x, noop_fold_item_kind h (n+1) x = sfold_item_kind h (n+1) x := by
  intro x
  cases x with
  | ItemKind_ExternCrate s => simp [noop_fold_item_kind, sfold_item_kind]
  | ItemKind_Use vp => simp [noop_fold_item_kind, sfold_item_kind, ih.viewPath]
  | ItemKind_Static t m e => simp [noop_fold_item_kind, sfold_item_kind, ih.ty, ih.expr]
  | ItemKind_Const t e => simp [noop_fold_item_kind, sfold_item_kind, ih.ty, ih.expr]
  | ItemKind_Fn d u c a g b =>
    simp [noop_fold_item_kind, sfold_item_kind, ih.fnDecl, ih.generics, ih.block]
  | ItemKind_Mod m => simp [noop_fold_item_kind, sfold_item_kind, ih.modF]
  | ItemKind_ForeignMod nm => simp [noop_fold_item_kind, sfold_item_kind, ih.fmod]
  | ItemKind_Ty t g => simp [noop_fold_item_kind, sfold_item_kind, ih.ty, ih.generics]
  | ItemKind_Enum d g =>
    cases d with
    | EnumDef_mk variants =>
      simp [noop_fold_item_kind, sfold_item_kind, ih.variants, ih.generics]
  | ItemKind_Struct sd g =>
    simp [noop_fold_item_kind, sfold_item_kind, ih.vdata, ih.generics]
  | ItemKind_DefaultImpl u tr => simp [noop_fold_item_kind, sfold_item_kind, ih.tref]
  | ItemKind_Impl u p g ifce ty iis =>
    cases ifce <;>
      simp [noop_fold_item_kind, sfold_item_kind, ih.iits, ih.tref, ih.generics, ih.ty]
  | ItemKind_Trait u g bounds items =>
    simp [noop_fold_item_kind, sfold_item_kind, ih.bounds, ih.tits, ih.generics]
  | ItemKind_Mac m => simp [noop_fold_item_kind, sfold_item_kind, ih.macD]

theorem step_itemD (h : Hooks) (n : Nat) (hs : h.IsSimple) (ih : MS h n) :
    ∀ x, fold_item h (n+1) x = one1 (sfold_item h (n+1) x) := by
  intro x
  simp [fold_item, sfold_item, hs.2.1, ih.itemN]

theorem step_itemN (h : Hooks) (n : Nat) (ih : MS h n) :
    ∀ x, noop_fold_item h (n+1) x = one1 (sfold_itemN h (n+1) x) := by
  intro x
  simp [noop_fold_item, sfold_itemN, ih.itemS, one1]

theorem step_itemS (h : Hooks) (n : Nat) (ih : MS h n) :
    ∀ x, noop_fold_item_simple h (n+1) x = sfold_item_simple h (n+1) x := by
  intro x
  cases x with
  | Item_mk id ident attrs node vis sp =>
    simp [noop_fold_item_simple, sfold_item_simple, ih.itemKind]

theorem step_items (h : Hooks) (n : Nat) (ih : MS h n) :
    ∀ x, fold_items h (n+1) x = sfold_items h (n+1) x := by
  intro x
  cases x with
  | nil => rfl
  | cons a rest => simp [fold_items, sfold_items, ih.itemD, ih.items, one1]

theorem step_modF (h : Hooks) (n : Nat) (ih : MS h n) :
    ∀ x, noop_fold_mod h (n+1) x = sfold_mod h (n+1) x := by
  intro x
  cases x with
  | Mod_mk inner items => simp [noop_fold_mod, sfold_mod, ih.items]

theorem step_fitem (h : Hooks) (n : Nat) (ih : MS h n) :
    ∀ x, noop_fold_foreign_item h (n+1) x = sfold_foreign_item h (n+1) x := by
  intro x
  cases x with
  | ForeignItem_mk id ident attrs node vis sp =>
    cases node <;>
      simp [noop_fold_foreign_item, sfold_foreign_item, ih.fnDecl, ih.generics, ih.ty]

theorem step_fitems (h : Hooks) (n : Nat) (ih : MS h n) :
    ∀ x, fold_foreign_items h (n+1) x = sfold_foreign_items h (n+1) x := by
  intro x
  cases x with
  | nil => rfl
  | cons a rest => simp [fold_foreign_items, sfold_foreign_items, ih.fitem, ih.fitems]

theorem step_fmod (h : Hooks) (n : Nat) (ih : MS h n) :
    ∀ x, noop_fold_foreign_mod h (n+1) x = sfold_foreign_mod h (n+1) x := by
  intro x
  cases x with
  | ForeignMod_mk abi items => simp [noop_fold_foreign_mod, sfold_foreign_mod, ih.fitems]

theorem master_succ (h : Hooks) (hs : h.IsSimple) (n : Nat) (ih : MS h n) : MS h (n+1) :=
  ⟨step_macD h n hs ih, step_macN h n ih, step_path h n ih, step_segs h n ih,
   step_pparams h n ih, step_abpd h n ih, step_ppd h n ih, step_tyBind h n ih,
   step_tyBinds h n ih, step_ty h n ih, step_tys h n ih, step_mt h n ih,
   step_bounds h n ih, step_optBounds h n ih, step_typb h n ih, step_ptr h n ih,
   step_tref h n ih, step_expr h n ih, step_optE h n ih, step_exprs h n ih,
   step_asmIns h n ih, step_asmOuts h n ih, step_fieldF h n ih, step_fieldsF h n ih,
   step_arm h n ih, step_arms h n ih, step_pat h n ih, step_pats h n ih,
   step_fieldPats h n ih, step_block h n ih, step_stmtD h n hs ih, step_stmtN h n ih,
   step_stmts h n ih, step_decl h n ih, step_localF h n ih, step_tt h n ih,
   step_tts h n ih, step_token h n ih, step_interp h n ih, step_fnDecl h n ih,
   step_arg h n ih, step_args h n ih, step_typaram h n ih, step_typarams h n ih,
   step_generics h n ih, step_whereC h n ih, step_wherePs h n ih, step_whereP h n ih,
   step_vdata h n ih, step_sfield h n ih, step_sfields h n ih, step_variant h n ih,
   step_variants h n ih, step_selfK h n ih, step_eself h n ih, step_msig h n ih,
   step_titD h n hs ih, step_titN h n ih, step_tits h n ih, step_iitD h n hs ih,
   step_iitN h n ih, step_iits h n ih, step_viewPath h n ih, step_itemKind h n ih,
   step_itemD h n hs ih, step_itemN h n ih, step_itemS h n ih, step_items h n ih,
   step_modF h n ih, step_fitem h n ih, step_fitems h n ih, step_fmod h n ih⟩

/-- For every simple folder and every fuel, the default fold agrees with
the simplified specification-side fold on every node kind. -/
theorem master (h : Hooks) (hs : h.IsSimple) : ∀ n, MS h n := by
  intro n
  induction n with
  | zero => exact master_zero h
  | succ n ih => exact master_succ h hs n ih

/-- Whole-unit instance of the agreement. -/
theorem crate_master (h : Hooks) (hs : h.IsSimple) :
    ∀ n c, noop_fold_crate h n c = sfold_crate h n c := by
  intro n c
  cases n with
  | zero => rfl
  | succ n =>
    obtain ⟨module, attrs, config, ems, span⟩ := c
    have hM := master h hs n
    simp only [noop_fold_crate, sfold_crate, hM.itemD, one1, exc_bind_assoc, exc_bind_ok,
      exc_pure_eq]

end Ast

namespace Ast

/-! ## Inversion helper and small projections -/

theorem bind_ok_inv (m : Except String α) (f : α → Except String β) (b : β)
    (h : m >>= f = .ok b) : ∃ a, m = .ok a ∧ f a = .ok b := by
  cases m with
  | error e => exact absurd h (by simp [exc_bind_err])
  | ok a => exact ⟨a, rfl, h⟩

def Path.segments : Path → List PathSegment
  | .Path_mk _ segs _ => segs

def segIdent : PathSegment → Ident
  | .PathSegment_mk i _ => i

/-- The first top-level item's identifier of a folded unit (empty string
when there is none): a projection used to separate two crate values. -/
def tokNtIdentName : Token → Ident
  | .Token_Interpolated (.Nonterminal_NtIdent i _) => i.node
  | _ => ""

/-! ## Hook assignments the claims exercise -/

def KHooks (K : Ident) : Hooks := Hooks.simple (fun _ => K) id id

def bumpHooks : Hooks := Hooks.simple id (fun i => i + 1) (fun s => s + 1)

def zeroItemHooks : Hooks :=
  ⟨id, id, id, true, some (fun _ => pure []), none, none, none⟩

def dupItemHooks : Hooks :=
  ⟨id, id, id, true, some (fun i => pure [i, i]), none, none, none⟩

def oneItemHooks : Hooks :=
  ⟨id, id, id, true, some (fun i => pure [i]), none, none, none⟩

def zeroStmtHooks : Hooks :=
  ⟨id, id, id, true, none, some (fun _ => pure []), none, none⟩

def c7Hooks : Hooks :=
  ⟨id, id, id, true, some (fun i => pure [i, i]), some (fun _ => pure []), none, none⟩

/-! ## Concrete nodes for witnesses and counterexamples -/

def noParams : PathParameters :=
  .PathParameters_AngleBracketed (.AngleBracketedParameterData_mk [] [] [])

def inferTy : Ty := .Ty_mk 1 .TyKind_Infer 2

def litExpr : Expr := .Expr_mk 3 (.ExprKind_Lit 0) 4 none

def emptyBlock : Block := .Block_mk 7 [] none 0 8

def constItem : Item := .Item_mk 9 "c" [] (.ItemKind_Const inferTy litExpr) .Public 10

def stmt0 : Stmt := .Stmt_mk (.StmtKind_Expr litExpr 11) 12

def path0 : Path := .Path_mk false [.PathSegment_mk "x" noParams] 3

def tts0 : List TokenTree := [.TokenTree_Token 4 (.Token_Ident "y" 0)]

def mac0 : Mac := .Mac_mk (.Mac__mk path0 tts0 5) 6

/-- The value `mac0` folds to under the constant-`"K"` identifier hook. -/
def macK : Mac :=
  .Mac_mk (.Mac__mk (.Path_mk false [.PathSegment_mk "K" noParams] 3)
    [.TokenTree_Token 4 (.Token_Ident "K" 0)] 5) 6

def macItem : Item := .Item_mk 1 "m" [] (.ItemKind_Mac mac0) .Public 0

def macCrate : Crate := ⟨.Mod_mk 0 [macItem], [], [], [], 0⟩

def tinyCrate : Crate := ⟨.Mod_mk 0 [constItem], [], [], [], 0⟩

def crate0 : Crate := ⟨.Mod_mk 0 [], [], [], [], 0⟩

def crate1 : Crate := ⟨.Mod_mk 1 [constItem], [], [], [], 1⟩

/-- A reference type carrying an AST lifetime whose name sits in an
identifier-producing position. -/
def rptrTy : Ty :=
  .Ty_mk 1 (.TyKind_Rptr (some ⟨5, "a", 6⟩) (.MutTy_mk (.Ty_mk 7 .TyKind_Infer 8) 0)) 2

/-- A named struct-declaration field: the field name lives inside the
unfolded `kind`. -/
def namedStructField : StructField :=
  .StructField_mk (.StructField__mk 3 (.NamedField "f" .Public) (.Ty_mk 9 .TyKind_Infer 10) []) 4

def ntTok : Token := .Token_Interpolated (.Nonterminal_NtIdent ⟨"a", 7⟩ false)

/-! ## Only-`K` predicates over token streams (claim C2) -/

/-- Every identifier-bearing position of the plain token is `K`
(interpolated fragments are judged by the tree predicates, literals and
keywords carry no identifier). -/
inductive TokenKOnly (K : Ident) : Token → Prop where
  | ident : ∀ s, TokenKOnly K (.Token_Ident K s)
  | lifetime : TokenKOnly K (.Token_Lifetime K)
  | substNt : ∀ p, TokenKOnly K (.Token_SubstNt K p)
  | matchNt : ∀ p q, TokenKOnly K (.Token_MatchNt K K p q)
  | literal : ∀ l suf, TokenKOnly K (.Token_Literal l suf)
  | keyword : ∀ k, TokenKOnly K (.Token_Keyword k)
  | other : ∀ k, TokenKOnly K (.Token_Other k)
  | interpolated : ∀ nt, TokenKOnly K (.Token_Interpolated nt)

/-- Every identifier-bearing plain token anywhere in the token tree is `K`. -/
inductive TTreeK (K : Ident) : TokenTree → Prop where
  | token : ∀ sp t, TokenKOnly K t → TTreeK K (.TokenTree_Token sp t)
  | delimited : ∀ sp delim os tts cs, (∀ t ∈ tts, TTreeK K t) →
      TTreeK K (.TokenTree_Delimited sp (.Delimited_mk delim os tts cs))
  | sequence : ∀ sp tts sep op nc, (∀ t ∈ tts, TTreeK K t) →
      (∀ s, sep = some s → TokenKOnly K s) →
      TTreeK K (.TokenTree_Sequence sp (.SequenceRepetition_mk tts sep op nc))

theorem tokK_all (K : Ident) : ∀ n : Nat,
    (∀ t t', noop_fold_token (KHooks K) n t = .ok t' → TokenKOnly K t') ∧
    (∀ x x', noop_fold_tt (KHooks K) n x = .ok x' → TTreeK K x') ∧
    (∀ xs xs', noop_fold_tts (KHooks K) n xs = .ok xs' → ∀ t ∈ xs', TTreeK K t) ∧
    (∀ segs segs', fold_path_segments (KHooks K) n segs = .ok segs' →
       ∀ s ∈ segs', segIdent s = K) := by
  intro n
  induction n with
  | zero =>
    refine ⟨?_, ?_, ?_, ?_⟩ <;> intro a b hab <;>
      simp [noop_fold_token, noop_fold_tt, noop_fold_tts, fold_path_segments] at hab
  | succ n ihAll =>
    obtain ⟨ihTok, ihTT, ihTTs, ihSegs⟩ := ihAll
    refine ⟨?_, ?_, ?_, ?_⟩
    · intro t t' ht
      cases t with
      | Token_Ident i s =>
        simp only [noop_fold_token, exc_pure_eq, Except.ok.injEq] at ht
        subst ht
        exact TokenKOnly.ident s
      | Token_Lifetime i =>
        simp only [noop_fold_token, exc_pure_eq, Except.ok.injEq] at ht
        subst ht
        exact TokenKOnly.lifetime
      | Token_SubstNt i p =>
        simp only [noop_fold_token, exc_pure_eq, Except.ok.injEq] at ht
        subst ht
        exact TokenKOnly.substNt p
      | Token_MatchNt a b p q =>
        simp only [noop_fold_token, exc_pure_eq, Except.ok.injEq] at ht
        subst ht
        exact TokenKOnly.matchNt p q
      | Token_Interpolated nt =>
        simp only [noop_fold_token] at ht
        obtain ⟨nt2, h1, h2⟩ := bind_ok_inv _ _ _ ht
        simp only [exc_pure_eq, Except.ok.injEq] at h2
        subst h2
        exact TokenKOnly.interpolated nt2
      | Token_Literal l suf =>
        simp only [noop_fold_token, exc_pure_eq, Except.ok.injEq] at ht
        subst ht
        exact TokenKOnly.literal l suf
      | Token_Keyword k =>
        simp only [noop_fold_token, exc_pure_eq, Except.ok.injEq] at ht
        subst ht
        exact TokenKOnly.keyword k
      | Token_Other k =>
        simp only [noop_fold_token, exc_pure_eq, Except.ok.injEq] at ht
        subst ht
        exact TokenKOnly.other k
    · intro x x' hx
      cases x with
      | TokenTree_Token sp tok =>
        simp only [noop_fold_tt] at hx
        obtain ⟨tok2, h1, h2⟩ := bind_ok_inv _ _ _ hx
        simp only [exc_pure_eq, Except.ok.injEq] at h2
        subst h2
        exact TTreeK.token sp tok2 (ihTok tok tok2 h1)
      | TokenTree_Delimited sp d =>
        cases d with
        | Delimited_mk delim os tts cs =>
          simp only [noop_fold_tt] at hx
          obtain ⟨tts2, h1, h2⟩ := bind_ok_inv _ _ _ hx
          simp only [exc_pure_eq, Except.ok.injEq] at h2
          subst h2
          exact TTreeK.delimited sp delim os tts2 cs (ihTTs tts tts2 h1)
      | TokenTree_Sequence sp seq =>
        cases seq with
        | SequenceRepetition_mk tts sep op nc =>
          cases sep with
          | none =>
            simp only [noop_fold_tt] at hx
            obtain ⟨tts2, h1, h2⟩ := bind_ok_inv _ _ _ hx
            simp only [exc_pure_eq, exc_bind_ok, Except.ok.injEq] at h2
            subst h2
            exact TTreeK.sequence sp tts2 none op nc (ihTTs tts tts2 h1)
              (fun s hs => by cases hs)
          | some tok =>
            simp only [noop_fold_tt] at hx
            obtain ⟨tts2, h1, h2⟩ := bind_ok_inv _ _ _ hx
            obtain ⟨tok2, h3, h4⟩ := bind_ok_inv _ _ _ h2
            simp only [exc_pure_eq, exc_bind_ok, Except.ok.injEq] at h4
            subst h4
            refine TTreeK.sequence sp tts2 (some tok2) op nc (ihTTs tts tts2 h1) ?_
            intro s hs
            injection hs with he
            subst he
            exact ihTok tok tok2 h3
    · intro xs xs' hxs
      cases xs with
      | nil =>
        simp only [noop_fold_tts, exc_pure_eq, Except.ok.injEq] at hxs
        subst hxs
        intro t ht
        simp at ht
      | cons a rest =>
        simp only [noop_fold_tts] at hxs
        obtain ⟨a2, h1, h2⟩ := bind_ok_inv _ _ _ hxs
        obtain ⟨rest2, h3, h4⟩ := bind_ok_inv _ _ _ h2
        simp only [exc_pure_eq, Except.ok.injEq] at h4
        subst h4
        intro t ht
        simp only [List.mem_cons] at ht
        cases ht with
        | inl he => exact he ▸ ihTT a a2 h1
        | inr hm => exact ihTTs rest rest2 h3 t hm
    · intro segs segs' hsegs
      cases segs with
      | nil =>
        simp only [fold_path_segments, exc_pure_eq, Except.ok.injEq] at hsegs
        subst hsegs
        intro s hs
        simp at hs
      | cons a rest =>
        cases a with
        | PathSegment_mk i params =>
          simp only [fold_path_segments] at hsegs
          obtain ⟨p2, h1, h2⟩ := bind_ok_inv _ _ _ hsegs
          obtain ⟨rest2, h3, h4⟩ := bind_ok_inv _ _ _ h2
          simp only [exc_pure_eq, Except.ok.injEq] at h4
          subst h4
          intro s hs
          simp only [List.mem_cons] at hs
          cases hs with
          | inl he => subst he; simp [segIdent, KHooks, Hooks.simple]
          | inr hm => exact ihSegs rest rest2 h3 s hm

theorem pathK (K : Ident) : ∀ (n : Nat) (p p' : Path),
    noop_fold_path (KHooks K) n p = .ok p' →
    ∀ s ∈ Path.segments p', segIdent s = K := by
  intro n p p' hp
  cases n with
  | zero => exact absurd hp (by simp [noop_fold_path])
  | succ n =>
    cases p with
    | Path_mk g segs sp =>
      simp only [noop_fold_path] at hp
      obtain ⟨segs2, h1, h2⟩ := bind_ok_inv _ _ _ hp
      simp only [exc_pure_eq, Except.ok.injEq] at h2
      subst h2
      intro s hs
      exact (tokK_all K n).2.2.2 segs segs2 h1 s hs

/-! ## Helper lemmas for the flattening claim C7 -/

theorem items_flat (h : Hooks) (f : Item → Except String (List Item))
    (g : Item → List Item) (hov : h.foldItemO = some f) :
    ∀ (n : Nat) (items : List Item), items.length < n →
      (∀ x ∈ items, f x = .ok (g x)) →
      fold_items h n items = .ok (items.flatMap g) := by
  intro n
  induction n with
  | zero => intro items hlen _; exact absurd hlen (Nat.not_lt_zero _)
  | succ n ih =>
    intro items hlen hall
    cases items with
    | nil => simp [fold_items]
    | cons a rest =>
      cases n with
      | zero => simp at hlen
      | succ m =>
        have hfa : f a = .ok (g a) := hall a (by simp)
        have hrest := ih rest (by simp at hlen ⊢; omega) (fun x hx => hall x (by simp [hx]))
        simp [fold_items, fold_item, hov, hfa, hrest]

theorem stmts_flat (h : Hooks) (f : Stmt → Except String (List Stmt))
    (g : Stmt → List Stmt) (hov : h.foldStmtO = some f) :
    ∀ (n : Nat) (stmts : List Stmt), stmts.length < n →
      (∀ x ∈ stmts, f x = .ok (g x)) →
      fold_stmts h n stmts = .ok (stmts.flatMap g) := by
  intro n
  induction n with
  | zero => intro stmts hlen _; exact absurd hlen (Nat.not_lt_zero _)
  | succ n ih =>
    intro stmts hlen hall
    cases stmts with
    | nil => simp [fold_stmts]
    | cons a rest =>
      cases n with
      | zero => simp at hlen
      | succ m =>
        have hfa : f a = .ok (g a) := hall a (by simp)
        have hrest := ih rest (by simp at hlen ⊢; omega) (fun x hx => hall x (by simp [hx]))
        simp [fold_stmts, fold_stmt, hov, hfa, hrest]

theorem flat_len (g : α → List β) : ∀ l : List α,
    (l.flatMap g).length = (l.map fun x => (g x).length).sum := by
  intro l
  induction l with
  | nil => simp
  | cons a t iht => simp [iht]

/-! ## The claims -/

/-- Claim C1 (corrected), counterexample: a folder with every hook left at
its default is not the identity on every well-formed tree — `fold_mac` is
left at its panicking default, so a unit containing a macro invocation
fails fatally instead of reproducing the input. -/
theorem C1_counterexample :
    noop_fold_crate ({} : Hooks) 12 macCrate = .error "fold_mac disabled by default" := rfl

/-- Claim C1 (corrected): with the identifier and rewrite hooks at their
identity defaults and `fold_mac` delegated to `noop_fold_mac`, the full
default fold of a unit agrees with the simplified single-valued
recursion `sfold_crate` (all multiplicity plumbing — `SmallVector`
wrapping, `expect_one`, the synthetic-module assembly — introduces no
change), and it reproduces every unit the simplified recursion maps to
itself. -/
theorem C1_identity_refinement :
    (∀ n c, noop_fold_crate (Hooks.simple id id id) n c =
       sfold_crate (Hooks.simple id id id) n c) ∧
    (∀ n c, sfold_crate (Hooks.simple id id id) n c = .ok c →
       noop_fold_crate (Hooks.simple id id id) n c = .ok c) := by
  have h := crate_master (Hooks.simple id id id) (Hooks.simple_isSimple id id id)
  exact ⟨h, fun n c hc => (h n c).trans hc⟩

theorem C1_witness :
    sfold_crate (Hooks.simple id id id) 25 tinyCrate = .ok tinyCrate ∧
    noop_fold_crate (Hooks.simple id id id) 25 tinyCrate = .ok tinyCrate :=
  ⟨rfl, C1_identity_refinement.2 25 tinyCrate rfl⟩

/-- Claim C2 (corrected), counterexample: the constant-`"K"` identifier
folder leaves two identifier-producing positions untouched — the name of
an AST lifetime (`noop_fold_lifetime` rewrites only id and span) and a
declared struct-field name (the field's `kind` is not folded) — so not
every identifier-producing position equals `K`. -/
theorem C2_counterexample :
    noop_fold_ty (KHooks "K") 8 rptrTy = .ok rptrTy ∧
    noop_fold_struct_field (KHooks "K") 8 namedStructField = .ok namedStructField ∧
    ("a" : Ident) ≠ "K" ∧ ("f" : Ident) ≠ "K" :=
  ⟨rfl, rfl, by decide, by decide⟩

/-- Claim C2 (corrected): for the folder that overrides only the
identifier hook to the constant `K` and delegates `fold_mac`, a
successful macro fold yields an invocation whose callee-path segment
identifiers all equal `K` and whose token stream carries `K` at every
identifier-bearing plain token (identifier, lifetime, substitution and
match-binder placeholders), while literal and keyword tokens pass
through unchanged. -/
theorem C2_constant_subst (K : Ident) (n : Nat) :
    (∀ m m', noop_fold_mac (KHooks K) n m = .ok m' →
       (∀ s ∈ Path.segments (Mac_.path (Mac.node m')), segIdent s = K) ∧
       (∀ t ∈ Mac_.tts (Mac.node m'), TTreeK K t)) ∧
    (∀ l suf, noop_fold_token (KHooks K) (n+1) (.Token_Literal l suf) =
       .ok (.Token_Literal l suf)) ∧
    (∀ k, noop_fold_token (KHooks K) (n+1) (.Token_Keyword k) =
       .ok (.Token_Keyword k)) := by
  refine ⟨?_, fun l suf => rfl, fun k => rfl⟩
  intro m m' hm
  cases n with
  | zero => exact absurd hm (by simp [noop_fold_mac])
  | succ n =>
    cases m with
    | Mac_mk node span =>
      cases node with
      | Mac__mk path tts ctxt =>
        simp only [noop_fold_mac] at hm
        obtain ⟨path2, h1, h2⟩ := bind_ok_inv _ _ _ hm
        obtain ⟨tts2, h3, h4⟩ := bind_ok_inv _ _ _ h2
        simp only [exc_pure_eq, Except.ok.injEq] at h4
        subst h4
        exact ⟨pathK K n path path2 h1, fun t ht => (tokK_all K n).2.2.1 tts tts2 h3 t ht⟩

theorem C2_witness :
    segIdent (.PathSegment_mk "K" noParams) = "K" ∧
    TTreeK "K" (.TokenTree_Token 4 (.Token_Ident "K" 0)) ∧
    noop_fold_token (KHooks "K") 9 (.Token_Literal 7 none) = .ok (.Token_Literal 7 none) ∧
    noop_fold_token (KHooks "K") 9 (.Token_Keyword 3) = .ok (.Token_Keyword 3) := by
  have H := (C2_constant_subst "K" 8).1 mac0 macK rfl
  exact ⟨H.1 (.PathSegment_mk "K" noParams) (List.Mem.head _),
    H.2 (.TokenTree_Token 4 (.Token_Ident "K" 0)) (List.Mem.head _),
    (C2_constant_subst "K" 8).2.1 7 none,
    (C2_constant_subst "K" 8).2.2 3⟩

/-- Claim C3 (corrected), counterexample: the rewrite hooks do not fire on
every identity and span field — `noop_fold_ty_param` rebuilds its node
with the span kept verbatim, and `noop_fold_tt` keeps every token-tree
span, so a span-bumping folder leaves both spans unbumped. -/
theorem C3_counterexample :
    noop_fold_ty_param bumpHooks 3 (.TyParam_mk 1 "a" [] none 5) =
      .ok (.TyParam_mk 2 "a" [] none 5) ∧
    noop_fold_tt bumpHooks 3 (.TokenTree_Token 7 (.Token_Keyword 0)) =
      .ok (.TokenTree_Token 7 (.Token_Keyword 0)) ∧
    (5 : Span) + 1 ≠ 5 ∧ (7 : Span) + 1 ≠ 7 :=
  ⟨rfl, rfl, by decide, by decide⟩

/-- Claim C3 (corrected): under the bumping folder (`new_id` adds one,
`new_span` adds one), the defaults route identity fields through
`new_id` exactly once and most span fields through `new_span` exactly
once — a successful fold of a type, pattern or block bumps both its id
and its span, `noop_fold_lifetime` bumps both fields — but with
exceptions: a successful type-parameter fold bumps the id and keeps the
span verbatim, and a token-tree fold keeps the tree's span. -/
theorem C3_hooks_per_field (n : Nat) :
    (∀ x y, noop_fold_ty bumpHooks (n+1) x = .ok y →
       Ty.id y = Ty.id x + 1 ∧ Ty.span y = Ty.span x + 1) ∧
    (∀ x y, noop_fold_pat bumpHooks (n+1) x = .ok y →
       Pat.id y = Pat.id x + 1 ∧ Pat.span y = Pat.span x + 1) ∧
    (∀ x y, noop_fold_block bumpHooks (n+1) x = .ok y →
       Block.id y = Block.id x + 1 ∧ Block.span y = Block.span x + 1) ∧
    (∀ x y, noop_fold_ty_param bumpHooks (n+1) x = .ok y →
       TyParam.id y = TyParam.id x + 1 ∧ TyParam.span y = TyParam.span x) ∧
    (∀ sp tok y, noop_fold_tt bumpHooks (n+1) (.TokenTree_Token sp tok) = .ok y →
       ∃ tok', y = .TokenTree_Token sp tok') ∧
    (∀ l : Lifetime, noop_fold_lifetime bumpHooks l = ⟨l.id + 1, l.name, l.span + 1⟩) := by
  refine ⟨?_, ?_, ?_, ?_, ?_, fun l => rfl⟩
  · intro x y hxy
    cases x with
    | Ty_mk i node sp =>
      simp only [noop_fold_ty] at hxy
      cases node <;>
        (try simp only [exc_bind_assoc, exc_bind_ok, exc_pure_eq] at hxy) <;>
        (repeat split at hxy) <;>
        (try simp only [exc_bind_assoc, exc_bind_ok, exc_pure_eq] at hxy) <;>
        (repeat obtain ⟨_, _, hxy⟩ := bind_ok_inv _ _ _ hxy) <;>
        (try simp only [exc_pure_eq, Except.ok.injEq] at hxy) <;>
        (subst hxy; exact ⟨rfl, rfl⟩)
  · intro x y hxy
    cases x with
    | Pat_mk i node sp =>
      simp only [noop_fold_pat] at hxy
      cases node <;>
        (try simp only [exc_bind_assoc, exc_bind_ok, exc_pure_eq] at hxy) <;>
        (repeat split at hxy) <;>
        (try simp only [exc_bind_assoc, exc_bind_ok, exc_pure_eq] at hxy) <;>
        (repeat obtain ⟨_, _, hxy⟩ := bind_ok_inv _ _ _ hxy) <;>
        (try simp only [exc_pure_eq, Except.ok.injEq] at hxy) <;>
        (subst hxy; exact ⟨rfl, rfl⟩)
  · intro x y hxy
    cases x with
    | Block_mk i stmts e rules sp =>
      simp only [noop_fold_block] at hxy
      (try simp only [exc_bind_assoc, exc_bind_ok, exc_pure_eq] at hxy) <;>
        (repeat split at hxy) <;>
        (try simp only [exc_bind_assoc, exc_bind_ok, exc_pure_eq] at hxy) <;>
        (repeat obtain ⟨_, _, hxy⟩ := bind_ok_inv _ _ _ hxy) <;>
        (try simp only [exc_pure_eq, Except.ok.injEq] at hxy) <;>
        (subst hxy; exact ⟨rfl, rfl⟩)
  · intro x y hxy
    cases x with
    | TyParam_mk i ident bounds default sp =>
      simp only [noop_fold_ty_param] at hxy
      (try simp only [exc_bind_assoc, exc_bind_ok, exc_pure_eq] at hxy) <;>
        (repeat split at hxy) <;>
        (try simp only [exc_bind_assoc, exc_bind_ok, exc_pure_eq] at hxy) <;>
        (repeat obtain ⟨_, _, hxy⟩ := bind_ok_inv _ _ _ hxy) <;>
        (try simp only [exc_pure_eq, Except.ok.injEq] at hxy) <;>
        (subst hxy; exact ⟨rfl, rfl⟩)
  · intro sp tok y hxy
    simp only [noop_fold_tt] at hxy
    obtain ⟨tok2, _, h2⟩ := bind_ok_inv _ _ _ hxy
    simp only [exc_pure_eq, Except.ok.injEq] at h2
    exact ⟨tok2, h2.symm⟩

theorem C3_witness :
    (Ty.id (.Ty_mk 2 .TyKind_Infer 3) = Ty.id (.Ty_mk 1 .TyKind_Infer 2) + 1 ∧
     Ty.span (.Ty_mk 2 .TyKind_Infer 3) = Ty.span (.Ty_mk 1 .TyKind_Infer 2) + 1) ∧
    (TyParam.id (.TyParam_mk 2 "a" [] none 5) = TyParam.id (.TyParam_mk 1 "a" [] none 5) + 1 ∧
     TyParam.span (.TyParam_mk 2 "a" [] none 5) = TyParam.span (.TyParam_mk 1 "a" [] none 5)) ∧
    (∃ tok', (.TokenTree_Token 7 (.Token_Keyword 0) : TokenTree) = .TokenTree_Token 7 tok') :=
  ⟨(C3_hooks_per_field 2).1 (.Ty_mk 1 .TyKind_Infer 2) (.Ty_mk 2 .TyKind_Infer 3) rfl,
   (C3_hooks_per_field 2).2.2.2.1 (.TyParam_mk 1 "a" [] none 5) (.TyParam_mk 2 "a" [] none 5) rfl,
   (C3_hooks_per_field 2).2.2.2.2.1 7 (.Token_Keyword 0)
     (.TokenTree_Token 7 (.Token_Keyword 0)) rfl⟩

/-- Claim C4 (corrected), counterexample: an item fold returning zero
items does not make the unit fold fail — the unit is rebuilt with an
empty module, refuting "failing fatally in every other case (zero
results, ...)". -/
theorem C4_counterexample :
    noop_fold_crate zeroItemHooks 2 crate0 = .ok ⟨.Mod_mk 0 [], [], [], [], 0⟩ := rfl

/-- Claim C4 (corrected): folding a unit wraps the top-level items in a
synthetic module item and folds it through the multiplicity-returning
item operation; more than one resulting item fails fatally, one
resulting non-module item fails fatally, and one resulting module item
rebuilds the unit from that item — but zero resulting items succeed
with an empty module (claim C10). -/
theorem C4_crate_assembly (h : Hooks) (f : Item → Except String (List Item)) (n : Nat)
    (module : Mod) (attrs : List Attribute) (config : List MetaItem) (ems : List MacroDef)
    (span : Span) (cfg : List MetaItem)
    (hov : h.foldItemO = some f)
    (hcfg : noop_fold_meta_items h (n+1) config = .ok cfg) :
    (∀ i1 i2 rest,
       f (.Item_mk DUMMY_NODE_ID invalidIdent attrs (.ItemKind_Mod module) .Public span) =
         .ok (i1 :: i2 :: rest) →
       noop_fold_crate h (n+2) ⟨module, attrs, config, ems, span⟩ =
         .error "a crate cannot expand to more than one item") ∧
    (∀ id2 ident2 attrs2 node vis2 span2,
       f (.Item_mk DUMMY_NODE_ID invalidIdent attrs (.ItemKind_Mod module) .Public span) =
         .ok [.Item_mk id2 ident2 attrs2 node vis2 span2] →
       (∀ m, node ≠ .ItemKind_Mod m) →
       noop_fold_crate h (n+2) ⟨module, attrs, config, ems, span⟩ =
         .error "fold converted a module to not a module") ∧
    (∀ id2 ident2 attrs2 m vis2 span2,
       f (.Item_mk DUMMY_NODE_ID invalidIdent attrs (.ItemKind_Mod module) .Public span) =
         .ok [.Item_mk id2 ident2 attrs2 (.ItemKind_Mod m) vis2 span2] →
       noop_fold_crate h (n+2) ⟨module, attrs, config, ems, span⟩ =
         .ok ⟨m, attrs2, cfg,
           ems.map (fun d => MacroDef.mk d.ident d.attrs (h.newId d.id) d.span
             d.imported_from d.exportM d.use_locally d.allow_internal_unstable d.body),
           span2⟩) := by
  refine ⟨?_, ?_, ?_⟩
  · intro i1 i2 rest hf
    simp only [noop_fold_crate, fold_item, hov, hcfg, hf, exc_bind_ok, exc_bind_err,
      exc_pure_eq, exc_bind_assoc]
  · intro id2 ident2 attrs2 node vis2 span2 hf hne
    cases node <;> try exact absurd rfl (hne _)
    all_goals
      simp only [noop_fold_crate, fold_item, hov, hcfg, hf, exc_bind_ok, exc_bind_err,
        exc_pure_eq, exc_bind_assoc]
  · intro id2 ident2 attrs2 m vis2 span2 hf
    simp only [noop_fold_crate, fold_item, hov, hcfg, hf, exc_bind_ok, exc_pure_eq,
      exc_bind_assoc]

theorem C4_witness :
    noop_fold_crate dupItemHooks 2 crate0 = .error "a crate cannot expand to more than one item" :=
  (C4_crate_assembly dupItemHooks (fun i => pure [i, i]) 0 (.Mod_mk 0 []) [] [] [] 0 []
    rfl rfl).1 _ _ [] rfl

/-- Claim C5 (confirmed): for the four interpolated-fragment kinds whose
ordinary fold is multiplicity-returning (item, statement, impl item,
trait item), a per-kind fold returning exactly one result succeeds and
re-wraps it as the same fragment kind, while zero results or two or more
results fail fatally with the fragment adapter's message. -/
theorem C5_interpolated_arity (h : Hooks) (n : Nat) :
    (∀ f, h.foldItemO = some f →
      (∀ item out, f item = .ok [out] →
         noop_fold_interpolated h (n+2) (.Nonterminal_NtItem item) =
           .ok (.Nonterminal_NtItem out)) ∧
      (∀ item, f item = .ok [] →
         noop_fold_interpolated h (n+2) (.Nonterminal_NtItem item) =
           .error "expected fold to produce exactly one item") ∧
      (∀ item o1 o2 os, f item = .ok (o1 :: o2 :: os) →
         noop_fold_interpolated h (n+2) (.Nonterminal_NtItem item) =
           .error "expected fold to produce exactly one item")) ∧
    (∀ f, h.foldStmtO = some f →
      (∀ stmt out, f stmt = .ok [out] →
         noop_fold_interpolated h (n+2) (.Nonterminal_NtStmt stmt) =
           .ok (.Nonterminal_NtStmt out)) ∧
      (∀ stmt, f stmt = .ok [] →
         noop_fold_interpolated h (n+2) (.Nonterminal_NtStmt stmt) =
           .error "expected fold to produce exactly one statement") ∧
      (∀ stmt o1 o2 os, f stmt = .ok (o1 :: o2 :: os) →
         noop_fold_interpolated h (n+2) (.Nonterminal_NtStmt stmt) =
           .error "expected fold to produce exactly one statement")) ∧
    (∀ f, h.foldImplItemO = some f →
      (∀ it out, f it = .ok [out] →
         noop_fold_interpolated h (n+2) (.Nonterminal_NtImplItem it) =
           .ok (.Nonterminal_NtImplItem out)) ∧
      (∀ it, f it = .ok [] →
         noop_fold_interpolated h (n+2) (.Nonterminal_NtImplItem it) =
           .error "expected fold to produce exactly one item") ∧
      (∀ it o1 o2 os, f it = .ok (o1 :: o2 :: os) →
         noop_fold_interpolated h (n+2) (.Nonterminal_NtImplItem it) =
           .error "expected fold to produce exactly one item")) ∧
    (∀ f, h.foldTraitItemO = some f →
      (∀ it out, f it = .ok [out] →
         noop_fold_interpolated h (n+2) (.Nonterminal_NtTraitItem it) =
           .ok (.Nonterminal_NtTraitItem out)) ∧
      (∀ it, f it = .ok [] →
         noop_fold_interpolated h (n+2) (.Nonterminal_NtTraitItem it) =
           .error "expected fold to produce exactly one item") ∧
      (∀ it o1 o2 os, f it = .ok (o1 :: o2 :: os) →
         noop_fold_interpolated h (n+2) (.Nonterminal_NtTraitItem it) =
           .error "expected fold to produce exactly one item")) := by
  refine ⟨fun f hov => ⟨?_, ?_, ?_⟩, fun f hov => ⟨?_, ?_, ?_⟩,
    fun f hov => ⟨?_, ?_, ?_⟩, fun f hov => ⟨?_, ?_, ?_⟩⟩ <;>
    intros <;>
    simp only [noop_fold_interpolated, fold_item, fold_stmt, fold_impl_item,
      fold_trait_item, expect_one, exc_bind_ok, exc_bind_err, exc_pure_eq, *]

theorem C5_witness :
    noop_fold_interpolated oneItemHooks 2 (.Nonterminal_NtItem constItem) =
      .ok (.Nonterminal_NtItem constItem) ∧
    noop_fold_interpolated zeroStmtHooks 2 (.Nonterminal_NtStmt stmt0) =
      .error "expected fold to produce exactly one statement" :=
  ⟨((C5_interpolated_arity oneItemHooks 0).1 _ rfl).1 constItem constItem rfl,
   ((C5_interpolated_arity zeroStmtHooks 0).2.1 _ rfl).2.1 stmt0 rfl⟩

/-- Claim C6 (corrected), counterexample: the default macro fold does fail
fatally, but its message is "fold_mac disabled by default", not the
claimed "fold disabled by default". -/
theorem C6_counterexample :
    fold_mac ({} : Hooks) 4 mac0 = .error "fold_mac disabled by default" ∧
    "fold_mac disabled by default" ≠ "fold disabled by default" :=
  ⟨rfl, by decide⟩

/-- Claim C6 (corrected): the non-overridden macro fold fails fatally on
every macro-invocation node with the message "fold_mac disabled by
default"; a consumer that opts in delegates to `noop_fold_mac`, which
folds the callee path through the ordinary path fold, recurses into the
argument token sequence, rewrites the span, and preserves the
hygiene-context tag. -/
theorem C6_fold_mac (h : Hooks) (n : Nat) :
    (h.macNoop = false → ∀ m, fold_mac h (n+1) m = .error "fold_mac disabled by default") ∧
    (h.macNoop = true → ∀ m, fold_mac h (n+1) m = noop_fold_mac h n m) ∧
    (∀ path tts ctxt span path' tts',
       noop_fold_path h n path = .ok path' → noop_fold_tts h n tts = .ok tts' →
       noop_fold_mac h (n+1) (.Mac_mk (.Mac__mk path tts ctxt) span) =
         .ok (.Mac_mk (.Mac__mk path' tts' ctxt) (h.newSpan span))) := by
  refine ⟨fun hm m => by simp [fold_mac, hm], fun hm m => by simp [fold_mac, hm], ?_⟩
  intro path tts ctxt span path' tts' hp ht
  simp only [noop_fold_mac, hp, ht, exc_bind_ok, exc_pure_eq]

theorem C6_witness :
    fold_mac ({} : Hooks) 6 mac0 = .error "fold_mac disabled by default" ∧
    fold_mac (Hooks.simple id id id) 6 mac0 = noop_fold_mac (Hooks.simple id id id) 5 mac0 ∧
    noop_fold_mac (Hooks.simple id id id) 6 mac0 = .ok mac0 :=
  ⟨(C6_fold_mac ({} : Hooks) 5).1 rfl mac0,
   (C6_fold_mac (Hooks.simple id id id) 5).2.1 rfl mac0,
   (C6_fold_mac (Hooks.simple id id id) 5).2.2 path0 tts0 5 6 path0 tts0 rfl rfl⟩

/-- Claim C7 (confirmed): a multiplicity-returning per-element fold over a
sequence concatenates the per-element results in input order — the
output is the in-order flat-map, its length is the sum of the
per-element result lengths — both for item sequences (as folded by the
module fold) and for statement sequences. -/
theorem C7_flattening (h : Hooks) (fI : Item → Except String (List Item))
    (gI : Item → List Item) (fS : Stmt → Except String (List Stmt)) (gS : Stmt → List Stmt)
    (hovI : h.foldItemO = some fI) (hovS : h.foldStmtO = some fS) :
    ∀ (n : Nat) (items : List Item) (stmts : List Stmt),
      items.length < n → (∀ x ∈ items, fI x = .ok (gI x)) →
      stmts.length < n → (∀ x ∈ stmts, fS x = .ok (gS x)) →
      fold_items h n items = .ok (items.flatMap gI) ∧
      (items.flatMap gI).length = (items.map fun x => (gI x).length).sum ∧
      (∀ inner, noop_fold_mod h (n+1) (.Mod_mk inner items) =
         .ok (.Mod_mk (h.newSpan inner) (items.flatMap gI))) ∧
      fold_stmts h n stmts = .ok (stmts.flatMap gS) ∧
      (stmts.flatMap gS).length = (stmts.map fun x => (gS x).length).sum := by
  intro n items stmts hlI hallI hlS hallS
  have hI := items_flat h fI gI hovI n items hlI hallI
  have hS := stmts_flat h fS gS hovS n stmts hlS hallS
  refine ⟨hI, flat_len gI items, ?_, hS, flat_len gS stmts⟩
  intro inner
  simp only [noop_fold_mod, hI, exc_bind_ok, exc_pure_eq]

theorem C7_witness :
    fold_items c7Hooks 2 [constItem] = .ok ([constItem].flatMap fun i => [i, i]) ∧
    noop_fold_mod c7Hooks 3 (.Mod_mk 9 [constItem]) =
      .ok (.Mod_mk (c7Hooks.newSpan 9) ([constItem].flatMap fun i => [i, i])) ∧
    fold_stmts c7Hooks 2 [stmt0] = .ok ([stmt0].flatMap fun _ => ([] : List Stmt)) := by
  have H := C7_flattening c7Hooks (fun i => pure [i, i]) (fun i => [i, i])
    (fun _ => pure []) (fun _ => []) rfl rfl 2 [constItem] [stmt0]
    (by decide) (fun x _ => rfl) (by decide) (fun x _ => rfl)
  exact ⟨H.1, H.2.2.1 9, H.2.2.2.1⟩

/-- Claim C8 (corrected), counterexample: an interpolated token is a token
kind that is neither identifier-bearing nor returned unchanged — the
default token fold recurses into it, so a constant-`"K"` identifier
folder rewrites the identifier inside an interpolated identifier
fragment. -/
theorem C8_counterexample :
    (noop_fold_token (KHooks "K") 3 ntTok).map tokNtIdentName = .ok "K" ∧
    tokNtIdentName ntTok = "a" ∧ ("K" : Ident) ≠ "a" :=
  ⟨rfl, rfl, by decide⟩

/-- Claim C8 (corrected): the default token fold routes exactly the four
identifier-bearing token kinds (plain identifier, lifetime,
pattern-substitution placeholder, pattern match-binder placeholder)
through the identifier hook, routes interpolated fragments through the
interpolated-fragment adapter, and returns literal, keyword and all
remaining token kinds unchanged. -/
theorem C8_token_routing (h : Hooks) (n : Nat) :
    (∀ i s, noop_fold_token h (n+1) (.Token_Ident i s) =
       .ok (.Token_Ident (h.foldIdent i) s)) ∧
    (∀ i, noop_fold_token h (n+1) (.Token_Lifetime i) =
       .ok (.Token_Lifetime (h.foldIdent i))) ∧
    (∀ i p, noop_fold_token h (n+1) (.Token_SubstNt i p) =
       .ok (.Token_SubstNt (h.foldIdent i) p)) ∧
    (∀ a b p q, noop_fold_token h (n+1) (.Token_MatchNt a b p q) =
       .ok (.Token_MatchNt (h.foldIdent a) (h.foldIdent b) p q)) ∧
    (∀ nt, noop_fold_token h (n+1) (.Token_Interpolated nt) =
       noop_fold_interpolated h n nt >>= fun nt2 => pure (.Token_Interpolated nt2)) ∧
    (∀ l suf, noop_fold_token h (n+1) (.Token_Literal l suf) = .ok (.Token_Literal l suf)) ∧
    (∀ k, noop_fold_token h (n+1) (.Token_Keyword k) = .ok (.Token_Keyword k)) ∧
    (∀ k, noop_fold_token h (n+1) (.Token_Other k) = .ok (.Token_Other k)) :=
  ⟨fun i s => rfl, fun i => rfl, fun i p => rfl, fun a b p q => rfl, fun nt => rfl,
   fun l suf => rfl, fun k => rfl, fun k => rfl⟩

/-- Claim C9 (confirmed): the default rewrite hooks are identity — the
default `new_id` and `new_span` return their argument — and a folder
overriding neither leaves routed identities and spans unchanged: the
lifetime fold is the identity, and successful type and block folds
preserve id and span. -/
theorem C9_default_rewrite_hooks (n : Nat) :
    (∀ i, ({} : Hooks).newId i = i) ∧
    (∀ s, ({} : Hooks).newSpan s = s) ∧
    (∀ l, noop_fold_lifetime ({} : Hooks) l = l) ∧
    (∀ x y, noop_fold_ty ({} : Hooks) (n+1) x = .ok y →
       Ty.id y = Ty.id x ∧ Ty.span y = Ty.span x) ∧
    (∀ x y, noop_fold_block ({} : Hooks) (n+1) x = .ok y →
       Block.id y = Block.id x ∧ Block.span y = Block.span x) := by
  refine ⟨fun i => rfl, fun s => rfl, fun l => rfl, ?_, ?_⟩
  · intro x y hxy
    cases x with
    | Ty_mk i node sp =>
      simp only [noop_fold_ty] at hxy
      cases node <;>
        (try simp only [exc_bind_assoc, exc_bind_ok, exc_pure_eq] at hxy) <;>
        (repeat split at hxy) <;>
        (try simp only [exc_bind_assoc, exc_bind_ok, exc_pure_eq] at hxy) <;>
        (repeat obtain ⟨_, _, hxy⟩ := bind_ok_inv _ _ _ hxy) <;>
        (try simp only [exc_pure_eq, Except.ok.injEq] at hxy) <;>
        (subst hxy; exact ⟨rfl, rfl⟩)
  · intro x y hxy
    cases x with
    | Block_mk i stmts e rules sp =>
      simp only [noop_fold_block] at hxy
      (try simp only [exc_bind_assoc, exc_bind_ok, exc_pure_eq] at hxy) <;>
        (repeat split at hxy) <;>
        (try simp only [exc_bind_assoc, exc_bind_ok, exc_pure_eq] at hxy) <;>
        (repeat obtain ⟨_, _, hxy⟩ := bind_ok_inv _ _ _ hxy) <;>
        (try simp only [exc_pure_eq, Except.ok.injEq] at hxy) <;>
        (subst hxy; exact ⟨rfl, rfl⟩)

theorem C9_witness :
    (Ty.id inferTy = Ty.id inferTy ∧ Ty.span inferTy = Ty.span inferTy) ∧
    (Block.id emptyBlock = Block.id emptyBlock ∧ Block.span emptyBlock = Block.span emptyBlock) :=
  ⟨(C9_default_rewrite_hooks 1).2.2.2.1 inferTy inferTy rfl,
   (C9_default_rewrite_hooks 1).2.2.2.2 emptyBlock emptyBlock rfl⟩

/-- Claim C10 (confirmed): when the item fold of the synthetic whole-unit
module yields zero items, the unit fold succeeds and returns a unit with
an empty module at the input span, an empty attribute list, the input
span, the folded config meta-items, and the exported macros with their
identities rewritten through `new_id`. -/
theorem C10_zero_items (h : Hooks) (f : Item → Except String (List Item)) (n : Nat)
    (module : Mod) (attrs : List Attribute) (config : List MetaItem)
    (ems : List MacroDef) (span : Span) (cfg : List MetaItem)
    (hov : h.foldItemO = some f)
    (hcfg : noop_fold_meta_items h (n+1) config = .ok cfg)
    (hz : f (.Item_mk DUMMY_NODE_ID invalidIdent attrs (.ItemKind_Mod module) .Public span) =
      .ok []) :
    noop_fold_crate h (n+2) ⟨module, attrs, config, ems, span⟩ =
      .ok ⟨.Mod_mk span [], [], cfg,
        ems.map (fun d => MacroDef.mk d.ident d.attrs (h.newId d.id) d.span
          d.imported_from d.exportM d.use_locally d.allow_internal_unstable d.body),
        span⟩ := by
  simp only [noop_fold_crate, fold_item, hov, hcfg, hz, exc_bind_ok, exc_pure_eq,
    exc_bind_assoc]

theorem C10_witness :
    noop_fold_crate zeroItemHooks 2 crate1 = .ok ⟨.Mod_mk 1 [], [], [], [], 1⟩ :=
  C10_zero_items zeroItemHooks (fun _ => pure []) 0 (.Mod_mk 1 [constItem]) [] [] [] 1 []
    rfl rfl rfl

end Ast
